import Mathlib

/-!
Verification of the synchronization-validation diagnostics catalog
(`layers/sync/sync_vuid_maps.cpp`) and of the spec-level hazard model of the
synchronization validation engine.

The diagnostics catalog is embedded shallowly: the C++ lookup tables become
Lean association lists (`std::map` built from an initializer list keeps the
first occurrence of a duplicated key, and `FindVUID` scans entry containers
with `find_if`, i.e. first match wins, so ordered lists are a faithful model),
and the `Get*VUID` functions become Lean functions over them.

`Location`, `Key`, `Entry` and `FindVUID` are declared in
`error_message/core_error_location.h`, which is not part of the sources under
verification; they are modelled from their use sites and the spec (§6
"Diagnostics Catalog lookup"): a location carries the call-site function,
structure and field, and a key matches a location when every non-empty
component of the key equals the corresponding component of the location.
-/

namespace sync_vuid_maps

/-- Call-site functions appearing as lookup keys (`core_error::Func`). -/
inductive Func where
  | Empty
  | vkCmdPipelineBarrier
  | vkCmdPipelineBarrier2
  | vkCmdResetEvent
  | vkCmdResetEvent2
  | vkCmdSetEvent
  | vkCmdWaitEvents
  | vkCmdWaitEvents2
  | vkCmdWriteTimestamp
  | vkCmdWriteTimestamp2
  | vkQueueSubmit
  | vkQueueSubmit2
  | vkQueueBindSparse
  | vkQueuePresentKHR
deriving DecidableEq, Repr, BEq

/-- Call-site structures appearing as lookup keys (`core_error::Struct`). -/
inductive Struct where
  | Empty
  | VkMemoryBarrier2
  | VkBufferMemoryBarrier
  | VkBufferMemoryBarrier2
  | VkImageMemoryBarrier
  | VkImageMemoryBarrier2
  | VkSemaphoreSubmitInfo
  | VkSubmitInfo
  | VkSubmitInfo2
  | VkSubpassDependency
  | VkSubpassDependency2
  | VkSemaphoreSignalInfo
  | VkBindSparseInfo
  | VkProtectedSubmitInfo
deriving DecidableEq, Repr, BEq

/-- Fields appearing as lookup keys (`core_error::Field`). -/
inductive Field where
  | Empty
  | srcStageMask
  | dstStageMask
  | stageMask
  | stage
  | pipelineStage
  | pWaitDstStageMask
  | srcAccessMask
  | dstAccessMask
  | pSignalSemaphoreInfos
  | pWaitSemaphoreInfos
  | pWaitSemaphores
  | pSignalSemaphores
deriving DecidableEq, Repr, BEq

/-- Lookup key of a VUID table entry (`core_error::Key`). -/
structure Key where
  struct : Struct
  function : Func
  field : Field
  recurseField : Bool
deriving DecidableEq, Repr, BEq

/-- `Key(Struct::s, Field::f, r)` constructor form. -/
def Key.ofStruct (s : Struct) (f : Field) (r : Bool) : Key :=
  ⟨s, Func.Empty, f, r⟩

/-- `Key(Func::fn, Field::f, r)` constructor form. -/
def Key.ofFunc (fn : Func) (f : Field) (r : Bool) : Key :=
  ⟨Struct.Empty, fn, f, r⟩

/-- One row of a VUID lookup table (`core_error::Entry`). -/
structure Entry where
  key : Key
  vuid : String
deriving DecidableEq, Repr

/-- Modelled from the spec: the call-site context of a diagnostics-catalog
lookup (`Location` from `error_message/core_error_location.h`, not among the
sources under verification).  Per §6 the catalog is "a pure function over a
closed set of (call-site function/struct, field, capability-enablement) keys",
so a location is the (function, structure, field) triple of the call site. -/
structure Location where
  function : Func
  struct : Struct
  field : Field
deriving DecidableEq, Repr

/-- Modelled from the spec: `Location::Match` — a key matches a location when
each non-`Empty` component of the key equals the corresponding component of
the location (keys with an `Empty` field, such as the bare
`Key(Struct::VkBufferMemoryBarrier)`, match every field of that structure). -/
def Location.matchKey (loc : Location) (k : Key) : Bool :=
  (k.function == Func.Empty || k.function == loc.function) &&
  (k.struct == Struct.Empty || k.struct == loc.struct) &&
  (k.field == Field.Empty || k.field == loc.field)

/-- Modelled from the spec: `FindVUID(loc, table)` — first entry whose key
matches the location wins (`std::find_if` over the entry container), and the
empty string is returned when nothing matches. -/
def FindVUID (loc : Location) : List Entry → String
  | [] => ""
  | e :: rest => if loc.matchKey e.key then e.vuid else FindVUID loc rest

/-- Generic association-list lookup, the model of `std::map::find` on a map
built from an initializer list (first occurrence of a duplicated key wins). -/
def mapLookup {α β : Type} [BEq α] (k : α) (t : List (α × β)) : Option β :=
  (t.find? (fun p => p.1 == k)).map (·.2)

/-- Modelled from the spec: the two-level `FindVUID(key, loc, map)` overload —
look the outer key up in the map, then scan the inner entry list. -/
def FindVUID2 {α : Type} [BEq α] (k : α) (loc : Location) (t : List (α × List Entry)) : String :=
  match mapLookup k t with
  | some entries => FindVUID loc entries
  | none => ""

/-- All VUID strings of a two-level table. -/
def tableVuids {α : Type} (t : List (α × List Entry)) : List String :=
  (t.map (fun p => p.2.map Entry.vuid)).flatten

/-- Modelled from the spec: the capability snapshot (§6 "a read-only snapshot
of which optional device capabilities/extensions are enabled").  The real
`DeviceExtensions` struct has one flag per known extension; the model keeps
the two flags this file reads plus one representative flag it does not. -/
structure DeviceExtensions where
  vk_khr_synchronization2 : Bool
  vk_nv_shading_rate_image : Bool
  vk_khr_fragment_shading_rate : Bool
deriving DecidableEq, Repr

/-- Modelled from the spec: `IsExtEnabled` on a snapshot flag. -/
def IsExtEnabled (b : Bool) : Bool := b

/-- `VK_PIPELINE_STAGE_2_NONE` -/
def VK_PIPELINE_STAGE_2_NONE : Nat := 0
/-- `VK_PIPELINE_STAGE_2_TESSELLATION_CONTROL_SHADER_BIT_KHR` -/
def VK_PIPELINE_STAGE_2_TESSELLATION_CONTROL_SHADER_BIT_KHR : Nat := 0x10
/-- `VK_PIPELINE_STAGE_2_TESSELLATION_EVALUATION_SHADER_BIT_KHR` -/
def VK_PIPELINE_STAGE_2_TESSELLATION_EVALUATION_SHADER_BIT_KHR : Nat := 0x20
/-- `VK_PIPELINE_STAGE_2_GEOMETRY_SHADER_BIT_KHR` -/
def VK_PIPELINE_STAGE_2_GEOMETRY_SHADER_BIT_KHR : Nat := 0x40
/-- `VK_PIPELINE_STAGE_2_COMMAND_PREPROCESS_BIT_NV` -/
def VK_PIPELINE_STAGE_2_COMMAND_PREPROCESS_BIT_NV : Nat := 0x20000
/-- `VK_PIPELINE_STAGE_2_CONDITIONAL_RENDERING_BIT_EXT` -/
def VK_PIPELINE_STAGE_2_CONDITIONAL_RENDERING_BIT_EXT : Nat := 0x40000
/-- `VK_PIPELINE_STAGE_2_TASK_SHADER_BIT_EXT` -/
def VK_PIPELINE_STAGE_2_TASK_SHADER_BIT_EXT : Nat := 0x80000
/-- `VK_PIPELINE_STAGE_2_MESH_SHADER_BIT_EXT` -/
def VK_PIPELINE_STAGE_2_MESH_SHADER_BIT_EXT : Nat := 0x100000
/-- `VK_PIPELINE_STAGE_2_RAY_TRACING_SHADER_BIT_KHR` -/
def VK_PIPELINE_STAGE_2_RAY_TRACING_SHADER_BIT_KHR : Nat := 0x200000
/-- `VK_PIPELINE_STAGE_2_FRAGMENT_SHADING_RATE_ATTACHMENT_BIT_KHR` -/
def VK_PIPELINE_STAGE_2_FRAGMENT_SHADING_RATE_ATTACHMENT_BIT_KHR : Nat := 0x400000
/-- `VK_PIPELINE_STAGE_2_FRAGMENT_DENSITY_PROCESS_BIT_EXT` -/
def VK_PIPELINE_STAGE_2_FRAGMENT_DENSITY_PROCESS_BIT_EXT : Nat := 0x800000
/-- `VK_PIPELINE_STAGE_2_TRANSFORM_FEEDBACK_BIT_EXT` -/
def VK_PIPELINE_STAGE_2_TRANSFORM_FEEDBACK_BIT_EXT : Nat := 0x1000000
/-- `VK_PIPELINE_STAGE_2_ACCELERATION_STRUCTURE_BUILD_BIT_KHR` -/
def VK_PIPELINE_STAGE_2_ACCELERATION_STRUCTURE_BUILD_BIT_KHR : Nat := 0x2000000

/-- `VK_ACCESS_2_INDIRECT_COMMAND_READ_BIT_KHR` -/
def VK_ACCESS_2_INDIRECT_COMMAND_READ_BIT_KHR : Nat := 0x1
/-- `VK_ACCESS_2_INDEX_READ_BIT_KHR` -/
def VK_ACCESS_2_INDEX_READ_BIT_KHR : Nat := 0x2
/-- `VK_ACCESS_2_VERTEX_ATTRIBUTE_READ_BIT_KHR` -/
def VK_ACCESS_2_VERTEX_ATTRIBUTE_READ_BIT_KHR : Nat := 0x4
/-- `VK_ACCESS_2_UNIFORM_READ_BIT_KHR` -/
def VK_ACCESS_2_UNIFORM_READ_BIT_KHR : Nat := 0x8
/-- `VK_ACCESS_2_INPUT_ATTACHMENT_READ_BIT_KHR` -/
def VK_ACCESS_2_INPUT_ATTACHMENT_READ_BIT_KHR : Nat := 0x10
/-- `VK_ACCESS_2_SHADER_READ_BIT_KHR` -/
def VK_ACCESS_2_SHADER_READ_BIT_KHR : Nat := 0x20
/-- `VK_ACCESS_2_SHADER_WRITE_BIT_KHR` -/
def VK_ACCESS_2_SHADER_WRITE_BIT_KHR : Nat := 0x40
/-- `VK_ACCESS_2_COLOR_ATTACHMENT_READ_BIT_KHR` -/
def VK_ACCESS_2_COLOR_ATTACHMENT_READ_BIT_KHR : Nat := 0x80
/-- `VK_ACCESS_2_COLOR_ATTACHMENT_WRITE_BIT_KHR` -/
def VK_ACCESS_2_COLOR_ATTACHMENT_WRITE_BIT_KHR : Nat := 0x100
/-- `VK_ACCESS_2_DEPTH_STENCIL_ATTACHMENT_READ_BIT_KHR` -/
def VK_ACCESS_2_DEPTH_STENCIL_ATTACHMENT_READ_BIT_KHR : Nat := 0x200
/-- `VK_ACCESS_2_DEPTH_STENCIL_ATTACHMENT_WRITE_BIT_KHR` -/
def VK_ACCESS_2_DEPTH_STENCIL_ATTACHMENT_WRITE_BIT_KHR : Nat := 0x400
/-- `VK_ACCESS_2_TRANSFER_READ_BIT_KHR` -/
def VK_ACCESS_2_TRANSFER_READ_BIT_KHR : Nat := 0x800
/-- `VK_ACCESS_2_TRANSFER_WRITE_BIT_KHR` -/
def VK_ACCESS_2_TRANSFER_WRITE_BIT_KHR : Nat := 0x1000
/-- `VK_ACCESS_2_HOST_READ_BIT_KHR` -/
def VK_ACCESS_2_HOST_READ_BIT_KHR : Nat := 0x2000
/-- `VK_ACCESS_2_HOST_WRITE_BIT_KHR` -/
def VK_ACCESS_2_HOST_WRITE_BIT_KHR : Nat := 0x4000
/-- `VK_ACCESS_2_COMMAND_PREPROCESS_READ_BIT_NV` -/
def VK_ACCESS_2_COMMAND_PREPROCESS_READ_BIT_NV : Nat := 0x20000
/-- `VK_ACCESS_2_COMMAND_PREPROCESS_WRITE_BIT_NV` -/
def VK_ACCESS_2_COMMAND_PREPROCESS_WRITE_BIT_NV : Nat := 0x40000
/-- `VK_ACCESS_2_COLOR_ATTACHMENT_READ_NONCOHERENT_BIT_EXT` -/
def VK_ACCESS_2_COLOR_ATTACHMENT_READ_NONCOHERENT_BIT_EXT : Nat := 0x80000
/-- `VK_ACCESS_2_CONDITIONAL_RENDERING_READ_BIT_EXT` -/
def VK_ACCESS_2_CONDITIONAL_RENDERING_READ_BIT_EXT : Nat := 0x100000
/-- `VK_ACCESS_2_ACCELERATION_STRUCTURE_READ_BIT_KHR` -/
def VK_ACCESS_2_ACCELERATION_STRUCTURE_READ_BIT_KHR : Nat := 0x200000
/-- `VK_ACCESS_2_ACCELERATION_STRUCTURE_WRITE_BIT_KHR` -/
def VK_ACCESS_2_ACCELERATION_STRUCTURE_WRITE_BIT_KHR : Nat := 0x400000
/-- `VK_ACCESS_2_SHADING_RATE_IMAGE_READ_BIT_NV` -/
def VK_ACCESS_2_SHADING_RATE_IMAGE_READ_BIT_NV : Nat := 0x800000
/-- `VK_ACCESS_2_FRAGMENT_DENSITY_MAP_READ_BIT_EXT` -/
def VK_ACCESS_2_FRAGMENT_DENSITY_MAP_READ_BIT_EXT : Nat := 0x1000000
/-- `VK_ACCESS_2_TRANSFORM_FEEDBACK_WRITE_BIT_EXT` -/
def VK_ACCESS_2_TRANSFORM_FEEDBACK_WRITE_BIT_EXT : Nat := 0x2000000
/-- `VK_ACCESS_2_TRANSFORM_FEEDBACK_COUNTER_READ_BIT_EXT` -/
def VK_ACCESS_2_TRANSFORM_FEEDBACK_COUNTER_READ_BIT_EXT : Nat := 0x4000000
/-- `VK_ACCESS_2_TRANSFORM_FEEDBACK_COUNTER_WRITE_BIT_EXT` -/
def VK_ACCESS_2_TRANSFORM_FEEDBACK_COUNTER_WRITE_BIT_EXT : Nat := 0x8000000
/-- `VK_ACCESS_2_SHADER_SAMPLED_READ_BIT_KHR` -/
def VK_ACCESS_2_SHADER_SAMPLED_READ_BIT_KHR : Nat := 0x100000000
/-- `VK_ACCESS_2_SHADER_STORAGE_READ_BIT_KHR` -/
def VK_ACCESS_2_SHADER_STORAGE_READ_BIT_KHR : Nat := 0x200000000
/-- `VK_ACCESS_2_SHADER_STORAGE_WRITE_BIT_KHR` -/
def VK_ACCESS_2_SHADER_STORAGE_WRITE_BIT_KHR : Nat := 0x400000000
/-- `VK_ACCESS_2_VIDEO_DECODE_READ_BIT_KHR` -/
def VK_ACCESS_2_VIDEO_DECODE_READ_BIT_KHR : Nat := 0x800000000
/-- `VK_ACCESS_2_VIDEO_DECODE_WRITE_BIT_KHR` -/
def VK_ACCESS_2_VIDEO_DECODE_WRITE_BIT_KHR : Nat := 0x1000000000
/-- `VK_ACCESS_2_VIDEO_ENCODE_READ_BIT_KHR` -/
def VK_ACCESS_2_VIDEO_ENCODE_READ_BIT_KHR : Nat := 0x2000000000
/-- `VK_ACCESS_2_VIDEO_ENCODE_WRITE_BIT_KHR` -/
def VK_ACCESS_2_VIDEO_ENCODE_WRITE_BIT_KHR : Nat := 0x4000000000
/-- `VK_ACCESS_2_INVOCATION_MASK_READ_BIT_HUAWEI` -/
def VK_ACCESS_2_INVOCATION_MASK_READ_BIT_HUAWEI : Nat := 0x8000000000
/-- `VK_ACCESS_2_SHADER_BINDING_TABLE_READ_BIT_KHR` -/
def VK_ACCESS_2_SHADER_BINDING_TABLE_READ_BIT_KHR : Nat := 0x10000000000
/-- `VK_ACCESS_2_DESCRIPTOR_BUFFER_READ_BIT_EXT` -/
def VK_ACCESS_2_DESCRIPTOR_BUFFER_READ_BIT_EXT : Nat := 0x20000000000

/-- `VK_IMAGE_LAYOUT_COLOR_ATTACHMENT_OPTIMAL` -/
def VK_IMAGE_LAYOUT_COLOR_ATTACHMENT_OPTIMAL : Nat := 2
/-- `VK_IMAGE_LAYOUT_DEPTH_STENCIL_ATTACHMENT_OPTIMAL` -/
def VK_IMAGE_LAYOUT_DEPTH_STENCIL_ATTACHMENT_OPTIMAL : Nat := 3
/-- `VK_IMAGE_LAYOUT_DEPTH_STENCIL_READ_ONLY_OPTIMAL` -/
def VK_IMAGE_LAYOUT_DEPTH_STENCIL_READ_ONLY_OPTIMAL : Nat := 4
/-- `VK_IMAGE_LAYOUT_SHADER_READ_ONLY_OPTIMAL` -/
def VK_IMAGE_LAYOUT_SHADER_READ_ONLY_OPTIMAL : Nat := 5
/-- `VK_IMAGE_LAYOUT_TRANSFER_SRC_OPTIMAL` -/
def VK_IMAGE_LAYOUT_TRANSFER_SRC_OPTIMAL : Nat := 6
/-- `VK_IMAGE_LAYOUT_TRANSFER_DST_OPTIMAL` -/
def VK_IMAGE_LAYOUT_TRANSFER_DST_OPTIMAL : Nat := 7
/-- `VK_IMAGE_LAYOUT_VIDEO_DECODE_DST_KHR` -/
def VK_IMAGE_LAYOUT_VIDEO_DECODE_DST_KHR : Nat := 1000024000
/-- `VK_IMAGE_LAYOUT_VIDEO_DECODE_SRC_KHR` -/
def VK_IMAGE_LAYOUT_VIDEO_DECODE_SRC_KHR : Nat := 1000024001
/-- `VK_IMAGE_LAYOUT_VIDEO_DECODE_DPB_KHR` -/
def VK_IMAGE_LAYOUT_VIDEO_DECODE_DPB_KHR : Nat := 1000024002
/-- `VK_IMAGE_LAYOUT_DEPTH_READ_ONLY_STENCIL_ATTACHMENT_OPTIMAL` -/
def VK_IMAGE_LAYOUT_DEPTH_READ_ONLY_STENCIL_ATTACHMENT_OPTIMAL : Nat := 1000117000
/-- `VK_IMAGE_LAYOUT_DEPTH_ATTACHMENT_STENCIL_READ_ONLY_OPTIMAL` -/
def VK_IMAGE_LAYOUT_DEPTH_ATTACHMENT_STENCIL_READ_ONLY_OPTIMAL : Nat := 1000117001
/-- `VK_IMAGE_LAYOUT_FRAGMENT_SHADING_RATE_ATTACHMENT_OPTIMAL_KHR` -/
def VK_IMAGE_LAYOUT_FRAGMENT_SHADING_RATE_ATTACHMENT_OPTIMAL_KHR : Nat := 1000164003
/-- `VK_IMAGE_LAYOUT_VIDEO_ENCODE_DST_KHR` -/
def VK_IMAGE_LAYOUT_VIDEO_ENCODE_DST_KHR : Nat := 1000299000
/-- `VK_IMAGE_LAYOUT_VIDEO_ENCODE_SRC_KHR` -/
def VK_IMAGE_LAYOUT_VIDEO_ENCODE_SRC_KHR : Nat := 1000299001
/-- `VK_IMAGE_LAYOUT_VIDEO_ENCODE_DPB_KHR` -/
def VK_IMAGE_LAYOUT_VIDEO_ENCODE_DPB_KHR : Nat := 1000299002
/-- `VK_IMAGE_LAYOUT_ATTACHMENT_FEEDBACK_LOOP_OPTIMAL_EXT` -/
def VK_IMAGE_LAYOUT_ATTACHMENT_FEEDBACK_LOOP_OPTIMAL_EXT : Nat := 1000339000

/-- Queue-family ownership-transfer error classification (`QueueError`). -/
inductive QueueError where
  | kSrcOrDstMustBeIgnore
  | kSpecialOrIgnoreOnly
  | kSrcAndDstValidOrSpecial
  | kSrcAndDestMustBeIgnore
  | kSrcAndDstBothValid
deriving DecidableEq, Repr, BEq

/-- Buffer-barrier error classification (`BufferError`). -/
inductive BufferError where
  | kNoMemory
  | kOffsetTooBig
  | kSizeOutOfRange
  | kSizeZero
  | kQueueFamilyExternal
deriving DecidableEq, Repr, BEq

/-- Image-barrier error classification (`ImageError`). -/
inductive ImageError where
  | kNoMemory
  | kConflictingLayout
  | kBadLayout
  | kBadAttFeedbackLoopLayout
  | kBadSync2OldLayout
  | kBadSync2NewLayout
  | kNotColorAspect
  | kNotColorAspectYcbcr
  | kBadMultiplanarAspect
  | kNotDepthOrStencilAspect
  | kNotDepthAndStencilAspect
  | kNotSeparateDepthAndStencilAspect
  | kSeparateDepthWithStencilLayout
  | kSeparateStencilhWithDepthLayout
  | kRenderPassMismatch
  | kRenderPassLayoutChange
deriving DecidableEq, Repr, BEq

/-- Queue-submit error classification (`SubmitError`). -/
inductive SubmitError where
  | kTimelineSemSmallValue
  | kSemAlreadySignalled
  | kOldBinaryCannotBeSignalled
  | kBinaryCannotBeSignalled
  | kTimelineSemMaxDiff
  | kProtectedFeatureDisabled
  | kBadUnprotectedSubmit
  | kBadProtectedSubmit
  | kCmdNotSimultaneous
  | kReusedOneTimeCmd
  | kSecondaryCmdNotSimultaneous
  | kCmdWrongQueueFamily
  | kSecondaryCmdInSubmit
  | kHostStageMask
  | kOtherQueueWaiting
deriving DecidableEq, Repr, BEq

/-- Shader-tile-image barrier error classification (`ShaderTileImageError`). -/
inductive ShaderTileImageError where
  | kShaderTileImageFeatureError
  | kShaderTileImageBarrierError
deriving DecidableEq, Repr, BEq

/-- `kFeatureNameMap`: stage bit to required feature name. -/
def kFeatureNameMap : List (Nat × String) := [
  (VK_PIPELINE_STAGE_2_GEOMETRY_SHADER_BIT_KHR, "geometryShader"),
  (VK_PIPELINE_STAGE_2_TESSELLATION_CONTROL_SHADER_BIT_KHR, "tessellationShader"),
  (VK_PIPELINE_STAGE_2_TESSELLATION_EVALUATION_SHADER_BIT_KHR, "tessellationShader"),
  (VK_PIPELINE_STAGE_2_CONDITIONAL_RENDERING_BIT_EXT, "conditionalRendering"),
  (VK_PIPELINE_STAGE_2_FRAGMENT_DENSITY_PROCESS_BIT_EXT, "fragmentDensity"),
  (VK_PIPELINE_STAGE_2_TRANSFORM_FEEDBACK_BIT_EXT, "transformFeedback"),
  (VK_PIPELINE_STAGE_2_MESH_SHADER_BIT_EXT, "meshShader"),
  (VK_PIPELINE_STAGE_2_TASK_SHADER_BIT_EXT, "taskShader"),
  (VK_PIPELINE_STAGE_2_FRAGMENT_SHADING_RATE_ATTACHMENT_BIT_KHR, "shadingRate"),
  (VK_PIPELINE_STAGE_2_ACCELERATION_STRUCTURE_BUILD_BIT_KHR, "rayTracing"),
  (VK_PIPELINE_STAGE_2_RAY_TRACING_SHADER_BIT_KHR, "rayTracing")
]

/-- `kStageMaskErrors`: per stage bit, per call site, the feature VUID. -/
def kStageMaskErrors : List (Nat × List Entry) := [
  (VK_PIPELINE_STAGE_2_CONDITIONAL_RENDERING_BIT_EXT, [
    Entry.mk (Key.ofStruct Struct.VkBufferMemoryBarrier2 Field.dstStageMask false) "VUID-VkBufferMemoryBarrier2-dstStageMask-03931",
    Entry.mk (Key.ofStruct Struct.VkBufferMemoryBarrier2 Field.srcStageMask false) "VUID-VkBufferMemoryBarrier2-srcStageMask-03931",
    Entry.mk (Key.ofFunc Func.vkCmdPipelineBarrier Field.dstStageMask false) "VUID-vkCmdPipelineBarrier-dstStageMask-04092",
    Entry.mk (Key.ofFunc Func.vkCmdPipelineBarrier Field.srcStageMask false) "VUID-vkCmdPipelineBarrier-srcStageMask-04092",
    Entry.mk (Key.ofFunc Func.vkCmdResetEvent2 Field.stageMask false) "VUID-vkCmdResetEvent2-stageMask-03931",
    Entry.mk (Key.ofFunc Func.vkCmdResetEvent Field.stageMask false) "VUID-vkCmdResetEvent-stageMask-04092",
    Entry.mk (Key.ofFunc Func.vkCmdSetEvent Field.stageMask false) "VUID-vkCmdSetEvent-stageMask-04092",
    Entry.mk (Key.ofFunc Func.vkCmdWaitEvents Field.dstStageMask false) "VUID-vkCmdWaitEvents-dstStageMask-04092",
    Entry.mk (Key.ofFunc Func.vkCmdWaitEvents Field.srcStageMask false) "VUID-vkCmdWaitEvents-srcStageMask-04092",
    Entry.mk (Key.ofFunc Func.vkCmdWriteTimestamp2 Field.stage false) "VUID-vkCmdWriteTimestamp2-stage-03931",
    Entry.mk (Key.ofFunc Func.vkCmdWriteTimestamp Field.pipelineStage false) "VUID-vkCmdWriteTimestamp-pipelineStage-04077",
    Entry.mk (Key.ofStruct Struct.VkImageMemoryBarrier2 Field.dstStageMask false) "VUID-VkImageMemoryBarrier2-dstStageMask-03931",
    Entry.mk (Key.ofStruct Struct.VkImageMemoryBarrier2 Field.srcStageMask false) "VUID-VkImageMemoryBarrier2-srcStageMask-03931",
    Entry.mk (Key.ofStruct Struct.VkMemoryBarrier2 Field.dstStageMask false) "VUID-VkMemoryBarrier2-dstStageMask-03931",
    Entry.mk (Key.ofStruct Struct.VkMemoryBarrier2 Field.srcStageMask false) "VUID-VkMemoryBarrier2-srcStageMask-03931",
    Entry.mk (Key.ofStruct Struct.VkSemaphoreSubmitInfo Field.stageMask false) "VUID-VkSemaphoreSubmitInfo-stageMask-03931",
    Entry.mk (Key.ofStruct Struct.VkSubmitInfo Field.pWaitDstStageMask false) "VUID-VkSubmitInfo-pWaitDstStageMask-04092",
    Entry.mk (Key.ofStruct Struct.VkSubpassDependency Field.srcStageMask false) "VUID-VkSubpassDependency-srcStageMask-04092",
    Entry.mk (Key.ofStruct Struct.VkSubpassDependency Field.dstStageMask false) "VUID-VkSubpassDependency-dstStageMask-04092",
    Entry.mk (Key.ofStruct Struct.VkSubpassDependency2 Field.srcStageMask false) "VUID-VkSubpassDependency2-srcStageMask-04092",
    Entry.mk (Key.ofStruct Struct.VkSubpassDependency2 Field.dstStageMask false) "VUID-VkSubpassDependency2-dstStageMask-04092"]),
  (VK_PIPELINE_STAGE_2_FRAGMENT_DENSITY_PROCESS_BIT_EXT, [
    Entry.mk (Key.ofStruct Struct.VkBufferMemoryBarrier2 Field.dstStageMask false) "VUID-VkBufferMemoryBarrier2-dstStageMask-03932",
    Entry.mk (Key.ofStruct Struct.VkBufferMemoryBarrier2 Field.srcStageMask false) "VUID-VkBufferMemoryBarrier2-srcStageMask-03932",
    Entry.mk (Key.ofFunc Func.vkCmdPipelineBarrier Field.dstStageMask false) "VUID-vkCmdPipelineBarrier-dstStageMask-04093",
    Entry.mk (Key.ofFunc Func.vkCmdPipelineBarrier Field.srcStageMask false) "VUID-vkCmdPipelineBarrier-srcStageMask-04093",
    Entry.mk (Key.ofFunc Func.vkCmdResetEvent2 Field.stageMask false) "VUID-vkCmdResetEvent2-stageMask-03932",
    Entry.mk (Key.ofFunc Func.vkCmdResetEvent Field.stageMask false) "VUID-vkCmdResetEvent-stageMask-04093",
    Entry.mk (Key.ofFunc Func.vkCmdSetEvent Field.stageMask false) "VUID-vkCmdSetEvent-stageMask-04093",
    Entry.mk (Key.ofFunc Func.vkCmdWaitEvents Field.dstStageMask false) "VUID-vkCmdWaitEvents-dstStageMask-04093",
    Entry.mk (Key.ofFunc Func.vkCmdWaitEvents Field.srcStageMask false) "VUID-vkCmdWaitEvents-srcStageMask-04093",
    Entry.mk (Key.ofFunc Func.vkCmdWriteTimestamp2 Field.stage false) "VUID-vkCmdWriteTimestamp2-stage-03932",
    Entry.mk (Key.ofFunc Func.vkCmdWriteTimestamp Field.pipelineStage false) "VUID-vkCmdWriteTimestamp-pipelineStage-04078",
    Entry.mk (Key.ofStruct Struct.VkImageMemoryBarrier2 Field.dstStageMask false) "VUID-VkImageMemoryBarrier2-dstStageMask-03932",
    Entry.mk (Key.ofStruct Struct.VkImageMemoryBarrier2 Field.srcStageMask false) "VUID-VkImageMemoryBarrier2-srcStageMask-03932",
    Entry.mk (Key.ofStruct Struct.VkMemoryBarrier2 Field.dstStageMask false) "VUID-VkMemoryBarrier2-dstStageMask-03932",
    Entry.mk (Key.ofStruct Struct.VkMemoryBarrier2 Field.srcStageMask false) "VUID-VkMemoryBarrier2-srcStageMask-03932",
    Entry.mk (Key.ofStruct Struct.VkSemaphoreSubmitInfo Field.stageMask false) "VUID-VkSemaphoreSubmitInfo-stageMask-03932",
    Entry.mk (Key.ofStruct Struct.VkSubmitInfo Field.pWaitDstStageMask false) "VUID-VkSubmitInfo-pWaitDstStageMask-04093",
    Entry.mk (Key.ofStruct Struct.VkSubpassDependency Field.srcStageMask false) "VUID-VkSubpassDependency-srcStageMask-04093",
    Entry.mk (Key.ofStruct Struct.VkSubpassDependency Field.dstStageMask false) "VUID-VkSubpassDependency-dstStageMask-04093",
    Entry.mk (Key.ofStruct Struct.VkSubpassDependency2 Field.srcStageMask false) "VUID-VkSubpassDependency2-srcStageMask-04093",
    Entry.mk (Key.ofStruct Struct.VkSubpassDependency2 Field.dstStageMask false) "VUID-VkSubpassDependency2-dstStageMask-04093"]),
  (VK_PIPELINE_STAGE_2_GEOMETRY_SHADER_BIT_KHR, [
    Entry.mk (Key.ofStruct Struct.VkBufferMemoryBarrier2 Field.dstStageMask false) "VUID-VkBufferMemoryBarrier2-dstStageMask-03929",
    Entry.mk (Key.ofStruct Struct.VkBufferMemoryBarrier2 Field.srcStageMask false) "VUID-VkBufferMemoryBarrier2-srcStageMask-03929",
    Entry.mk (Key.ofFunc Func.vkCmdPipelineBarrier Field.dstStageMask false) "VUID-vkCmdPipelineBarrier-dstStageMask-04090",
    Entry.mk (Key.ofFunc Func.vkCmdPipelineBarrier Field.srcStageMask false) "VUID-vkCmdPipelineBarrier-srcStageMask-04090",
    Entry.mk (Key.ofFunc Func.vkCmdResetEvent2 Field.stageMask false) "VUID-vkCmdResetEvent2-stageMask-03929",
    Entry.mk (Key.ofFunc Func.vkCmdResetEvent Field.stageMask false) "VUID-vkCmdResetEvent-stageMask-04090",
    Entry.mk (Key.ofFunc Func.vkCmdSetEvent Field.stageMask false) "VUID-vkCmdSetEvent-stageMask-04090",
    Entry.mk (Key.ofFunc Func.vkCmdWaitEvents Field.dstStageMask false) "VUID-vkCmdWaitEvents-dstStageMask-04090",
    Entry.mk (Key.ofFunc Func.vkCmdWaitEvents Field.srcStageMask false) "VUID-vkCmdWaitEvents-srcStageMask-04090",
    Entry.mk (Key.ofFunc Func.vkCmdWriteTimestamp2 Field.stage false) "VUID-vkCmdWriteTimestamp2-stage-03929",
    Entry.mk (Key.ofFunc Func.vkCmdWriteTimestamp Field.pipelineStage false) "VUID-vkCmdWriteTimestamp-pipelineStage-04075",
    Entry.mk (Key.ofStruct Struct.VkImageMemoryBarrier2 Field.dstStageMask false) "VUID-VkImageMemoryBarrier2-dstStageMask-03929",
    Entry.mk (Key.ofStruct Struct.VkImageMemoryBarrier2 Field.srcStageMask false) "VUID-VkImageMemoryBarrier2-srcStageMask-03929",
    Entry.mk (Key.ofStruct Struct.VkMemoryBarrier2 Field.dstStageMask false) "VUID-VkMemoryBarrier2-dstStageMask-03929",
    Entry.mk (Key.ofStruct Struct.VkMemoryBarrier2 Field.srcStageMask false) "VUID-VkMemoryBarrier2-srcStageMask-03929",
    Entry.mk (Key.ofStruct Struct.VkSemaphoreSubmitInfo Field.stageMask false) "VUID-VkSemaphoreSubmitInfo-stageMask-03929",
    Entry.mk (Key.ofStruct Struct.VkSubmitInfo Field.pWaitDstStageMask false) "VUID-VkSubmitInfo-pWaitDstStageMask-04090",
    Entry.mk (Key.ofStruct Struct.VkSubpassDependency Field.srcStageMask false) "VUID-VkSubpassDependency-srcStageMask-04090",
    Entry.mk (Key.ofStruct Struct.VkSubpassDependency Field.dstStageMask false) "VUID-VkSubpassDependency-dstStageMask-04090",
    Entry.mk (Key.ofStruct Struct.VkSubpassDependency2 Field.srcStageMask false) "VUID-VkSubpassDependency2-srcStageMask-04090",
    Entry.mk (Key.ofStruct Struct.VkSubpassDependency2 Field.dstStageMask false) "VUID-VkSubpassDependency2-dstStageMask-04090"]),
  (VK_PIPELINE_STAGE_2_MESH_SHADER_BIT_EXT, [
    Entry.mk (Key.ofStruct Struct.VkBufferMemoryBarrier2 Field.dstStageMask false) "VUID-VkBufferMemoryBarrier2-dstStageMask-03934",
    Entry.mk (Key.ofStruct Struct.VkBufferMemoryBarrier2 Field.srcStageMask false) "VUID-VkBufferMemoryBarrier2-srcStageMask-03934",
    Entry.mk (Key.ofFunc Func.vkCmdPipelineBarrier Field.dstStageMask false) "VUID-vkCmdPipelineBarrier-dstStageMask-04095",
    Entry.mk (Key.ofFunc Func.vkCmdPipelineBarrier Field.srcStageMask false) "VUID-vkCmdPipelineBarrier-srcStageMask-04095",
    Entry.mk (Key.ofFunc Func.vkCmdResetEvent2 Field.stageMask false) "VUID-vkCmdResetEvent2-stageMask-03934",
    Entry.mk (Key.ofFunc Func.vkCmdResetEvent Field.stageMask false) "VUID-vkCmdResetEvent-stageMask-04095",
    Entry.mk (Key.ofFunc Func.vkCmdSetEvent Field.stageMask false) "VUID-vkCmdSetEvent-stageMask-04095",
    Entry.mk (Key.ofFunc Func.vkCmdWaitEvents Field.dstStageMask false) "VUID-vkCmdWaitEvents-dstStageMask-04095",
    Entry.mk (Key.ofFunc Func.vkCmdWaitEvents Field.srcStageMask false) "VUID-vkCmdWaitEvents-srcStageMask-04095",
    Entry.mk (Key.ofFunc Func.vkCmdWriteTimestamp2 Field.stage false) "VUID-vkCmdWriteTimestamp2-stage-03934",
    Entry.mk (Key.ofFunc Func.vkCmdWriteTimestamp Field.pipelineStage false) "VUID-vkCmdWriteTimestamp-pipelineStage-04080",
    Entry.mk (Key.ofStruct Struct.VkImageMemoryBarrier2 Field.dstStageMask false) "VUID-VkImageMemoryBarrier2-dstStageMask-03934",
    Entry.mk (Key.ofStruct Struct.VkImageMemoryBarrier2 Field.srcStageMask false) "VUID-VkImageMemoryBarrier2-srcStageMask-03934",
    Entry.mk (Key.ofStruct Struct.VkMemoryBarrier2 Field.dstStageMask false) "VUID-VkMemoryBarrier2-dstStageMask-03934",
    Entry.mk (Key.ofStruct Struct.VkMemoryBarrier2 Field.srcStageMask false) "VUID-VkMemoryBarrier2-srcStageMask-03934",
    Entry.mk (Key.ofStruct Struct.VkSemaphoreSubmitInfo Field.stageMask false) "VUID-VkSemaphoreSubmitInfo-stageMask-03934",
    Entry.mk (Key.ofStruct Struct.VkSubmitInfo Field.pWaitDstStageMask false) "VUID-VkSubmitInfo-pWaitDstStageMask-04095",
    Entry.mk (Key.ofStruct Struct.VkSubpassDependency Field.srcStageMask false) "VUID-VkSubpassDependency-srcStageMask-04095",
    Entry.mk (Key.ofStruct Struct.VkSubpassDependency Field.dstStageMask false) "VUID-VkSubpassDependency-dstStageMask-04095",
    Entry.mk (Key.ofStruct Struct.VkSubpassDependency2 Field.srcStageMask false) "VUID-VkSubpassDependency2-srcStageMask-04095",
    Entry.mk (Key.ofStruct Struct.VkSubpassDependency2 Field.dstStageMask false) "VUID-VkSubpassDependency2-dstStageMask-04095"]),
  (VK_PIPELINE_STAGE_2_TASK_SHADER_BIT_EXT, [
    Entry.mk (Key.ofStruct Struct.VkBufferMemoryBarrier2 Field.dstStageMask false) "VUID-VkBufferMemoryBarrier2-dstStageMask-03935",
    Entry.mk (Key.ofStruct Struct.VkBufferMemoryBarrier2 Field.srcStageMask false) "VUID-VkBufferMemoryBarrier2-srcStageMask-03935",
    Entry.mk (Key.ofFunc Func.vkCmdPipelineBarrier Field.dstStageMask false) "VUID-vkCmdPipelineBarrier-dstStageMask-04096",
    Entry.mk (Key.ofFunc Func.vkCmdPipelineBarrier Field.srcStageMask false) "VUID-vkCmdPipelineBarrier-srcStageMask-04096",
    Entry.mk (Key.ofFunc Func.vkCmdResetEvent2 Field.stageMask false) "VUID-vkCmdResetEvent2-stageMask-03935",
    Entry.mk (Key.ofFunc Func.vkCmdResetEvent Field.stageMask false) "VUID-vkCmdResetEvent-stageMask-04096",
    Entry.mk (Key.ofFunc Func.vkCmdSetEvent Field.stageMask false) "VUID-vkCmdSetEvent-stageMask-04096",
    Entry.mk (Key.ofFunc Func.vkCmdWaitEvents Field.dstStageMask false) "VUID-vkCmdWaitEvents-dstStageMask-04096",
    Entry.mk (Key.ofFunc Func.vkCmdWaitEvents Field.srcStageMask false) "VUID-vkCmdWaitEvents-srcStageMask-04096",
    Entry.mk (Key.ofFunc Func.vkCmdWriteTimestamp2 Field.stage false) "VUID-vkCmdWriteTimestamp2-stage-03935",
    Entry.mk (Key.ofFunc Func.vkCmdWriteTimestamp Field.pipelineStage false) "VUID-vkCmdWriteTimestamp-pipelineStage-04080",
    Entry.mk (Key.ofStruct Struct.VkImageMemoryBarrier2 Field.dstStageMask false) "VUID-VkImageMemoryBarrier2-dstStageMask-03935",
    Entry.mk (Key.ofStruct Struct.VkImageMemoryBarrier2 Field.srcStageMask false) "VUID-VkImageMemoryBarrier2-srcStageMask-03935",
    Entry.mk (Key.ofStruct Struct.VkMemoryBarrier2 Field.dstStageMask false) "VUID-VkMemoryBarrier2-dstStageMask-03935",
    Entry.mk (Key.ofStruct Struct.VkMemoryBarrier2 Field.srcStageMask false) "VUID-VkMemoryBarrier2-srcStageMask-03935",
    Entry.mk (Key.ofStruct Struct.VkSemaphoreSubmitInfo Field.stageMask false) "VUID-VkSemaphoreSubmitInfo-stageMask-03935",
    Entry.mk (Key.ofStruct Struct.VkSubmitInfo Field.pWaitDstStageMask false) "VUID-VkSubmitInfo-pWaitDstStageMask-04096",
    Entry.mk (Key.ofStruct Struct.VkSubpassDependency Field.srcStageMask false) "VUID-VkSubpassDependency-srcStageMask-04096",
    Entry.mk (Key.ofStruct Struct.VkSubpassDependency Field.dstStageMask false) "VUID-VkSubpassDependency-dstStageMask-04096",
    Entry.mk (Key.ofStruct Struct.VkSubpassDependency2 Field.srcStageMask false) "VUID-VkSubpassDependency2-srcStageMask-04096",
    Entry.mk (Key.ofStruct Struct.VkSubpassDependency2 Field.dstStageMask false) "VUID-VkSubpassDependency2-dstStageMask-04096"]),
  (VK_PIPELINE_STAGE_2_TESSELLATION_CONTROL_SHADER_BIT_KHR, [
    Entry.mk (Key.ofStruct Struct.VkBufferMemoryBarrier2 Field.dstStageMask false) "VUID-VkBufferMemoryBarrier2-dstStageMask-03930",
    Entry.mk (Key.ofStruct Struct.VkBufferMemoryBarrier2 Field.srcStageMask false) "VUID-VkBufferMemoryBarrier2-srcStageMask-03930",
    Entry.mk (Key.ofFunc Func.vkCmdPipelineBarrier Field.dstStageMask false) "VUID-vkCmdPipelineBarrier-dstStageMask-04091",
    Entry.mk (Key.ofFunc Func.vkCmdPipelineBarrier Field.srcStageMask false) "VUID-vkCmdPipelineBarrier-srcStageMask-04091",
    Entry.mk (Key.ofFunc Func.vkCmdResetEvent2 Field.stageMask false) "VUID-vkCmdResetEvent2-stageMask-03930",
    Entry.mk (Key.ofFunc Func.vkCmdResetEvent Field.stageMask false) "VUID-vkCmdResetEvent-stageMask-04091",
    Entry.mk (Key.ofFunc Func.vkCmdSetEvent Field.stageMask false) "VUID-vkCmdSetEvent-stageMask-04091",
    Entry.mk (Key.ofFunc Func.vkCmdWaitEvents Field.dstStageMask false) "VUID-vkCmdWaitEvents-dstStageMask-04091",
    Entry.mk (Key.ofFunc Func.vkCmdWaitEvents Field.srcStageMask false) "VUID-vkCmdWaitEvents-srcStageMask-04091",
    Entry.mk (Key.ofFunc Func.vkCmdWriteTimestamp2 Field.stage false) "VUID-vkCmdWriteTimestamp2-stage-03930",
    Entry.mk (Key.ofFunc Func.vkCmdWriteTimestamp Field.pipelineStage false) "VUID-vkCmdWriteTimestamp-pipelineStage-04076",
    Entry.mk (Key.ofStruct Struct.VkImageMemoryBarrier2 Field.dstStageMask false) "VUID-VkImageMemoryBarrier2-dstStageMask-03930",
    Entry.mk (Key.ofStruct Struct.VkImageMemoryBarrier2 Field.srcStageMask false) "VUID-VkImageMemoryBarrier2-srcStageMask-03930",
    Entry.mk (Key.ofStruct Struct.VkMemoryBarrier2 Field.dstStageMask false) "VUID-VkMemoryBarrier2-dstStageMask-03930",
    Entry.mk (Key.ofStruct Struct.VkMemoryBarrier2 Field.srcStageMask false) "VUID-VkMemoryBarrier2-srcStageMask-03930",
    Entry.mk (Key.ofStruct Struct.VkSemaphoreSubmitInfo Field.stageMask false) "VUID-VkSemaphoreSubmitInfo-stageMask-03930",
    Entry.mk (Key.ofStruct Struct.VkSubmitInfo Field.pWaitDstStageMask false) "VUID-VkSubmitInfo-pWaitDstStageMask-04091",
    Entry.mk (Key.ofStruct Struct.VkSubpassDependency Field.srcStageMask false) "VUID-VkSubpassDependency-srcStageMask-04091",
    Entry.mk (Key.ofStruct Struct.VkSubpassDependency Field.dstStageMask false) "VUID-VkSubpassDependency-dstStageMask-04091",
    Entry.mk (Key.ofStruct Struct.VkSubpassDependency2 Field.srcStageMask false) "VUID-VkSubpassDependency2-srcStageMask-04091",
    Entry.mk (Key.ofStruct Struct.VkSubpassDependency2 Field.dstStageMask false) "VUID-VkSubpassDependency2-dstStageMask-04091"]),
  (VK_PIPELINE_STAGE_2_TESSELLATION_EVALUATION_SHADER_BIT_KHR, [
    Entry.mk (Key.ofStruct Struct.VkBufferMemoryBarrier2 Field.dstStageMask false) "VUID-VkBufferMemoryBarrier2-dstStageMask-03930",
    Entry.mk (Key.ofStruct Struct.VkBufferMemoryBarrier2 Field.srcStageMask false) "VUID-VkBufferMemoryBarrier2-srcStageMask-03930",
    Entry.mk (Key.ofFunc Func.vkCmdPipelineBarrier Field.dstStageMask false) "VUID-vkCmdPipelineBarrier-dstStageMask-04091",
    Entry.mk (Key.ofFunc Func.vkCmdPipelineBarrier Field.srcStageMask false) "VUID-vkCmdPipelineBarrier-srcStageMask-04091",
    Entry.mk (Key.ofFunc Func.vkCmdResetEvent2 Field.stageMask false) "VUID-vkCmdResetEvent2-stageMask-03930",
    Entry.mk (Key.ofFunc Func.vkCmdResetEvent Field.stageMask false) "VUID-vkCmdResetEvent-stageMask-04091",
    Entry.mk (Key.ofFunc Func.vkCmdSetEvent Field.stageMask false) "VUID-vkCmdSetEvent-stageMask-04091",
    Entry.mk (Key.ofFunc Func.vkCmdWaitEvents Field.dstStageMask false) "VUID-vkCmdWaitEvents-dstStageMask-04091",
    Entry.mk (Key.ofFunc Func.vkCmdWaitEvents Field.srcStageMask false) "VUID-vkCmdWaitEvents-srcStageMask-04091",
    Entry.mk (Key.ofFunc Func.vkCmdWriteTimestamp2 Field.stage false) "VUID-vkCmdWriteTimestamp2-stage-03930",
    Entry.mk (Key.ofFunc Func.vkCmdWriteTimestamp Field.pipelineStage false) "VUID-vkCmdWriteTimestamp-pipelineStage-04076",
    Entry.mk (Key.ofStruct Struct.VkImageMemoryBarrier2 Field.dstStageMask false) "VUID-VkImageMemoryBarrier2-dstStageMask-03930",
    Entry.mk (Key.ofStruct Struct.VkImageMemoryBarrier2 Field.srcStageMask false) "VUID-VkImageMemoryBarrier2-srcStageMask-03930",
    Entry.mk (Key.ofStruct Struct.VkMemoryBarrier2 Field.dstStageMask false) "VUID-VkMemoryBarrier2-dstStageMask-03930",
    Entry.mk (Key.ofStruct Struct.VkMemoryBarrier2 Field.srcStageMask false) "VUID-VkMemoryBarrier2-srcStageMask-03930",
    Entry.mk (Key.ofStruct Struct.VkSemaphoreSubmitInfo Field.stageMask false) "VUID-VkSemaphoreSubmitInfo-stageMask-03930",
    Entry.mk (Key.ofStruct Struct.VkSubmitInfo Field.pWaitDstStageMask false) "VUID-VkSubmitInfo-pWaitDstStageMask-04091",
    Entry.mk (Key.ofStruct Struct.VkSubpassDependency Field.srcStageMask false) "VUID-VkSubpassDependency-srcStageMask-04091",
    Entry.mk (Key.ofStruct Struct.VkSubpassDependency Field.dstStageMask false) "VUID-VkSubpassDependency-dstStageMask-04091",
    Entry.mk (Key.ofStruct Struct.VkSubpassDependency2 Field.srcStageMask false) "VUID-VkSubpassDependency2-srcStageMask-04091",
    Entry.mk (Key.ofStruct Struct.VkSubpassDependency2 Field.dstStageMask false) "VUID-VkSubpassDependency2-dstStageMask-04091"]),
  (VK_PIPELINE_STAGE_2_TRANSFORM_FEEDBACK_BIT_EXT, [
    Entry.mk (Key.ofStruct Struct.VkBufferMemoryBarrier2 Field.dstStageMask false) "VUID-VkBufferMemoryBarrier2-dstStageMask-03933",
    Entry.mk (Key.ofStruct Struct.VkBufferMemoryBarrier2 Field.srcStageMask false) "VUID-VkBufferMemoryBarrier2-srcStageMask-03933",
    Entry.mk (Key.ofFunc Func.vkCmdPipelineBarrier Field.dstStageMask false) "VUID-vkCmdPipelineBarrier-dstStageMask-04094",
    Entry.mk (Key.ofFunc Func.vkCmdPipelineBarrier Field.srcStageMask false) "VUID-vkCmdPipelineBarrier-srcStageMask-04094",
    Entry.mk (Key.ofFunc Func.vkCmdResetEvent2 Field.stageMask false) "VUID-vkCmdResetEvent2-stageMask-03933",
    Entry.mk (Key.ofFunc Func.vkCmdResetEvent Field.stageMask false) "VUID-vkCmdResetEvent-stageMask-04094",
    Entry.mk (Key.ofFunc Func.vkCmdSetEvent Field.stageMask false) "VUID-vkCmdSetEvent-stageMask-04094",
    Entry.mk (Key.ofFunc Func.vkCmdWaitEvents Field.dstStageMask false) "VUID-vkCmdWaitEvents-dstStageMask-04094",
    Entry.mk (Key.ofFunc Func.vkCmdWaitEvents Field.srcStageMask false) "VUID-vkCmdWaitEvents-srcStageMask-04094",
    Entry.mk (Key.ofFunc Func.vkCmdWriteTimestamp2 Field.stage false) "VUID-vkCmdWriteTimestamp2-stage-03933",
    Entry.mk (Key.ofFunc Func.vkCmdWriteTimestamp Field.pipelineStage false) "VUID-vkCmdWriteTimestamp-pipelineStage-04079",
    Entry.mk (Key.ofStruct Struct.VkImageMemoryBarrier2 Field.dstStageMask false) "VUID-VkImageMemoryBarrier2-dstStageMask-03933",
    Entry.mk (Key.ofStruct Struct.VkImageMemoryBarrier2 Field.srcStageMask false) "VUID-VkImageMemoryBarrier2-srcStageMask-03933",
    Entry.mk (Key.ofStruct Struct.VkMemoryBarrier2 Field.dstStageMask false) "VUID-VkMemoryBarrier2-dstStageMask-03933",
    Entry.mk (Key.ofStruct Struct.VkMemoryBarrier2 Field.srcStageMask false) "VUID-VkMemoryBarrier2-srcStageMask-03933",
    Entry.mk (Key.ofStruct Struct.VkSemaphoreSubmitInfo Field.stageMask false) "VUID-VkSemaphoreSubmitInfo-stageMask-03933",
    Entry.mk (Key.ofStruct Struct.VkSubmitInfo Field.pWaitDstStageMask false) "VUID-VkSubmitInfo-pWaitDstStageMask-04094",
    Entry.mk (Key.ofStruct Struct.VkSubpassDependency Field.srcStageMask false) "VUID-VkSubpassDependency-srcStageMask-04094",
    Entry.mk (Key.ofStruct Struct.VkSubpassDependency Field.dstStageMask false) "VUID-VkSubpassDependency-dstStageMask-04094",
    Entry.mk (Key.ofStruct Struct.VkSubpassDependency2 Field.srcStageMask false) "VUID-VkSubpassDependency2-srcStageMask-04094",
    Entry.mk (Key.ofStruct Struct.VkSubpassDependency2 Field.dstStageMask false) "VUID-VkSubpassDependency2-dstStageMask-04094"])
]

/-- `kStageMaskErrorsNoneWithSync2`: NONE-stage VUIDs when synchronization2 is enabled. -/
def kStageMaskErrorsNoneWithSync2 : List Entry := [
  Entry.mk (Key.ofFunc Func.vkCmdPipelineBarrier Field.srcStageMask false) "VUID-vkCmdPipelineBarrier-srcStageMask-03937",
  Entry.mk (Key.ofFunc Func.vkCmdPipelineBarrier Field.dstStageMask false) "VUID-vkCmdPipelineBarrier-dstStageMask-03937",
  Entry.mk (Key.ofFunc Func.vkCmdResetEvent Field.stageMask false) "VUID-vkCmdResetEvent-stageMask-03937",
  Entry.mk (Key.ofFunc Func.vkCmdSetEvent Field.stageMask false) "VUID-vkCmdSetEvent-stageMask-03937",
  Entry.mk (Key.ofFunc Func.vkCmdWaitEvents Field.srcStageMask false) "VUID-vkCmdWaitEvents-srcStageMask-03937",
  Entry.mk (Key.ofFunc Func.vkCmdWaitEvents Field.dstStageMask false) "VUID-vkCmdWaitEvents-dstStageMask-03937",
  Entry.mk (Key.ofFunc Func.vkCmdWriteTimestamp Field.pipelineStage false) "VUID-vkCmdWriteTimestamp-synchronization2-06489",
  Entry.mk (Key.ofStruct Struct.VkSubmitInfo Field.pWaitDstStageMask false) "VUID-VkSubmitInfo-pWaitDstStageMask-03937",
  Entry.mk (Key.ofStruct Struct.VkSubpassDependency Field.srcStageMask false) "VUID-VkSubpassDependency-srcStageMask-03937",
  Entry.mk (Key.ofStruct Struct.VkSubpassDependency Field.dstStageMask false) "VUID-VkSubpassDependency-dstStageMask-03937",
  Entry.mk (Key.ofStruct Struct.VkSubpassDependency2 Field.srcStageMask false) "VUID-VkSubpassDependency2-srcStageMask-03937",
  Entry.mk (Key.ofStruct Struct.VkSubpassDependency2 Field.dstStageMask false) "VUID-VkSubpassDependency2-dstStageMask-03937"
]

/-- `kStageMaskErrorsNoneWithoutSync2`: NONE-stage VUIDs when synchronization2 is disabled. -/
def kStageMaskErrorsNoneWithoutSync2 : List Entry := [
  Entry.mk (Key.ofFunc Func.vkCmdPipelineBarrier Field.srcStageMask false) "VUID-vkCmdPipelineBarrier-srcStageMask-04996",
  Entry.mk (Key.ofFunc Func.vkCmdPipelineBarrier Field.dstStageMask false) "VUID-vkCmdPipelineBarrier-dstStageMask-04996",
  Entry.mk (Key.ofFunc Func.vkCmdResetEvent Field.stageMask false) "VUID-vkCmdResetEvent-stageMask-04996",
  Entry.mk (Key.ofFunc Func.vkCmdSetEvent Field.stageMask false) "VUID-vkCmdSetEvent-stageMask-04996",
  Entry.mk (Key.ofFunc Func.vkCmdWaitEvents Field.srcStageMask false) "VUID-vkCmdWaitEvents-srcStageMask-04996",
  Entry.mk (Key.ofFunc Func.vkCmdWaitEvents Field.dstStageMask false) "VUID-vkCmdWaitEvents-dstStageMask-04996",
  Entry.mk (Key.ofFunc Func.vkCmdWriteTimestamp Field.pipelineStage false) "VUID-vkCmdWriteTimestamp-pipelineStage-06490",
  Entry.mk (Key.ofStruct Struct.VkSubmitInfo Field.pWaitDstStageMask false) "VUID-VkSubmitInfo-pWaitDstStageMask-04996",
  Entry.mk (Key.ofStruct Struct.VkSubpassDependency Field.srcStageMask false) "VUID-VkSubpassDependency-srcStageMask-04996",
  Entry.mk (Key.ofStruct Struct.VkSubpassDependency Field.dstStageMask false) "VUID-VkSubpassDependency-dstStageMask-04996",
  Entry.mk (Key.ofStruct Struct.VkSubpassDependency2 Field.srcStageMask false) "VUID-VkSubpassDependency2-srcStageMask-04996",
  Entry.mk (Key.ofStruct Struct.VkSubpassDependency2 Field.dstStageMask false) "VUID-VkSubpassDependency2-dstStageMask-04996"
]

/-- `kStageMaskErrorsShadingRateKHR`: shading-rate stage VUIDs, KHR-only specification. -/
def kStageMaskErrorsShadingRateKHR : List Entry := [
  Entry.mk (Key.ofStruct Struct.VkBufferMemoryBarrier2 Field.dstStageMask false) "VUID-VkBufferMemoryBarrier2-dstStageMask-07317",
  Entry.mk (Key.ofStruct Struct.VkBufferMemoryBarrier2 Field.srcStageMask false) "VUID-VkBufferMemoryBarrier2-srcStageMask-07317",
  Entry.mk (Key.ofFunc Func.vkCmdPipelineBarrier Field.dstStageMask false) "VUID-vkCmdPipelineBarrier-dstStageMask-07319",
  Entry.mk (Key.ofFunc Func.vkCmdPipelineBarrier Field.srcStageMask false) "VUID-vkCmdPipelineBarrier-srcStageMask-07319",
  Entry.mk (Key.ofFunc Func.vkCmdResetEvent2 Field.stageMask false) "VUID-vkCmdResetEvent2-stageMask-07317",
  Entry.mk (Key.ofFunc Func.vkCmdResetEvent Field.stageMask false) "VUID-vkCmdResetEvent-stageMask-07319",
  Entry.mk (Key.ofFunc Func.vkCmdSetEvent Field.stageMask false) "VUID-vkCmdSetEvent-stageMask-07319",
  Entry.mk (Key.ofFunc Func.vkCmdWaitEvents Field.dstStageMask false) "VUID-vkCmdWaitEvents-dstStageMask-07319",
  Entry.mk (Key.ofFunc Func.vkCmdWaitEvents Field.srcStageMask false) "VUID-vkCmdWaitEvents-srcStageMask-07319",
  Entry.mk (Key.ofFunc Func.vkCmdWriteTimestamp2 Field.stage false) "VUID-vkCmdWriteTimestamp2-stage-07317",
  Entry.mk (Key.ofFunc Func.vkCmdWriteTimestamp Field.pipelineStage false) "VUID-vkCmdWriteTimestamp-fragmentShadingRate-07315",
  Entry.mk (Key.ofStruct Struct.VkImageMemoryBarrier2 Field.dstStageMask false) "VUID-VkImageMemoryBarrier2-dstStageMask-07317",
  Entry.mk (Key.ofStruct Struct.VkImageMemoryBarrier2 Field.srcStageMask false) "VUID-VkImageMemoryBarrier2-srcStageMask-07317",
  Entry.mk (Key.ofStruct Struct.VkMemoryBarrier2 Field.dstStageMask false) "VUID-VkMemoryBarrier2-dstStageMask-07317",
  Entry.mk (Key.ofStruct Struct.VkMemoryBarrier2 Field.srcStageMask false) "VUID-VkMemoryBarrier2-srcStageMask-07317",
  Entry.mk (Key.ofStruct Struct.VkSemaphoreSubmitInfo Field.stageMask false) "VUID-VkSemaphoreSubmitInfo-stageMask-07317",
  Entry.mk (Key.ofStruct Struct.VkSubmitInfo Field.pWaitDstStageMask false) "VUID-VkSubmitInfo-pWaitDstStageMask-07319",
  Entry.mk (Key.ofStruct Struct.VkSubpassDependency Field.srcStageMask false) "VUID-VkSubpassDependency-srcStageMask-07319",
  Entry.mk (Key.ofStruct Struct.VkSubpassDependency Field.dstStageMask false) "VUID-VkSubpassDependency-dstStageMask-07319",
  Entry.mk (Key.ofStruct Struct.VkSubpassDependency2 Field.srcStageMask false) "VUID-VkSubpassDependency2-srcStageMask-07319",
  Entry.mk (Key.ofStruct Struct.VkSubpassDependency2 Field.dstStageMask false) "VUID-VkSubpassDependency2-dstStageMask-07319"
]

/-- `kStageMaskErrorsShadingRateKHRAndNV`: shading-rate stage VUIDs, KHR+NV specification. -/
def kStageMaskErrorsShadingRateKHRAndNV : List Entry := [
  Entry.mk (Key.ofStruct Struct.VkBufferMemoryBarrier2 Field.dstStageMask false) "VUID-VkBufferMemoryBarrier2-dstStageMask-07316",
  Entry.mk (Key.ofStruct Struct.VkBufferMemoryBarrier2 Field.srcStageMask false) "VUID-VkBufferMemoryBarrier2-srcStageMask-07316",
  Entry.mk (Key.ofFunc Func.vkCmdPipelineBarrier Field.dstStageMask false) "VUID-vkCmdPipelineBarrier-dstStageMask-07318",
  Entry.mk (Key.ofFunc Func.vkCmdPipelineBarrier Field.srcStageMask false) "VUID-vkCmdPipelineBarrier-srcStageMask-07318",
  Entry.mk (Key.ofFunc Func.vkCmdResetEvent2 Field.stageMask false) "VUID-vkCmdResetEvent2-stageMask-07316",
  Entry.mk (Key.ofFunc Func.vkCmdResetEvent Field.stageMask false) "VUID-vkCmdResetEvent-stageMask-07318",
  Entry.mk (Key.ofFunc Func.vkCmdSetEvent Field.stageMask false) "VUID-vkCmdSetEvent-stageMask-07318",
  Entry.mk (Key.ofFunc Func.vkCmdWaitEvents Field.dstStageMask false) "VUID-vkCmdWaitEvents-dstStageMask-07318",
  Entry.mk (Key.ofFunc Func.vkCmdWaitEvents Field.srcStageMask false) "VUID-vkCmdWaitEvents-srcStageMask-07318",
  Entry.mk (Key.ofFunc Func.vkCmdWriteTimestamp2 Field.stage false) "VUID-vkCmdWriteTimestamp2-stage-07316",
  Entry.mk (Key.ofFunc Func.vkCmdWriteTimestamp Field.pipelineStage false) "VUID-vkCmdWriteTimestamp-shadingRateImage-07314",
  Entry.mk (Key.ofStruct Struct.VkImageMemoryBarrier2 Field.dstStageMask false) "VUID-VkImageMemoryBarrier2-dstStageMask-07316",
  Entry.mk (Key.ofStruct Struct.VkImageMemoryBarrier2 Field.srcStageMask false) "VUID-VkImageMemoryBarrier2-srcStageMask-07316",
  Entry.mk (Key.ofStruct Struct.VkMemoryBarrier2 Field.dstStageMask false) "VUID-VkMemoryBarrier2-dstStageMask-07316",
  Entry.mk (Key.ofStruct Struct.VkMemoryBarrier2 Field.srcStageMask false) "VUID-VkMemoryBarrier2-srcStageMask-07316",
  Entry.mk (Key.ofStruct Struct.VkSemaphoreSubmitInfo Field.stageMask false) "VUID-VkSemaphoreSubmitInfo-stageMask-07316",
  Entry.mk (Key.ofStruct Struct.VkSubmitInfo Field.pWaitDstStageMask false) "VUID-VkSubmitInfo-pWaitDstStageMask-07318",
  Entry.mk (Key.ofStruct Struct.VkSubpassDependency Field.srcStageMask false) "VUID-VkSubpassDependency-srcStageMask-07318",
  Entry.mk (Key.ofStruct Struct.VkSubpassDependency Field.dstStageMask false) "VUID-VkSubpassDependency-dstStageMask-07318",
  Entry.mk (Key.ofStruct Struct.VkSubpassDependency2 Field.srcStageMask false) "VUID-VkSubpassDependency2-srcStageMask-07318",
  Entry.mk (Key.ofStruct Struct.VkSubpassDependency2 Field.dstStageMask false) "VUID-VkSubpassDependency2-dstStageMask-07318"
]

/-- `kStageMaskErrorsShadingRateNV`: shading-rate stage VUIDs of the unpublished NV-only specification; kept for coverage tooling, never used for reporting. -/
def kStageMaskErrorsShadingRateNV : List Entry := [
  Entry.mk (Key.ofStruct Struct.VkBufferMemoryBarrier2 Field.dstStageMask false) "VUID-VkBufferMemoryBarrier2-dstStageMask-04956",
  Entry.mk (Key.ofStruct Struct.VkBufferMemoryBarrier2 Field.srcStageMask false) "VUID-VkBufferMemoryBarrier2-srcStageMask-04956",
  Entry.mk (Key.ofFunc Func.vkCmdPipelineBarrier Field.dstStageMask false) "VUID-vkCmdPipelineBarrier-dstStageMask-04097",
  Entry.mk (Key.ofFunc Func.vkCmdPipelineBarrier Field.srcStageMask false) "VUID-vkCmdPipelineBarrier-srcStageMask-04097",
  Entry.mk (Key.ofFunc Func.vkCmdResetEvent2 Field.stageMask false) "VUID-vkCmdResetEvent2-stageMask-04956",
  Entry.mk (Key.ofFunc Func.vkCmdResetEvent Field.stageMask false) "VUID-vkCmdResetEvent-stageMask-04097",
  Entry.mk (Key.ofFunc Func.vkCmdSetEvent Field.stageMask false) "VUID-vkCmdSetEvent-stageMask-04097",
  Entry.mk (Key.ofFunc Func.vkCmdWaitEvents Field.dstStageMask false) "VUID-vkCmdWaitEvents-dstStageMask-04097",
  Entry.mk (Key.ofFunc Func.vkCmdWaitEvents Field.srcStageMask false) "VUID-vkCmdWaitEvents-srcStageMask-04097",
  Entry.mk (Key.ofFunc Func.vkCmdWriteTimestamp2 Field.stage false) "VUID-vkCmdWriteTimestamp2-stage-04956",
  Entry.mk (Key.ofFunc Func.vkCmdWriteTimestamp Field.pipelineStage false) "VUID-vkCmdWriteTimestamp-pipelineStage-04081",
  Entry.mk (Key.ofStruct Struct.VkImageMemoryBarrier2 Field.dstStageMask false) "VUID-VkImageMemoryBarrier2-dstStageMask-04956",
  Entry.mk (Key.ofStruct Struct.VkImageMemoryBarrier2 Field.srcStageMask false) "VUID-VkImageMemoryBarrier2-srcStageMask-04956",
  Entry.mk (Key.ofStruct Struct.VkMemoryBarrier2 Field.dstStageMask false) "VUID-VkMemoryBarrier2-dstStageMask-04956",
  Entry.mk (Key.ofStruct Struct.VkMemoryBarrier2 Field.srcStageMask false) "VUID-VkMemoryBarrier2-srcStageMask-04956",
  Entry.mk (Key.ofStruct Struct.VkSemaphoreSubmitInfo Field.stageMask false) "VUID-VkSemaphoreSubmitInfo-stageMask-04956",
  Entry.mk (Key.ofStruct Struct.VkSubmitInfo Field.pWaitDstStageMask false) "VUID-VkSubmitInfo-pWaitDstStageMask-04097",
  Entry.mk (Key.ofStruct Struct.VkSubpassDependency Field.srcStageMask false) "VUID-VkSubpassDependency-srcStageMask-04097",
  Entry.mk (Key.ofStruct Struct.VkSubpassDependency Field.dstStageMask false) "VUID-VkSubpassDependency-dstStageMask-04097",
  Entry.mk (Key.ofStruct Struct.VkSubpassDependency2 Field.srcStageMask false) "VUID-VkSubpassDependency2-srcStageMask-04097",
  Entry.mk (Key.ofStruct Struct.VkSubpassDependency2 Field.dstStageMask false) "VUID-VkSubpassDependency2-dstStageMask-04097"
]

/-- `kAccessMask2Common`: per access bit, per barrier structure, the access-mask VUID.  Note `VK_PIPELINE_STAGE_2_COMMAND_PREPROCESS_BIT_NV` shares the numeric value of `VK_ACCESS_2_COMMAND_PREPROCESS_READ_BIT_NV`, so its group is dead (first occurrence wins in a `std::map` initializer list). -/
def kAccessMask2Common : List (Nat × List Entry) := [
  (VK_ACCESS_2_INDIRECT_COMMAND_READ_BIT_KHR, [
    Entry.mk (Key.ofStruct Struct.VkMemoryBarrier2 Field.srcAccessMask false) "VUID-VkMemoryBarrier2-srcAccessMask-03900",
    Entry.mk (Key.ofStruct Struct.VkMemoryBarrier2 Field.dstAccessMask false) "VUID-VkMemoryBarrier2-dstAccessMask-03900",
    Entry.mk (Key.ofStruct Struct.VkBufferMemoryBarrier2 Field.srcAccessMask false) "VUID-VkBufferMemoryBarrier2-srcAccessMask-03900",
    Entry.mk (Key.ofStruct Struct.VkBufferMemoryBarrier2 Field.dstAccessMask false) "VUID-VkBufferMemoryBarrier2-dstAccessMask-03900",
    Entry.mk (Key.ofStruct Struct.VkImageMemoryBarrier2 Field.srcAccessMask false) "VUID-VkImageMemoryBarrier2-srcAccessMask-03900",
    Entry.mk (Key.ofStruct Struct.VkImageMemoryBarrier2 Field.dstAccessMask false) "VUID-VkImageMemoryBarrier2-dstAccessMask-03900"]),
  (VK_ACCESS_2_INDEX_READ_BIT_KHR, [
    Entry.mk (Key.ofStruct Struct.VkMemoryBarrier2 Field.srcAccessMask false) "VUID-VkMemoryBarrier2-srcAccessMask-03901",
    Entry.mk (Key.ofStruct Struct.VkMemoryBarrier2 Field.dstAccessMask false) "VUID-VkMemoryBarrier2-dstAccessMask-03901",
    Entry.mk (Key.ofStruct Struct.VkBufferMemoryBarrier2 Field.srcAccessMask false) "VUID-VkBufferMemoryBarrier2-srcAccessMask-03901",
    Entry.mk (Key.ofStruct Struct.VkBufferMemoryBarrier2 Field.dstAccessMask false) "VUID-VkBufferMemoryBarrier2-dstAccessMask-03901",
    Entry.mk (Key.ofStruct Struct.VkImageMemoryBarrier2 Field.srcAccessMask false) "VUID-VkImageMemoryBarrier2-srcAccessMask-03901",
    Entry.mk (Key.ofStruct Struct.VkImageMemoryBarrier2 Field.dstAccessMask false) "VUID-VkImageMemoryBarrier2-dstAccessMask-03901"]),
  (VK_ACCESS_2_VERTEX_ATTRIBUTE_READ_BIT_KHR, [
    Entry.mk (Key.ofStruct Struct.VkMemoryBarrier2 Field.srcAccessMask false) "VUID-VkMemoryBarrier2-srcAccessMask-03902",
    Entry.mk (Key.ofStruct Struct.VkMemoryBarrier2 Field.dstAccessMask false) "VUID-VkMemoryBarrier2-dstAccessMask-03902",
    Entry.mk (Key.ofStruct Struct.VkBufferMemoryBarrier2 Field.srcAccessMask false) "VUID-VkBufferMemoryBarrier2-srcAccessMask-03902",
    Entry.mk (Key.ofStruct Struct.VkBufferMemoryBarrier2 Field.dstAccessMask false) "VUID-VkBufferMemoryBarrier2-dstAccessMask-03902",
    Entry.mk (Key.ofStruct Struct.VkImageMemoryBarrier2 Field.srcAccessMask false) "VUID-VkImageMemoryBarrier2-srcAccessMask-03902",
    Entry.mk (Key.ofStruct Struct.VkImageMemoryBarrier2 Field.dstAccessMask false) "VUID-VkImageMemoryBarrier2-dstAccessMask-03902"]),
  (VK_ACCESS_2_INPUT_ATTACHMENT_READ_BIT_KHR, [
    Entry.mk (Key.ofStruct Struct.VkMemoryBarrier2 Field.srcAccessMask false) "VUID-VkMemoryBarrier2-srcAccessMask-03903",
    Entry.mk (Key.ofStruct Struct.VkMemoryBarrier2 Field.dstAccessMask false) "VUID-VkMemoryBarrier2-dstAccessMask-03903",
    Entry.mk (Key.ofStruct Struct.VkBufferMemoryBarrier2 Field.srcAccessMask false) "VUID-VkBufferMemoryBarrier2-srcAccessMask-03903",
    Entry.mk (Key.ofStruct Struct.VkBufferMemoryBarrier2 Field.dstAccessMask false) "VUID-VkBufferMemoryBarrier2-dstAccessMask-03903",
    Entry.mk (Key.ofStruct Struct.VkImageMemoryBarrier2 Field.srcAccessMask false) "VUID-VkImageMemoryBarrier2-srcAccessMask-03903",
    Entry.mk (Key.ofStruct Struct.VkImageMemoryBarrier2 Field.dstAccessMask false) "VUID-VkImageMemoryBarrier2-dstAccessMask-03903"]),
  (VK_ACCESS_2_UNIFORM_READ_BIT_KHR, [
    Entry.mk (Key.ofStruct Struct.VkMemoryBarrier2 Field.srcAccessMask false) "VUID-VkMemoryBarrier2-srcAccessMask-03904",
    Entry.mk (Key.ofStruct Struct.VkMemoryBarrier2 Field.dstAccessMask false) "VUID-VkMemoryBarrier2-dstAccessMask-03904",
    Entry.mk (Key.ofStruct Struct.VkBufferMemoryBarrier2 Field.srcAccessMask false) "VUID-VkBufferMemoryBarrier2-srcAccessMask-03904",
    Entry.mk (Key.ofStruct Struct.VkBufferMemoryBarrier2 Field.dstAccessMask false) "VUID-VkBufferMemoryBarrier2-dstAccessMask-03904",
    Entry.mk (Key.ofStruct Struct.VkImageMemoryBarrier2 Field.srcAccessMask false) "VUID-VkImageMemoryBarrier2-srcAccessMask-03904",
    Entry.mk (Key.ofStruct Struct.VkImageMemoryBarrier2 Field.dstAccessMask false) "VUID-VkImageMemoryBarrier2-dstAccessMask-03904"]),
  (VK_ACCESS_2_SHADER_SAMPLED_READ_BIT_KHR, [
    Entry.mk (Key.ofStruct Struct.VkMemoryBarrier2 Field.srcAccessMask false) "VUID-VkMemoryBarrier2-srcAccessMask-03905",
    Entry.mk (Key.ofStruct Struct.VkMemoryBarrier2 Field.dstAccessMask false) "VUID-VkMemoryBarrier2-dstAccessMask-03905",
    Entry.mk (Key.ofStruct Struct.VkBufferMemoryBarrier2 Field.srcAccessMask false) "VUID-VkBufferMemoryBarrier2-srcAccessMask-03905",
    Entry.mk (Key.ofStruct Struct.VkBufferMemoryBarrier2 Field.dstAccessMask false) "VUID-VkBufferMemoryBarrier2-dstAccessMask-03905",
    Entry.mk (Key.ofStruct Struct.VkImageMemoryBarrier2 Field.srcAccessMask false) "VUID-VkImageMemoryBarrier2-srcAccessMask-03905",
    Entry.mk (Key.ofStruct Struct.VkImageMemoryBarrier2 Field.dstAccessMask false) "VUID-VkImageMemoryBarrier2-dstAccessMask-03905"]),
  (VK_ACCESS_2_SHADER_STORAGE_READ_BIT_KHR, [
    Entry.mk (Key.ofStruct Struct.VkMemoryBarrier2 Field.srcAccessMask false) "VUID-VkMemoryBarrier2-srcAccessMask-03906",
    Entry.mk (Key.ofStruct Struct.VkMemoryBarrier2 Field.dstAccessMask false) "VUID-VkMemoryBarrier2-dstAccessMask-03906",
    Entry.mk (Key.ofStruct Struct.VkBufferMemoryBarrier2 Field.srcAccessMask false) "VUID-VkBufferMemoryBarrier2-srcAccessMask-03906",
    Entry.mk (Key.ofStruct Struct.VkBufferMemoryBarrier2 Field.dstAccessMask false) "VUID-VkBufferMemoryBarrier2-dstAccessMask-03906",
    Entry.mk (Key.ofStruct Struct.VkImageMemoryBarrier2 Field.srcAccessMask false) "VUID-VkImageMemoryBarrier2-srcAccessMask-03906",
    Entry.mk (Key.ofStruct Struct.VkImageMemoryBarrier2 Field.dstAccessMask false) "VUID-VkImageMemoryBarrier2-dstAccessMask-03906"]),
  (VK_ACCESS_2_SHADER_BINDING_TABLE_READ_BIT_KHR, [
    Entry.mk (Key.ofStruct Struct.VkMemoryBarrier2 Field.srcAccessMask false) "VUID-VkMemoryBarrier2-srcAccessMask-07272",
    Entry.mk (Key.ofStruct Struct.VkMemoryBarrier2 Field.dstAccessMask false) "VUID-VkMemoryBarrier2-dstAccessMask-07272",
    Entry.mk (Key.ofStruct Struct.VkBufferMemoryBarrier2 Field.srcAccessMask false) "VUID-VkBufferMemoryBarrier2-srcAccessMask-07272",
    Entry.mk (Key.ofStruct Struct.VkBufferMemoryBarrier2 Field.dstAccessMask false) "VUID-VkBufferMemoryBarrier2-dstAccessMask-07272",
    Entry.mk (Key.ofStruct Struct.VkImageMemoryBarrier2 Field.srcAccessMask false) "VUID-VkImageMemoryBarrier2-srcAccessMask-07272",
    Entry.mk (Key.ofStruct Struct.VkImageMemoryBarrier2 Field.dstAccessMask false) "VUID-VkImageMemoryBarrier2-dstAccessMask-07272"]),
  (VK_ACCESS_2_SHADER_STORAGE_WRITE_BIT_KHR, [
    Entry.mk (Key.ofStruct Struct.VkMemoryBarrier2 Field.srcAccessMask false) "VUID-VkMemoryBarrier2-srcAccessMask-03907",
    Entry.mk (Key.ofStruct Struct.VkMemoryBarrier2 Field.dstAccessMask false) "VUID-VkMemoryBarrier2-dstAccessMask-03907",
    Entry.mk (Key.ofStruct Struct.VkBufferMemoryBarrier2 Field.srcAccessMask false) "VUID-VkBufferMemoryBarrier2-srcAccessMask-03907",
    Entry.mk (Key.ofStruct Struct.VkBufferMemoryBarrier2 Field.dstAccessMask false) "VUID-VkBufferMemoryBarrier2-dstAccessMask-03907",
    Entry.mk (Key.ofStruct Struct.VkImageMemoryBarrier2 Field.srcAccessMask false) "VUID-VkImageMemoryBarrier2-srcAccessMask-03907",
    Entry.mk (Key.ofStruct Struct.VkImageMemoryBarrier2 Field.dstAccessMask false) "VUID-VkImageMemoryBarrier2-dstAccessMask-03907"]),
  (VK_ACCESS_2_SHADER_READ_BIT_KHR, [
    Entry.mk (Key.ofStruct Struct.VkMemoryBarrier2 Field.srcAccessMask false) "VUID-VkMemoryBarrier2-srcAccessMask-03908",
    Entry.mk (Key.ofStruct Struct.VkMemoryBarrier2 Field.dstAccessMask false) "VUID-VkMemoryBarrier2-dstAccessMask-03908",
    Entry.mk (Key.ofStruct Struct.VkBufferMemoryBarrier2 Field.srcAccessMask false) "VUID-VkBufferMemoryBarrier2-srcAccessMask-03908",
    Entry.mk (Key.ofStruct Struct.VkBufferMemoryBarrier2 Field.dstAccessMask false) "VUID-VkBufferMemoryBarrier2-dstAccessMask-03908",
    Entry.mk (Key.ofStruct Struct.VkImageMemoryBarrier2 Field.srcAccessMask false) "VUID-VkImageMemoryBarrier2-srcAccessMask-03908",
    Entry.mk (Key.ofStruct Struct.VkImageMemoryBarrier2 Field.dstAccessMask false) "VUID-VkImageMemoryBarrier2-dstAccessMask-03908"]),
  (VK_ACCESS_2_SHADER_WRITE_BIT_KHR, [
    Entry.mk (Key.ofStruct Struct.VkMemoryBarrier2 Field.srcAccessMask false) "VUID-VkMemoryBarrier2-srcAccessMask-03909",
    Entry.mk (Key.ofStruct Struct.VkMemoryBarrier2 Field.dstAccessMask false) "VUID-VkMemoryBarrier2-dstAccessMask-03909",
    Entry.mk (Key.ofStruct Struct.VkBufferMemoryBarrier2 Field.srcAccessMask false) "VUID-VkBufferMemoryBarrier2-srcAccessMask-03909",
    Entry.mk (Key.ofStruct Struct.VkBufferMemoryBarrier2 Field.dstAccessMask false) "VUID-VkBufferMemoryBarrier2-dstAccessMask-03909",
    Entry.mk (Key.ofStruct Struct.VkImageMemoryBarrier2 Field.srcAccessMask false) "VUID-VkImageMemoryBarrier2-srcAccessMask-03909",
    Entry.mk (Key.ofStruct Struct.VkImageMemoryBarrier2 Field.dstAccessMask false) "VUID-VkImageMemoryBarrier2-dstAccessMask-03909"]),
  (VK_ACCESS_2_COLOR_ATTACHMENT_READ_BIT_KHR, [
    Entry.mk (Key.ofStruct Struct.VkMemoryBarrier2 Field.srcAccessMask false) "VUID-VkMemoryBarrier2-srcAccessMask-03910",
    Entry.mk (Key.ofStruct Struct.VkMemoryBarrier2 Field.dstAccessMask false) "VUID-VkMemoryBarrier2-dstAccessMask-03910",
    Entry.mk (Key.ofStruct Struct.VkBufferMemoryBarrier2 Field.srcAccessMask false) "VUID-VkBufferMemoryBarrier2-srcAccessMask-03910",
    Entry.mk (Key.ofStruct Struct.VkBufferMemoryBarrier2 Field.dstAccessMask false) "VUID-VkBufferMemoryBarrier2-dstAccessMask-03910",
    Entry.mk (Key.ofStruct Struct.VkImageMemoryBarrier2 Field.srcAccessMask false) "VUID-VkImageMemoryBarrier2-srcAccessMask-03910",
    Entry.mk (Key.ofStruct Struct.VkImageMemoryBarrier2 Field.dstAccessMask false) "VUID-VkImageMemoryBarrier2-dstAccessMask-03910"]),
  (VK_ACCESS_2_COLOR_ATTACHMENT_WRITE_BIT_KHR, [
    Entry.mk (Key.ofStruct Struct.VkMemoryBarrier2 Field.srcAccessMask false) "VUID-VkMemoryBarrier2-srcAccessMask-03911",
    Entry.mk (Key.ofStruct Struct.VkMemoryBarrier2 Field.dstAccessMask false) "VUID-VkMemoryBarrier2-dstAccessMask-03911",
    Entry.mk (Key.ofStruct Struct.VkBufferMemoryBarrier2 Field.srcAccessMask false) "VUID-VkBufferMemoryBarrier2-srcAccessMask-03911",
    Entry.mk (Key.ofStruct Struct.VkBufferMemoryBarrier2 Field.dstAccessMask false) "VUID-VkBufferMemoryBarrier2-dstAccessMask-03911",
    Entry.mk (Key.ofStruct Struct.VkImageMemoryBarrier2 Field.srcAccessMask false) "VUID-VkImageMemoryBarrier2-srcAccessMask-03911",
    Entry.mk (Key.ofStruct Struct.VkImageMemoryBarrier2 Field.dstAccessMask false) "VUID-VkImageMemoryBarrier2-dstAccessMask-03911"]),
  (VK_ACCESS_2_DEPTH_STENCIL_ATTACHMENT_READ_BIT_KHR, [
    Entry.mk (Key.ofStruct Struct.VkMemoryBarrier2 Field.srcAccessMask false) "VUID-VkMemoryBarrier2-srcAccessMask-03912",
    Entry.mk (Key.ofStruct Struct.VkMemoryBarrier2 Field.dstAccessMask false) "VUID-VkMemoryBarrier2-dstAccessMask-03912",
    Entry.mk (Key.ofStruct Struct.VkBufferMemoryBarrier2 Field.srcAccessMask false) "VUID-VkBufferMemoryBarrier2-srcAccessMask-03912",
    Entry.mk (Key.ofStruct Struct.VkBufferMemoryBarrier2 Field.dstAccessMask false) "VUID-VkBufferMemoryBarrier2-dstAccessMask-03912",
    Entry.mk (Key.ofStruct Struct.VkImageMemoryBarrier2 Field.srcAccessMask false) "VUID-VkImageMemoryBarrier2-srcAccessMask-03912",
    Entry.mk (Key.ofStruct Struct.VkImageMemoryBarrier2 Field.dstAccessMask false) "VUID-VkImageMemoryBarrier2-dstAccessMask-03912"]),
  (VK_ACCESS_2_DEPTH_STENCIL_ATTACHMENT_WRITE_BIT_KHR, [
    Entry.mk (Key.ofStruct Struct.VkMemoryBarrier2 Field.srcAccessMask false) "VUID-VkMemoryBarrier2-srcAccessMask-03913",
    Entry.mk (Key.ofStruct Struct.VkMemoryBarrier2 Field.dstAccessMask false) "VUID-VkMemoryBarrier2-dstAccessMask-03913",
    Entry.mk (Key.ofStruct Struct.VkBufferMemoryBarrier2 Field.srcAccessMask false) "VUID-VkBufferMemoryBarrier2-srcAccessMask-03913",
    Entry.mk (Key.ofStruct Struct.VkBufferMemoryBarrier2 Field.dstAccessMask false) "VUID-VkBufferMemoryBarrier2-dstAccessMask-03913",
    Entry.mk (Key.ofStruct Struct.VkImageMemoryBarrier2 Field.srcAccessMask false) "VUID-VkImageMemoryBarrier2-srcAccessMask-03913",
    Entry.mk (Key.ofStruct Struct.VkImageMemoryBarrier2 Field.dstAccessMask false) "VUID-VkImageMemoryBarrier2-dstAccessMask-03913"]),
  (VK_ACCESS_2_TRANSFER_READ_BIT_KHR, [
    Entry.mk (Key.ofStruct Struct.VkMemoryBarrier2 Field.srcAccessMask false) "VUID-VkMemoryBarrier2-srcAccessMask-03914",
    Entry.mk (Key.ofStruct Struct.VkMemoryBarrier2 Field.dstAccessMask false) "VUID-VkMemoryBarrier2-dstAccessMask-03914",
    Entry.mk (Key.ofStruct Struct.VkBufferMemoryBarrier2 Field.srcAccessMask false) "VUID-VkBufferMemoryBarrier2-srcAccessMask-03914",
    Entry.mk (Key.ofStruct Struct.VkBufferMemoryBarrier2 Field.dstAccessMask false) "VUID-VkBufferMemoryBarrier2-dstAccessMask-03914",
    Entry.mk (Key.ofStruct Struct.VkImageMemoryBarrier2 Field.srcAccessMask false) "VUID-VkImageMemoryBarrier2-srcAccessMask-03914",
    Entry.mk (Key.ofStruct Struct.VkImageMemoryBarrier2 Field.dstAccessMask false) "VUID-VkImageMemoryBarrier2-dstAccessMask-03914"]),
  (VK_ACCESS_2_TRANSFER_WRITE_BIT_KHR, [
    Entry.mk (Key.ofStruct Struct.VkMemoryBarrier2 Field.srcAccessMask false) "VUID-VkMemoryBarrier2-srcAccessMask-03915",
    Entry.mk (Key.ofStruct Struct.VkMemoryBarrier2 Field.dstAccessMask false) "VUID-VkMemoryBarrier2-dstAccessMask-03915",
    Entry.mk (Key.ofStruct Struct.VkBufferMemoryBarrier2 Field.srcAccessMask false) "VUID-VkBufferMemoryBarrier2-srcAccessMask-03915",
    Entry.mk (Key.ofStruct Struct.VkBufferMemoryBarrier2 Field.dstAccessMask false) "VUID-VkBufferMemoryBarrier2-dstAccessMask-03915",
    Entry.mk (Key.ofStruct Struct.VkImageMemoryBarrier2 Field.srcAccessMask false) "VUID-VkImageMemoryBarrier2-srcAccessMask-03915",
    Entry.mk (Key.ofStruct Struct.VkImageMemoryBarrier2 Field.dstAccessMask false) "VUID-VkImageMemoryBarrier2-dstAccessMask-03915"]),
  (VK_ACCESS_2_HOST_READ_BIT_KHR, [
    Entry.mk (Key.ofStruct Struct.VkMemoryBarrier2 Field.srcAccessMask false) "VUID-VkMemoryBarrier2-srcAccessMask-03916",
    Entry.mk (Key.ofStruct Struct.VkMemoryBarrier2 Field.dstAccessMask false) "VUID-VkMemoryBarrier2-dstAccessMask-03916",
    Entry.mk (Key.ofStruct Struct.VkBufferMemoryBarrier2 Field.srcAccessMask false) "VUID-VkBufferMemoryBarrier2-srcAccessMask-03916",
    Entry.mk (Key.ofStruct Struct.VkBufferMemoryBarrier2 Field.dstAccessMask false) "VUID-VkBufferMemoryBarrier2-dstAccessMask-03916",
    Entry.mk (Key.ofStruct Struct.VkImageMemoryBarrier2 Field.srcAccessMask false) "VUID-VkImageMemoryBarrier2-srcAccessMask-03916",
    Entry.mk (Key.ofStruct Struct.VkImageMemoryBarrier2 Field.dstAccessMask false) "VUID-VkImageMemoryBarrier2-dstAccessMask-03916"]),
  (VK_ACCESS_2_HOST_WRITE_BIT_KHR, [
    Entry.mk (Key.ofStruct Struct.VkMemoryBarrier2 Field.srcAccessMask false) "VUID-VkMemoryBarrier2-srcAccessMask-03917",
    Entry.mk (Key.ofStruct Struct.VkMemoryBarrier2 Field.dstAccessMask false) "VUID-VkMemoryBarrier2-dstAccessMask-03917",
    Entry.mk (Key.ofStruct Struct.VkBufferMemoryBarrier2 Field.srcAccessMask false) "VUID-VkBufferMemoryBarrier2-srcAccessMask-03917",
    Entry.mk (Key.ofStruct Struct.VkBufferMemoryBarrier2 Field.dstAccessMask false) "VUID-VkBufferMemoryBarrier2-dstAccessMask-03917",
    Entry.mk (Key.ofStruct Struct.VkImageMemoryBarrier2 Field.srcAccessMask false) "VUID-VkImageMemoryBarrier2-srcAccessMask-03917",
    Entry.mk (Key.ofStruct Struct.VkImageMemoryBarrier2 Field.dstAccessMask false) "VUID-VkImageMemoryBarrier2-dstAccessMask-03917"]),
  (VK_ACCESS_2_CONDITIONAL_RENDERING_READ_BIT_EXT, [
    Entry.mk (Key.ofStruct Struct.VkMemoryBarrier2 Field.srcAccessMask false) "VUID-VkMemoryBarrier2-srcAccessMask-03918",
    Entry.mk (Key.ofStruct Struct.VkMemoryBarrier2 Field.dstAccessMask false) "VUID-VkMemoryBarrier2-dstAccessMask-03918",
    Entry.mk (Key.ofStruct Struct.VkBufferMemoryBarrier2 Field.srcAccessMask false) "VUID-VkBufferMemoryBarrier2-srcAccessMask-03918",
    Entry.mk (Key.ofStruct Struct.VkBufferMemoryBarrier2 Field.dstAccessMask false) "VUID-VkBufferMemoryBarrier2-dstAccessMask-03918",
    Entry.mk (Key.ofStruct Struct.VkImageMemoryBarrier2 Field.srcAccessMask false) "VUID-VkImageMemoryBarrier2-srcAccessMask-03918",
    Entry.mk (Key.ofStruct Struct.VkImageMemoryBarrier2 Field.dstAccessMask false) "VUID-VkImageMemoryBarrier2-dstAccessMask-03918"]),
  (VK_ACCESS_2_FRAGMENT_DENSITY_MAP_READ_BIT_EXT, [
    Entry.mk (Key.ofStruct Struct.VkMemoryBarrier2 Field.srcAccessMask false) "VUID-VkMemoryBarrier2-srcAccessMask-03919",
    Entry.mk (Key.ofStruct Struct.VkMemoryBarrier2 Field.dstAccessMask false) "VUID-VkMemoryBarrier2-dstAccessMask-03919",
    Entry.mk (Key.ofStruct Struct.VkBufferMemoryBarrier2 Field.srcAccessMask false) "VUID-VkBufferMemoryBarrier2-srcAccessMask-03919",
    Entry.mk (Key.ofStruct Struct.VkBufferMemoryBarrier2 Field.dstAccessMask false) "VUID-VkBufferMemoryBarrier2-dstAccessMask-03919",
    Entry.mk (Key.ofStruct Struct.VkImageMemoryBarrier2 Field.srcAccessMask false) "VUID-VkImageMemoryBarrier2-srcAccessMask-03919",
    Entry.mk (Key.ofStruct Struct.VkImageMemoryBarrier2 Field.dstAccessMask false) "VUID-VkImageMemoryBarrier2-dstAccessMask-03919"]),
  (VK_ACCESS_2_TRANSFORM_FEEDBACK_WRITE_BIT_EXT, [
    Entry.mk (Key.ofStruct Struct.VkMemoryBarrier2 Field.srcAccessMask false) "VUID-VkMemoryBarrier2-srcAccessMask-03920",
    Entry.mk (Key.ofStruct Struct.VkMemoryBarrier2 Field.dstAccessMask false) "VUID-VkMemoryBarrier2-dstAccessMask-03920",
    Entry.mk (Key.ofStruct Struct.VkBufferMemoryBarrier2 Field.srcAccessMask false) "VUID-VkBufferMemoryBarrier2-srcAccessMask-03920",
    Entry.mk (Key.ofStruct Struct.VkBufferMemoryBarrier2 Field.dstAccessMask false) "VUID-VkBufferMemoryBarrier2-dstAccessMask-03920",
    Entry.mk (Key.ofStruct Struct.VkImageMemoryBarrier2 Field.srcAccessMask false) "VUID-VkImageMemoryBarrier2-srcAccessMask-03920",
    Entry.mk (Key.ofStruct Struct.VkImageMemoryBarrier2 Field.dstAccessMask false) "VUID-VkImageMemoryBarrier2-dstAccessMask-03920"]),
  (VK_ACCESS_2_TRANSFORM_FEEDBACK_COUNTER_READ_BIT_EXT, [
    Entry.mk (Key.ofStruct Struct.VkMemoryBarrier2 Field.srcAccessMask false) "VUID-VkMemoryBarrier2-srcAccessMask-04747",
    Entry.mk (Key.ofStruct Struct.VkMemoryBarrier2 Field.dstAccessMask false) "VUID-VkMemoryBarrier2-dstAccessMask-04747",
    Entry.mk (Key.ofStruct Struct.VkBufferMemoryBarrier2 Field.srcAccessMask false) "VUID-VkBufferMemoryBarrier2-srcAccessMask-04747",
    Entry.mk (Key.ofStruct Struct.VkBufferMemoryBarrier2 Field.dstAccessMask false) "VUID-VkBufferMemoryBarrier2-dstAccessMask-04747",
    Entry.mk (Key.ofStruct Struct.VkImageMemoryBarrier2 Field.srcAccessMask false) "VUID-VkImageMemoryBarrier2-srcAccessMask-04747",
    Entry.mk (Key.ofStruct Struct.VkImageMemoryBarrier2 Field.dstAccessMask false) "VUID-VkImageMemoryBarrier2-dstAccessMask-04747"]),
  (VK_ACCESS_2_TRANSFORM_FEEDBACK_COUNTER_WRITE_BIT_EXT, [
    Entry.mk (Key.ofStruct Struct.VkMemoryBarrier2 Field.srcAccessMask false) "VUID-VkMemoryBarrier2-srcAccessMask-03920",
    Entry.mk (Key.ofStruct Struct.VkMemoryBarrier2 Field.dstAccessMask false) "VUID-VkMemoryBarrier2-dstAccessMask-03920",
    Entry.mk (Key.ofStruct Struct.VkBufferMemoryBarrier2 Field.srcAccessMask false) "VUID-VkBufferMemoryBarrier2-srcAccessMask-03920",
    Entry.mk (Key.ofStruct Struct.VkBufferMemoryBarrier2 Field.dstAccessMask false) "VUID-VkBufferMemoryBarrier2-dstAccessMask-03920",
    Entry.mk (Key.ofStruct Struct.VkImageMemoryBarrier2 Field.srcAccessMask false) "VUID-VkImageMemoryBarrier2-srcAccessMask-03920",
    Entry.mk (Key.ofStruct Struct.VkImageMemoryBarrier2 Field.dstAccessMask false) "VUID-VkImageMemoryBarrier2-dstAccessMask-03920"]),
  (VK_ACCESS_2_SHADING_RATE_IMAGE_READ_BIT_NV, [
    Entry.mk (Key.ofStruct Struct.VkMemoryBarrier2 Field.srcAccessMask false) "VUID-VkMemoryBarrier2-srcAccessMask-03922",
    Entry.mk (Key.ofStruct Struct.VkMemoryBarrier2 Field.dstAccessMask false) "VUID-VkMemoryBarrier2-dstAccessMask-03922",
    Entry.mk (Key.ofStruct Struct.VkBufferMemoryBarrier2 Field.srcAccessMask false) "VUID-VkBufferMemoryBarrier2-srcAccessMask-03922",
    Entry.mk (Key.ofStruct Struct.VkBufferMemoryBarrier2 Field.dstAccessMask false) "VUID-VkBufferMemoryBarrier2-dstAccessMask-03922",
    Entry.mk (Key.ofStruct Struct.VkImageMemoryBarrier2 Field.srcAccessMask false) "VUID-VkImageMemoryBarrier2-srcAccessMask-03922",
    Entry.mk (Key.ofStruct Struct.VkImageMemoryBarrier2 Field.dstAccessMask false) "VUID-VkImageMemoryBarrier2-dstAccessMask-03922"]),
  (VK_ACCESS_2_COMMAND_PREPROCESS_READ_BIT_NV, [
    Entry.mk (Key.ofStruct Struct.VkMemoryBarrier2 Field.srcAccessMask false) "VUID-VkMemoryBarrier2-srcAccessMask-03923",
    Entry.mk (Key.ofStruct Struct.VkMemoryBarrier2 Field.dstAccessMask false) "VUID-VkMemoryBarrier2-dstAccessMask-03923",
    Entry.mk (Key.ofStruct Struct.VkBufferMemoryBarrier2 Field.srcAccessMask false) "VUID-VkBufferMemoryBarrier2-srcAccessMask-03923",
    Entry.mk (Key.ofStruct Struct.VkBufferMemoryBarrier2 Field.dstAccessMask false) "VUID-VkBufferMemoryBarrier2-dstAccessMask-03923",
    Entry.mk (Key.ofStruct Struct.VkImageMemoryBarrier2 Field.srcAccessMask false) "VUID-VkImageMemoryBarrier2-srcAccessMask-03923",
    Entry.mk (Key.ofStruct Struct.VkImageMemoryBarrier2 Field.dstAccessMask false) "VUID-VkImageMemoryBarrier2-dstAccessMask-03923"]),
  (VK_ACCESS_2_COMMAND_PREPROCESS_WRITE_BIT_NV, [
    Entry.mk (Key.ofStruct Struct.VkMemoryBarrier2 Field.srcAccessMask false) "VUID-VkMemoryBarrier2-srcAccessMask-03924",
    Entry.mk (Key.ofStruct Struct.VkMemoryBarrier2 Field.dstAccessMask false) "VUID-VkMemoryBarrier2-dstAccessMask-03924",
    Entry.mk (Key.ofStruct Struct.VkBufferMemoryBarrier2 Field.srcAccessMask false) "VUID-VkBufferMemoryBarrier2-srcAccessMask-03924",
    Entry.mk (Key.ofStruct Struct.VkBufferMemoryBarrier2 Field.dstAccessMask false) "VUID-VkBufferMemoryBarrier2-dstAccessMask-03924",
    Entry.mk (Key.ofStruct Struct.VkImageMemoryBarrier2 Field.srcAccessMask false) "VUID-VkImageMemoryBarrier2-srcAccessMask-03924",
    Entry.mk (Key.ofStruct Struct.VkImageMemoryBarrier2 Field.dstAccessMask false) "VUID-VkImageMemoryBarrier2-dstAccessMask-03924"]),
  (VK_PIPELINE_STAGE_2_COMMAND_PREPROCESS_BIT_NV, [
    Entry.mk (Key.ofStruct Struct.VkMemoryBarrier2 Field.srcAccessMask false) "VUID-VkMemoryBarrier2-srcAccessMask-03925",
    Entry.mk (Key.ofStruct Struct.VkMemoryBarrier2 Field.dstAccessMask false) "VUID-VkMemoryBarrier2-dstAccessMask-03925",
    Entry.mk (Key.ofStruct Struct.VkBufferMemoryBarrier2 Field.srcAccessMask false) "VUID-VkBufferMemoryBarrier2-srcAccessMask-03925",
    Entry.mk (Key.ofStruct Struct.VkBufferMemoryBarrier2 Field.dstAccessMask false) "VUID-VkBufferMemoryBarrier2-dstAccessMask-03925",
    Entry.mk (Key.ofStruct Struct.VkImageMemoryBarrier2 Field.srcAccessMask false) "VUID-VkImageMemoryBarrier2-srcAccessMask-03925",
    Entry.mk (Key.ofStruct Struct.VkImageMemoryBarrier2 Field.dstAccessMask false) "VUID-VkImageMemoryBarrier2-dstAccessMask-03925"]),
  (VK_ACCESS_2_COLOR_ATTACHMENT_READ_NONCOHERENT_BIT_EXT, [
    Entry.mk (Key.ofStruct Struct.VkMemoryBarrier2 Field.srcAccessMask false) "VUID-VkMemoryBarrier2-srcAccessMask-03926",
    Entry.mk (Key.ofStruct Struct.VkMemoryBarrier2 Field.dstAccessMask false) "VUID-VkMemoryBarrier2-dstAccessMask-03926",
    Entry.mk (Key.ofStruct Struct.VkBufferMemoryBarrier2 Field.srcAccessMask false) "VUID-VkBufferMemoryBarrier2-srcAccessMask-03926",
    Entry.mk (Key.ofStruct Struct.VkBufferMemoryBarrier2 Field.dstAccessMask false) "VUID-VkBufferMemoryBarrier2-dstAccessMask-03926",
    Entry.mk (Key.ofStruct Struct.VkImageMemoryBarrier2 Field.srcAccessMask false) "VUID-VkImageMemoryBarrier2-srcAccessMask-03926",
    Entry.mk (Key.ofStruct Struct.VkImageMemoryBarrier2 Field.dstAccessMask false) "VUID-VkImageMemoryBarrier2-dstAccessMask-03926"]),
  (VK_ACCESS_2_ACCELERATION_STRUCTURE_READ_BIT_KHR, [
    Entry.mk (Key.ofStruct Struct.VkMemoryBarrier2 Field.srcAccessMask false) "VUID-VkMemoryBarrier2-srcAccessMask-03927",
    Entry.mk (Key.ofStruct Struct.VkMemoryBarrier2 Field.dstAccessMask false) "VUID-VkMemoryBarrier2-dstAccessMask-03927",
    Entry.mk (Key.ofStruct Struct.VkBufferMemoryBarrier2 Field.srcAccessMask false) "VUID-VkBufferMemoryBarrier2-srcAccessMask-03927",
    Entry.mk (Key.ofStruct Struct.VkBufferMemoryBarrier2 Field.dstAccessMask false) "VUID-VkBufferMemoryBarrier2-dstAccessMask-03927",
    Entry.mk (Key.ofStruct Struct.VkImageMemoryBarrier2 Field.srcAccessMask false) "VUID-VkImageMemoryBarrier2-srcAccessMask-03927",
    Entry.mk (Key.ofStruct Struct.VkImageMemoryBarrier2 Field.dstAccessMask false) "VUID-VkImageMemoryBarrier2-dstAccessMask-03927"]),
  (VK_ACCESS_2_ACCELERATION_STRUCTURE_WRITE_BIT_KHR, [
    Entry.mk (Key.ofStruct Struct.VkMemoryBarrier2 Field.srcAccessMask false) "VUID-VkMemoryBarrier2-srcAccessMask-03928",
    Entry.mk (Key.ofStruct Struct.VkMemoryBarrier2 Field.dstAccessMask false) "VUID-VkMemoryBarrier2-dstAccessMask-03928",
    Entry.mk (Key.ofStruct Struct.VkBufferMemoryBarrier2 Field.srcAccessMask false) "VUID-VkBufferMemoryBarrier2-srcAccessMask-03928",
    Entry.mk (Key.ofStruct Struct.VkBufferMemoryBarrier2 Field.dstAccessMask false) "VUID-VkBufferMemoryBarrier2-dstAccessMask-03928",
    Entry.mk (Key.ofStruct Struct.VkImageMemoryBarrier2 Field.srcAccessMask false) "VUID-VkImageMemoryBarrier2-srcAccessMask-03928",
    Entry.mk (Key.ofStruct Struct.VkImageMemoryBarrier2 Field.dstAccessMask false) "VUID-VkImageMemoryBarrier2-dstAccessMask-03928"]),
  (VK_ACCESS_2_VIDEO_DECODE_READ_BIT_KHR, [
    Entry.mk (Key.ofStruct Struct.VkMemoryBarrier2 Field.srcAccessMask false) "VUID-VkMemoryBarrier2-srcAccessMask-04858",
    Entry.mk (Key.ofStruct Struct.VkMemoryBarrier2 Field.dstAccessMask false) "VUID-VkMemoryBarrier2-dstAccessMask-04858",
    Entry.mk (Key.ofStruct Struct.VkBufferMemoryBarrier2 Field.srcAccessMask false) "VUID-VkBufferMemoryBarrier2-srcAccessMask-04858",
    Entry.mk (Key.ofStruct Struct.VkBufferMemoryBarrier2 Field.dstAccessMask false) "VUID-VkBufferMemoryBarrier2-dstAccessMask-04858",
    Entry.mk (Key.ofStruct Struct.VkImageMemoryBarrier2 Field.srcAccessMask false) "VUID-VkImageMemoryBarrier2-srcAccessMask-04858",
    Entry.mk (Key.ofStruct Struct.VkImageMemoryBarrier2 Field.dstAccessMask false) "VUID-VkImageMemoryBarrier2-dstAccessMask-04858"]),
  (VK_ACCESS_2_VIDEO_DECODE_WRITE_BIT_KHR, [
    Entry.mk (Key.ofStruct Struct.VkMemoryBarrier2 Field.srcAccessMask false) "VUID-VkMemoryBarrier2-srcAccessMask-04859",
    Entry.mk (Key.ofStruct Struct.VkMemoryBarrier2 Field.dstAccessMask false) "VUID-VkMemoryBarrier2-dstAccessMask-04859",
    Entry.mk (Key.ofStruct Struct.VkBufferMemoryBarrier2 Field.srcAccessMask false) "VUID-VkBufferMemoryBarrier2-srcAccessMask-04859",
    Entry.mk (Key.ofStruct Struct.VkBufferMemoryBarrier2 Field.dstAccessMask false) "VUID-VkBufferMemoryBarrier2-dstAccessMask-04859",
    Entry.mk (Key.ofStruct Struct.VkImageMemoryBarrier2 Field.srcAccessMask false) "VUID-VkImageMemoryBarrier2-srcAccessMask-04859",
    Entry.mk (Key.ofStruct Struct.VkImageMemoryBarrier2 Field.dstAccessMask false) "VUID-VkImageMemoryBarrier2-dstAccessMask-04859"]),
  (VK_ACCESS_2_VIDEO_ENCODE_READ_BIT_KHR, [
    Entry.mk (Key.ofStruct Struct.VkMemoryBarrier2 Field.srcAccessMask false) "VUID-VkMemoryBarrier2-srcAccessMask-04860",
    Entry.mk (Key.ofStruct Struct.VkMemoryBarrier2 Field.dstAccessMask false) "VUID-VkMemoryBarrier2-dstAccessMask-04860",
    Entry.mk (Key.ofStruct Struct.VkBufferMemoryBarrier2 Field.srcAccessMask false) "VUID-VkBufferMemoryBarrier2-srcAccessMask-04860",
    Entry.mk (Key.ofStruct Struct.VkBufferMemoryBarrier2 Field.dstAccessMask false) "VUID-VkBufferMemoryBarrier2-dstAccessMask-04860",
    Entry.mk (Key.ofStruct Struct.VkImageMemoryBarrier2 Field.srcAccessMask false) "VUID-VkImageMemoryBarrier2-srcAccessMask-04860",
    Entry.mk (Key.ofStruct Struct.VkImageMemoryBarrier2 Field.dstAccessMask false) "VUID-VkImageMemoryBarrier2-dstAccessMask-04860"]),
  (VK_ACCESS_2_VIDEO_ENCODE_WRITE_BIT_KHR, [
    Entry.mk (Key.ofStruct Struct.VkMemoryBarrier2 Field.srcAccessMask false) "VUID-VkMemoryBarrier2-srcAccessMask-04861",
    Entry.mk (Key.ofStruct Struct.VkMemoryBarrier2 Field.dstAccessMask false) "VUID-VkMemoryBarrier2-dstAccessMask-04861",
    Entry.mk (Key.ofStruct Struct.VkBufferMemoryBarrier2 Field.srcAccessMask false) "VUID-VkBufferMemoryBarrier2-srcAccessMask-04861",
    Entry.mk (Key.ofStruct Struct.VkBufferMemoryBarrier2 Field.dstAccessMask false) "VUID-VkBufferMemoryBarrier2-dstAccessMask-04861",
    Entry.mk (Key.ofStruct Struct.VkImageMemoryBarrier2 Field.srcAccessMask false) "VUID-VkImageMemoryBarrier2-srcAccessMask-04861",
    Entry.mk (Key.ofStruct Struct.VkImageMemoryBarrier2 Field.dstAccessMask false) "VUID-VkImageMemoryBarrier2-dstAccessMask-04861"]),
  (VK_ACCESS_2_INVOCATION_MASK_READ_BIT_HUAWEI, [
    Entry.mk (Key.ofStruct Struct.VkMemoryBarrier2 Field.srcAccessMask false) "VUID-VkMemoryBarrier2-srcAccessMask-04994",
    Entry.mk (Key.ofStruct Struct.VkMemoryBarrier2 Field.dstAccessMask false) "VUID-VkMemoryBarrier2-dstAccessMask-04994",
    Entry.mk (Key.ofStruct Struct.VkBufferMemoryBarrier2 Field.srcAccessMask false) "VUID-VkBufferMemoryBarrier2-srcAccessMask-04994",
    Entry.mk (Key.ofStruct Struct.VkBufferMemoryBarrier2 Field.dstAccessMask false) "VUID-VkBufferMemoryBarrier2-dstAccessMask-04994",
    Entry.mk (Key.ofStruct Struct.VkImageMemoryBarrier2 Field.srcAccessMask false) "VUID-VkImageMemoryBarrier2-srcAccessMask-04994",
    Entry.mk (Key.ofStruct Struct.VkImageMemoryBarrier2 Field.dstAccessMask false) "VUID-VkImageMemoryBarrier2-dstAccessMask-04994"]),
  (VK_ACCESS_2_DESCRIPTOR_BUFFER_READ_BIT_EXT, [
    Entry.mk (Key.ofStruct Struct.VkMemoryBarrier2 Field.srcAccessMask false) "VUID-VkMemoryBarrier2-srcAccessMask-08118",
    Entry.mk (Key.ofStruct Struct.VkMemoryBarrier2 Field.dstAccessMask false) "VUID-VkMemoryBarrier2-dstAccessMask-08118",
    Entry.mk (Key.ofStruct Struct.VkBufferMemoryBarrier2 Field.srcAccessMask false) "VUID-VkBufferMemoryBarrier2-srcAccessMask-08118",
    Entry.mk (Key.ofStruct Struct.VkBufferMemoryBarrier2 Field.dstAccessMask false) "VUID-VkBufferMemoryBarrier2-dstAccessMask-08118",
    Entry.mk (Key.ofStruct Struct.VkImageMemoryBarrier2 Field.srcAccessMask false) "VUID-VkImageMemoryBarrier2-srcAccessMask-08118",
    Entry.mk (Key.ofStruct Struct.VkImageMemoryBarrier2 Field.dstAccessMask false) "VUID-VkImageMemoryBarrier2-dstAccessMask-08118"])
]

/-- `kFineSyncCommon`: access-mask VUIDs of the non-sync2 entry points. -/
def kFineSyncCommon : List Entry := [
  Entry.mk (Key.ofFunc Func.vkCmdPipelineBarrier Field.srcAccessMask false) "VUID-vkCmdPipelineBarrier-srcAccessMask-02815",
  Entry.mk (Key.ofFunc Func.vkCmdPipelineBarrier Field.dstAccessMask false) "VUID-vkCmdPipelineBarrier-dstAccessMask-02816",
  Entry.mk (Key.ofFunc Func.vkCmdWaitEvents Field.srcAccessMask false) "VUID-vkCmdWaitEvents-srcAccessMask-02815",
  Entry.mk (Key.ofFunc Func.vkCmdWaitEvents Field.dstAccessMask false) "VUID-vkCmdWaitEvents-dstAccessMask-02816",
  Entry.mk (Key.ofStruct Struct.VkSubpassDependency Field.srcAccessMask false) "VUID-VkSubpassDependency-srcAccessMask-00868",
  Entry.mk (Key.ofStruct Struct.VkSubpassDependency Field.dstAccessMask false) "VUID-VkSubpassDependency-dstAccessMask-00869",
  Entry.mk (Key.ofStruct Struct.VkSubpassDependency2 Field.srcAccessMask false) "VUID-VkSubpassDependency2-srcAccessMask-03088",
  Entry.mk (Key.ofStruct Struct.VkSubpassDependency2 Field.dstAccessMask false) "VUID-VkSubpassDependency2-dstAccessMask-03089"
]

/-- `kQueueCapErrors`: stage-vs-queue-capability VUIDs. -/
def kQueueCapErrors : List Entry := [
  Entry.mk (Key.ofStruct Struct.VkSubmitInfo Field.pWaitDstStageMask false) "VUID-vkQueueSubmit-pWaitDstStageMask-00066",
  Entry.mk (Key.ofStruct Struct.VkSubpassDependency Field.srcStageMask false) "VUID-vkCmdBeginRenderPass-srcStageMask-06451",
  Entry.mk (Key.ofStruct Struct.VkSubpassDependency Field.dstStageMask false) "VUID-vkCmdBeginRenderPass-dstStageMask-06452",
  Entry.mk (Key.ofFunc Func.vkCmdSetEvent Field.stageMask false) "VUID-vkCmdSetEvent-stageMask-06457",
  Entry.mk (Key.ofFunc Func.vkCmdResetEvent Field.stageMask false) "VUID-vkCmdResetEvent-stageMask-06458",
  Entry.mk (Key.ofFunc Func.vkCmdWaitEvents Field.srcStageMask false) "VUID-vkCmdWaitEvents-srcStageMask-06459",
  Entry.mk (Key.ofFunc Func.vkCmdWaitEvents Field.dstStageMask false) "VUID-vkCmdWaitEvents-dstStageMask-06460",
  Entry.mk (Key.ofFunc Func.vkCmdPipelineBarrier Field.srcStageMask false) "VUID-vkCmdPipelineBarrier-srcStageMask-06461",
  Entry.mk (Key.ofFunc Func.vkCmdPipelineBarrier Field.dstStageMask false) "VUID-vkCmdPipelineBarrier-dstStageMask-06462",
  Entry.mk (Key.ofFunc Func.vkCmdWriteTimestamp Field.pipelineStage false) "VUID-vkCmdWriteTimestamp-pipelineStage-04074",
  Entry.mk (Key.ofStruct Struct.VkSubpassDependency2 Field.srcStageMask false) "VUID-vkCmdBeginRenderPass2-srcStageMask-06453",
  Entry.mk (Key.ofStruct Struct.VkSubpassDependency2 Field.dstStageMask false) "VUID-vkCmdBeginRenderPass2-dstStageMask-06454",
  Entry.mk (Key.ofFunc Func.vkCmdSetEvent Field.srcStageMask false) "VUID-vkCmdSetEvent2-srcStageMask-03827",
  Entry.mk (Key.ofFunc Func.vkCmdSetEvent Field.dstStageMask false) "VUID-vkCmdSetEvent2-dstStageMask-03828",
  Entry.mk (Key.ofFunc Func.vkCmdPipelineBarrier2 Field.srcStageMask false) "VUID-vkCmdPipelineBarrier2-srcStageMask-03849",
  Entry.mk (Key.ofFunc Func.vkCmdPipelineBarrier2 Field.dstStageMask false) "VUID-vkCmdPipelineBarrier2-dstStageMask-03850",
  Entry.mk (Key.ofFunc Func.vkCmdWaitEvents2 Field.srcStageMask false) "VUID-vkCmdWaitEvents2-srcStageMask-03842",
  Entry.mk (Key.ofFunc Func.vkCmdWaitEvents2 Field.dstStageMask false) "VUID-vkCmdWaitEvents2-dstStageMask-03843",
  Entry.mk (Key.ofFunc Func.vkCmdWriteTimestamp2 Field.stage false) "VUID-vkCmdWriteTimestamp2-stage-03860",
  Entry.mk (Key.ofFunc Func.vkQueueSubmit2 Field.pSignalSemaphoreInfos true) "VUID-vkQueueSubmit2-stageMask-03869",
  Entry.mk (Key.ofFunc Func.vkQueueSubmit2 Field.pWaitSemaphoreInfos true) "VUID-vkQueueSubmit2-stageMask-03870"
]

/-- `kBarrierQueueErrors`: per queue-family error kind, the barrier VUID. -/
def kBarrierQueueErrors : List (QueueError × List Entry) := [
  (QueueError.kSrcOrDstMustBeIgnore, [
    Entry.mk (Key.ofStruct Struct.VkBufferMemoryBarrier Field.Empty false) "VUID-VkBufferMemoryBarrier-synchronization2-03853",
    Entry.mk (Key.ofStruct Struct.VkImageMemoryBarrier Field.Empty false) "VUID-VkImageMemoryBarrier-synchronization2-03857"]),
  (QueueError.kSpecialOrIgnoreOnly, [
    Entry.mk (Key.ofStruct Struct.VkBufferMemoryBarrier2 Field.Empty false) "VUID-VkBufferMemoryBarrier2-buffer-04088",
    Entry.mk (Key.ofStruct Struct.VkBufferMemoryBarrier Field.Empty false) "VUID-VkBufferMemoryBarrier-buffer-04088",
    Entry.mk (Key.ofStruct Struct.VkImageMemoryBarrier2 Field.Empty false) "VUID-VkImageMemoryBarrier2-image-04071",
    Entry.mk (Key.ofStruct Struct.VkImageMemoryBarrier Field.Empty false) "VUID-VkImageMemoryBarrier-image-04071"]),
  (QueueError.kSrcAndDstValidOrSpecial, [
    Entry.mk (Key.ofStruct Struct.VkBufferMemoryBarrier2 Field.Empty false) "VUID-VkBufferMemoryBarrier2-buffer-04089",
    Entry.mk (Key.ofStruct Struct.VkBufferMemoryBarrier Field.Empty false) "VUID-VkBufferMemoryBarrier-buffer-04089",
    Entry.mk (Key.ofStruct Struct.VkImageMemoryBarrier2 Field.Empty false) "VUID-VkImageMemoryBarrier2-image-04072",
    Entry.mk (Key.ofStruct Struct.VkImageMemoryBarrier Field.Empty false) "VUID-VkImageMemoryBarrier-image-04072"]),
  (QueueError.kSrcAndDestMustBeIgnore, [
    Entry.mk (Key.ofStruct Struct.VkBufferMemoryBarrier Field.Empty false) "VUID-VkBufferMemoryBarrier-synchronization2-03852",
    Entry.mk (Key.ofStruct Struct.VkImageMemoryBarrier Field.Empty false) "VUID-VkImageMemoryBarrier-synchronization2-03856"]),
  (QueueError.kSrcAndDstBothValid, [
    Entry.mk (Key.ofStruct Struct.VkBufferMemoryBarrier2 Field.Empty false) "VUID-VkBufferMemoryBarrier2-buffer-04086",
    Entry.mk (Key.ofStruct Struct.VkBufferMemoryBarrier Field.Empty false) "VUID-VkBufferMemoryBarrier-buffer-04086",
    Entry.mk (Key.ofStruct Struct.VkImageMemoryBarrier2 Field.Empty false) "VUID-VkImageMemoryBarrier2-image-04069",
    Entry.mk (Key.ofStruct Struct.VkImageMemoryBarrier Field.Empty false) "VUID-VkImageMemoryBarrier-image-04069"])
]

/-- `kQueueErrorSummary`: human-readable summary per queue-family error kind. -/
def kQueueErrorSummary : List (QueueError × String) := [
  (QueueError.kSrcOrDstMustBeIgnore, "Source or destination queue family must be ignored."),
  (QueueError.kSpecialOrIgnoreOnly, "Source or destination queue family must be special or ignored."),
  (QueueError.kSrcAndDstValidOrSpecial, "Source and destination queue family must be valid, ignored, or special."),
  (QueueError.kSrcAndDestMustBeIgnore, "Source and destination queue family must both be ignored."),
  (QueueError.kSrcAndDstBothValid, "Source and destination queue family must both be valid.")
]

/-- `kImageLayoutErrors`: per image layout, the oldLayout VUID. -/
def kImageLayoutErrors : List (Nat × List Entry) := [
  (VK_IMAGE_LAYOUT_COLOR_ATTACHMENT_OPTIMAL, [
    Entry.mk (Key.ofStruct Struct.VkImageMemoryBarrier Field.Empty false) "VUID-VkImageMemoryBarrier-oldLayout-01208",
    Entry.mk (Key.ofStruct Struct.VkImageMemoryBarrier2 Field.Empty false) "VUID-VkImageMemoryBarrier2-oldLayout-01208"]),
  (VK_IMAGE_LAYOUT_DEPTH_STENCIL_ATTACHMENT_OPTIMAL, [
    Entry.mk (Key.ofStruct Struct.VkImageMemoryBarrier Field.Empty false) "VUID-VkImageMemoryBarrier-oldLayout-01209",
    Entry.mk (Key.ofStruct Struct.VkImageMemoryBarrier2 Field.Empty false) "VUID-VkImageMemoryBarrier2-oldLayout-01209"]),
  (VK_IMAGE_LAYOUT_DEPTH_STENCIL_READ_ONLY_OPTIMAL, [
    Entry.mk (Key.ofStruct Struct.VkImageMemoryBarrier Field.Empty false) "VUID-VkImageMemoryBarrier-oldLayout-01210",
    Entry.mk (Key.ofStruct Struct.VkImageMemoryBarrier2 Field.Empty false) "VUID-VkImageMemoryBarrier2-oldLayout-01210"]),
  (VK_IMAGE_LAYOUT_SHADER_READ_ONLY_OPTIMAL, [
    Entry.mk (Key.ofStruct Struct.VkImageMemoryBarrier Field.Empty false) "VUID-VkImageMemoryBarrier-oldLayout-01211",
    Entry.mk (Key.ofStruct Struct.VkImageMemoryBarrier2 Field.Empty false) "VUID-VkImageMemoryBarrier2-oldLayout-01211"]),
  (VK_IMAGE_LAYOUT_TRANSFER_SRC_OPTIMAL, [
    Entry.mk (Key.ofStruct Struct.VkImageMemoryBarrier Field.Empty false) "VUID-VkImageMemoryBarrier-oldLayout-01212",
    Entry.mk (Key.ofStruct Struct.VkImageMemoryBarrier2 Field.Empty false) "VUID-VkImageMemoryBarrier2-oldLayout-01212"]),
  (VK_IMAGE_LAYOUT_TRANSFER_DST_OPTIMAL, [
    Entry.mk (Key.ofStruct Struct.VkImageMemoryBarrier Field.Empty false) "VUID-VkImageMemoryBarrier-oldLayout-01213",
    Entry.mk (Key.ofStruct Struct.VkImageMemoryBarrier2 Field.Empty false) "VUID-VkImageMemoryBarrier2-oldLayout-01213"]),
  (VK_IMAGE_LAYOUT_FRAGMENT_SHADING_RATE_ATTACHMENT_OPTIMAL_KHR, [
    Entry.mk (Key.ofStruct Struct.VkImageMemoryBarrier Field.Empty false) "VUID-VkImageMemoryBarrier-oldLayout-02088",
    Entry.mk (Key.ofStruct Struct.VkImageMemoryBarrier2 Field.Empty false) "VUID-VkImageMemoryBarrier2-oldLayout-02088"]),
  (VK_IMAGE_LAYOUT_DEPTH_READ_ONLY_STENCIL_ATTACHMENT_OPTIMAL, [
    Entry.mk (Key.ofStruct Struct.VkImageMemoryBarrier Field.Empty false) "VUID-VkImageMemoryBarrier-oldLayout-01658",
    Entry.mk (Key.ofStruct Struct.VkImageMemoryBarrier2 Field.Empty false) "VUID-VkImageMemoryBarrier2-oldLayout-01658"]),
  (VK_IMAGE_LAYOUT_DEPTH_ATTACHMENT_STENCIL_READ_ONLY_OPTIMAL, [
    Entry.mk (Key.ofStruct Struct.VkImageMemoryBarrier Field.Empty false) "VUID-VkImageMemoryBarrier-oldLayout-01659",
    Entry.mk (Key.ofStruct Struct.VkImageMemoryBarrier2 Field.Empty false) "VUID-VkImageMemoryBarrier2-oldLayout-01659"]),
  (VK_IMAGE_LAYOUT_ATTACHMENT_FEEDBACK_LOOP_OPTIMAL_EXT, [
    Entry.mk (Key.ofStruct Struct.VkImageMemoryBarrier Field.Empty false) "VUID-VkImageMemoryBarrier-srcQueueFamilyIndex-07006",
    Entry.mk (Key.ofStruct Struct.VkImageMemoryBarrier2 Field.Empty false) "VUID-VkImageMemoryBarrier2-srcQueueFamilyIndex-07006"]),
  (VK_IMAGE_LAYOUT_VIDEO_DECODE_SRC_KHR, [
    Entry.mk (Key.ofStruct Struct.VkImageMemoryBarrier Field.Empty false) "VUID-VkImageMemoryBarrier-srcQueueFamilyIndex-07120",
    Entry.mk (Key.ofStruct Struct.VkImageMemoryBarrier2 Field.Empty false) "VUID-VkImageMemoryBarrier2-srcQueueFamilyIndex-07120"]),
  (VK_IMAGE_LAYOUT_VIDEO_DECODE_DST_KHR, [
    Entry.mk (Key.ofStruct Struct.VkImageMemoryBarrier Field.Empty false) "VUID-VkImageMemoryBarrier-srcQueueFamilyIndex-07121",
    Entry.mk (Key.ofStruct Struct.VkImageMemoryBarrier2 Field.Empty false) "VUID-VkImageMemoryBarrier2-srcQueueFamilyIndex-07121"]),
  (VK_IMAGE_LAYOUT_VIDEO_DECODE_DPB_KHR, [
    Entry.mk (Key.ofStruct Struct.VkImageMemoryBarrier Field.Empty false) "VUID-VkImageMemoryBarrier-srcQueueFamilyIndex-07122",
    Entry.mk (Key.ofStruct Struct.VkImageMemoryBarrier2 Field.Empty false) "VUID-VkImageMemoryBarrier2-srcQueueFamilyIndex-07122"]),
  (VK_IMAGE_LAYOUT_VIDEO_ENCODE_SRC_KHR, [
    Entry.mk (Key.ofStruct Struct.VkImageMemoryBarrier Field.Empty false) "VUID-VkImageMemoryBarrier-srcQueueFamilyIndex-07123",
    Entry.mk (Key.ofStruct Struct.VkImageMemoryBarrier2 Field.Empty false) "VUID-VkImageMemoryBarrier2-srcQueueFamilyIndex-07123"]),
  (VK_IMAGE_LAYOUT_VIDEO_ENCODE_DST_KHR, [
    Entry.mk (Key.ofStruct Struct.VkImageMemoryBarrier Field.Empty false) "VUID-VkImageMemoryBarrier-srcQueueFamilyIndex-07124",
    Entry.mk (Key.ofStruct Struct.VkImageMemoryBarrier2 Field.Empty false) "VUID-VkImageMemoryBarrier2-srcQueueFamilyIndex-07124"]),
  (VK_IMAGE_LAYOUT_VIDEO_ENCODE_DPB_KHR, [
    Entry.mk (Key.ofStruct Struct.VkImageMemoryBarrier Field.Empty false) "VUID-VkImageMemoryBarrier-srcQueueFamilyIndex-07125",
    Entry.mk (Key.ofStruct Struct.VkImageMemoryBarrier2 Field.Empty false) "VUID-VkImageMemoryBarrier2-srcQueueFamilyIndex-07125"])
]

/-- `kBufferErrors`: per buffer-barrier error kind, the VUID. -/
def kBufferErrors : List (BufferError × List Entry) := [
  (BufferError.kNoMemory, [
    Entry.mk (Key.ofStruct Struct.VkBufferMemoryBarrier2 Field.Empty false) "VUID-VkBufferMemoryBarrier2-buffer-01931",
    Entry.mk (Key.ofStruct Struct.VkBufferMemoryBarrier Field.Empty false) "VUID-VkBufferMemoryBarrier-buffer-01931"]),
  (BufferError.kOffsetTooBig, [
    Entry.mk (Key.ofStruct Struct.VkBufferMemoryBarrier Field.Empty false) "VUID-VkBufferMemoryBarrier-offset-01187",
    Entry.mk (Key.ofStruct Struct.VkBufferMemoryBarrier2 Field.Empty false) "VUID-VkBufferMemoryBarrier2-offset-01187"]),
  (BufferError.kSizeOutOfRange, [
    Entry.mk (Key.ofStruct Struct.VkBufferMemoryBarrier Field.Empty false) "VUID-VkBufferMemoryBarrier-size-01189",
    Entry.mk (Key.ofStruct Struct.VkBufferMemoryBarrier2 Field.Empty false) "VUID-VkBufferMemoryBarrier2-size-01189"]),
  (BufferError.kSizeZero, [
    Entry.mk (Key.ofStruct Struct.VkBufferMemoryBarrier Field.Empty false) "VUID-VkBufferMemoryBarrier-size-01188",
    Entry.mk (Key.ofStruct Struct.VkBufferMemoryBarrier2 Field.Empty false) "VUID-VkBufferMemoryBarrier2-size-01188"]),
  (BufferError.kQueueFamilyExternal, [
    Entry.mk (Key.ofStruct Struct.VkBufferMemoryBarrier Field.Empty false) "VUID-VkBufferMemoryBarrier-srcQueueFamilyIndex-04087",
    Entry.mk (Key.ofStruct Struct.VkBufferMemoryBarrier2 Field.Empty false) "VUID-VkBufferMemoryBarrier2-srcQueueFamilyIndex-04087"])
]

/-- `kImageErrors`: per image-barrier error kind, the VUID. -/
def kImageErrors : List (ImageError × List Entry) := [
  (ImageError.kNoMemory, [
    Entry.mk (Key.ofStruct Struct.VkImageMemoryBarrier Field.Empty false) "VUID-VkImageMemoryBarrier-image-01932",
    Entry.mk (Key.ofStruct Struct.VkImageMemoryBarrier2 Field.Empty false) "VUID-VkImageMemoryBarrier2-image-01932"]),
  (ImageError.kConflictingLayout, [
    Entry.mk (Key.ofStruct Struct.VkImageMemoryBarrier Field.Empty false) "VUID-VkImageMemoryBarrier-oldLayout-01197",
    Entry.mk (Key.ofStruct Struct.VkImageMemoryBarrier2 Field.Empty false) "VUID-VkImageMemoryBarrier2-oldLayout-01197"]),
  (ImageError.kBadLayout, [
    Entry.mk (Key.ofStruct Struct.VkImageMemoryBarrier Field.Empty false) "VUID-VkImageMemoryBarrier-newLayout-01198",
    Entry.mk (Key.ofStruct Struct.VkImageMemoryBarrier2 Field.Empty false) "VUID-VkImageMemoryBarrier2-newLayout-01198"]),
  (ImageError.kBadAttFeedbackLoopLayout, [
    Entry.mk (Key.ofStruct Struct.VkImageMemoryBarrier Field.Empty false) "VUID-VkImageMemoryBarrier-attachmentFeedbackLoopLayout-07313",
    Entry.mk (Key.ofStruct Struct.VkImageMemoryBarrier2 Field.Empty false) "VUID-VkImageMemoryBarrier2-attachmentFeedbackLoopLayout-07313"]),
  (ImageError.kBadSync2OldLayout, [
    Entry.mk (Key.ofStruct Struct.VkImageMemoryBarrier Field.Empty false) "VUID-VkImageMemoryBarrier-synchronization2-07793",
    Entry.mk (Key.ofStruct Struct.VkImageMemoryBarrier2 Field.Empty false) "VUID-VkImageMemoryBarrier2-synchronization2-07793"]),
  (ImageError.kBadSync2NewLayout, [
    Entry.mk (Key.ofStruct Struct.VkImageMemoryBarrier Field.Empty false) "VUID-VkImageMemoryBarrier-synchronization2-07794",
    Entry.mk (Key.ofStruct Struct.VkImageMemoryBarrier2 Field.Empty false) "VUID-VkImageMemoryBarrier2-synchronization2-07794"]),
  (ImageError.kNotColorAspect, [
    Entry.mk (Key.ofStruct Struct.VkImageMemoryBarrier Field.Empty false) "VUID-VkImageMemoryBarrier-image-01671",
    Entry.mk (Key.ofStruct Struct.VkImageMemoryBarrier2 Field.Empty false) "VUID-VkImageMemoryBarrier2-image-01671"]),
  (ImageError.kNotColorAspectYcbcr, [
    Entry.mk (Key.ofStruct Struct.VkImageMemoryBarrier Field.Empty false) "VUID-VkImageMemoryBarrier-image-02902",
    Entry.mk (Key.ofStruct Struct.VkImageMemoryBarrier2 Field.Empty false) "VUID-VkImageMemoryBarrier2-image-02902"]),
  (ImageError.kBadMultiplanarAspect, [
    Entry.mk (Key.ofStruct Struct.VkImageMemoryBarrier Field.Empty false) "VUID-VkImageMemoryBarrier-image-01672",
    Entry.mk (Key.ofStruct Struct.VkImageMemoryBarrier2 Field.Empty false) "VUID-VkImageMemoryBarrier2-image-01672"]),
  (ImageError.kNotDepthOrStencilAspect, [
    Entry.mk (Key.ofStruct Struct.VkImageMemoryBarrier Field.Empty false) "VUID-VkImageMemoryBarrier-image-03319",
    Entry.mk (Key.ofStruct Struct.VkImageMemoryBarrier2 Field.Empty false) "VUID-VkImageMemoryBarrier2-image-03319"]),
  (ImageError.kNotDepthAndStencilAspect, [
    Entry.mk (Key.ofStruct Struct.VkImageMemoryBarrier Field.Empty false) "VUID-VkImageMemoryBarrier-image-01207",
    Entry.mk (Key.ofStruct Struct.VkImageMemoryBarrier2 Field.Empty false) "VUID-VkImageMemoryBarrier2-image-01207"]),
  (ImageError.kNotSeparateDepthAndStencilAspect, [
    Entry.mk (Key.ofStruct Struct.VkImageMemoryBarrier Field.Empty false) "VUID-VkImageMemoryBarrier-image-03320",
    Entry.mk (Key.ofStruct Struct.VkImageMemoryBarrier2 Field.Empty false) "VUID-VkImageMemoryBarrier2-image-03320"]),
  (ImageError.kSeparateDepthWithStencilLayout, [
    Entry.mk (Key.ofStruct Struct.VkImageMemoryBarrier Field.Empty false) "VUID-VkImageMemoryBarrier-aspectMask-08702",
    Entry.mk (Key.ofStruct Struct.VkImageMemoryBarrier2 Field.Empty false) "VUID-VkImageMemoryBarrier2-aspectMask-08702"]),
  (ImageError.kSeparateStencilhWithDepthLayout, [
    Entry.mk (Key.ofStruct Struct.VkImageMemoryBarrier Field.Empty false) "VUID-VkImageMemoryBarrier-aspectMask-08703",
    Entry.mk (Key.ofStruct Struct.VkImageMemoryBarrier2 Field.Empty false) "VUID-VkImageMemoryBarrier2-aspectMask-08703"]),
  (ImageError.kRenderPassMismatch, [
    Entry.mk (Key.ofFunc Func.vkCmdPipelineBarrier Field.Empty false) "VUID-vkCmdPipelineBarrier-image-04073",
    Entry.mk (Key.ofFunc Func.vkCmdPipelineBarrier2 Field.Empty false) "VUID-vkCmdPipelineBarrier2-image-04073"]),
  (ImageError.kRenderPassLayoutChange, [
    Entry.mk (Key.ofFunc Func.vkCmdPipelineBarrier Field.Empty false) "VUID-vkCmdPipelineBarrier-oldLayout-01181",
    Entry.mk (Key.ofFunc Func.vkCmdPipelineBarrier2 Field.Empty false) "VUID-vkCmdPipelineBarrier2-oldLayout-01181"])
]

/-- `kSubmitErrors`: per submit-time error kind, the VUID. -/
def kSubmitErrors : List (SubmitError × List Entry) := [
  (SubmitError.kTimelineSemSmallValue, [
    Entry.mk (Key.ofStruct Struct.VkSemaphoreSignalInfo Field.Empty false) "VUID-VkSemaphoreSignalInfo-value-03258",
    Entry.mk (Key.ofStruct Struct.VkBindSparseInfo Field.Empty false) "VUID-VkBindSparseInfo-pSignalSemaphores-03249",
    Entry.mk (Key.ofStruct Struct.VkSubmitInfo Field.Empty false) "VUID-VkSubmitInfo-pSignalSemaphores-03242",
    Entry.mk (Key.ofStruct Struct.VkSubmitInfo2 Field.Empty false) "VUID-VkSubmitInfo2-semaphore-03882"]),
  (SubmitError.kSemAlreadySignalled, [
    Entry.mk (Key.ofFunc Func.vkQueueSubmit Field.Empty false) "VUID-vkQueueSubmit-pSignalSemaphores-00067",
    Entry.mk (Key.ofFunc Func.vkQueueBindSparse Field.Empty false) "VUID-vkQueueBindSparse-pSignalSemaphores-01115",
    Entry.mk (Key.ofFunc Func.vkQueueSubmit2 Field.Empty false) "VUID-vkQueueSubmit2-semaphore-03868"]),
  (SubmitError.kOldBinaryCannotBeSignalled, [
    Entry.mk (Key.ofFunc Func.vkQueueSubmit Field.Empty false) "VUID-vkQueueSubmit-pWaitSemaphores-00069",
    Entry.mk (Key.ofFunc Func.vkQueueSubmit2 Field.Empty false) "VUID-vkQueueSubmit2-semaphore-03872",
    Entry.mk (Key.ofFunc Func.vkQueueBindSparse Field.Empty false) "VUID-vkQueueBindSparse-pWaitSemaphores-01117",
    Entry.mk (Key.ofFunc Func.vkQueuePresentKHR Field.Empty false) "VUID-vkQueuePresentKHR-pWaitSemaphores-01295"]),
  (SubmitError.kBinaryCannotBeSignalled, [
    Entry.mk (Key.ofFunc Func.vkQueueSubmit Field.Empty false) "VUID-vkQueueSubmit-pWaitSemaphores-03238",
    Entry.mk (Key.ofFunc Func.vkQueueSubmit2 Field.Empty false) "VUID-vkQueueSubmit2-semaphore-03873",
    Entry.mk (Key.ofFunc Func.vkQueueBindSparse Field.Empty false) "VUID-vkQueueBindSparse-pWaitSemaphores-03245",
    Entry.mk (Key.ofFunc Func.vkQueuePresentKHR Field.Empty false) "VUID-vkQueuePresentKHR-pWaitSemaphores-03268"]),
  (SubmitError.kTimelineSemMaxDiff, [
    Entry.mk (Key.ofStruct Struct.VkBindSparseInfo Field.pWaitSemaphores false) "VUID-VkBindSparseInfo-pWaitSemaphores-03250",
    Entry.mk (Key.ofStruct Struct.VkBindSparseInfo Field.pSignalSemaphores false) "VUID-VkBindSparseInfo-pSignalSemaphores-03251",
    Entry.mk (Key.ofStruct Struct.VkSubmitInfo Field.pWaitSemaphores false) "VUID-VkSubmitInfo-pWaitSemaphores-03243",
    Entry.mk (Key.ofStruct Struct.VkSubmitInfo Field.pSignalSemaphores false) "VUID-VkSubmitInfo-pSignalSemaphores-03244",
    Entry.mk (Key.ofStruct Struct.VkSemaphoreSignalInfo Field.Empty false) "VUID-VkSemaphoreSignalInfo-value-03260",
    Entry.mk (Key.ofStruct Struct.VkSubmitInfo2 Field.pWaitSemaphoreInfos true) "VUID-VkSubmitInfo2-semaphore-03883",
    Entry.mk (Key.ofStruct Struct.VkSubmitInfo2 Field.pSignalSemaphoreInfos true) "VUID-VkSubmitInfo2-semaphore-03884"]),
  (SubmitError.kProtectedFeatureDisabled, [
    Entry.mk (Key.ofStruct Struct.VkProtectedSubmitInfo Field.Empty false) "VUID-vkQueueSubmit-queue-06448",
    Entry.mk (Key.ofStruct Struct.VkSubmitInfo2 Field.Empty false) "VUID-vkQueueSubmit2-queue-06447"]),
  (SubmitError.kBadUnprotectedSubmit, [
    Entry.mk (Key.ofStruct Struct.VkSubmitInfo Field.Empty false) "VUID-VkSubmitInfo-pNext-04148",
    Entry.mk (Key.ofStruct Struct.VkSubmitInfo2 Field.Empty false) "VUID-VkSubmitInfo2-flags-03886"]),
  (SubmitError.kBadProtectedSubmit, [
    Entry.mk (Key.ofStruct Struct.VkSubmitInfo Field.Empty false) "VUID-VkSubmitInfo-pNext-04120",
    Entry.mk (Key.ofStruct Struct.VkSubmitInfo2 Field.Empty false) "VUID-VkSubmitInfo2-flags-03887"]),
  (SubmitError.kCmdNotSimultaneous, [
    Entry.mk (Key.ofFunc Func.vkQueueSubmit Field.Empty false) "VUID-vkQueueSubmit-pCommandBuffers-00071",
    Entry.mk (Key.ofFunc Func.vkQueueSubmit2 Field.Empty false) "VUID-vkQueueSubmit2-commandBuffer-03875"]),
  (SubmitError.kReusedOneTimeCmd, [
    Entry.mk (Key.ofFunc Func.vkQueueSubmit Field.Empty false) "VUID-vkQueueSubmit-pCommandBuffers-00072",
    Entry.mk (Key.ofFunc Func.vkQueueSubmit2 Field.Empty false) "VUID-vkQueueSubmit2-commandBuffer-03876"]),
  (SubmitError.kSecondaryCmdNotSimultaneous, [
    Entry.mk (Key.ofFunc Func.vkQueueSubmit2 Field.Empty false) "VUID-vkQueueSubmit-pCommandBuffers-00073",
    Entry.mk (Key.ofFunc Func.vkQueueSubmit2 Field.Empty false) "VUID-vkQueueSubmit2-commandBuffer-03877"]),
  (SubmitError.kCmdWrongQueueFamily, [
    Entry.mk (Key.ofFunc Func.vkQueueSubmit Field.Empty false) "VUID-vkQueueSubmit-pCommandBuffers-00074",
    Entry.mk (Key.ofFunc Func.vkQueueSubmit2 Field.Empty false) "VUID-vkQueueSubmit2-commandBuffer-03878"]),
  (SubmitError.kSecondaryCmdInSubmit, [
    Entry.mk (Key.ofFunc Func.vkQueueSubmit Field.Empty false) "VUID-VkSubmitInfo-pCommandBuffers-00075",
    Entry.mk (Key.ofFunc Func.vkQueueSubmit2 Field.Empty false) "VUID-VkCommandBufferSubmitInfo-commandBuffer-03890"]),
  (SubmitError.kHostStageMask, [
    Entry.mk (Key.ofStruct Struct.VkSubmitInfo Field.Empty false) "VUID-VkSubmitInfo-pWaitDstStageMask-00078",
    Entry.mk (Key.ofFunc Func.vkCmdSetEvent Field.Empty false) "VUID-vkCmdSetEvent-stageMask-01149",
    Entry.mk (Key.ofFunc Func.vkCmdResetEvent Field.Empty false) "VUID-vkCmdResetEvent-stageMask-01153",
    Entry.mk (Key.ofFunc Func.vkCmdResetEvent2 Field.Empty false) "VUID-vkCmdResetEvent2-stageMask-03830"]),
  (SubmitError.kOtherQueueWaiting, [
    Entry.mk (Key.ofFunc Func.vkQueueSubmit Field.Empty false) "VUID-vkQueueSubmit-pWaitSemaphores-00068",
    Entry.mk (Key.ofFunc Func.vkQueueBindSparse Field.Empty false) "VUID-vkQueueBindSparse-pWaitSemaphores-01116",
    Entry.mk (Key.ofFunc Func.vkQueueSubmit2 Field.Empty false) "VUID-vkQueueSubmit2-semaphore-03871",
    Entry.mk (Key.ofFunc Func.vkQueuePresentKHR Field.Empty false) "VUID-vkQueuePresentKHR-pWaitSemaphores-01294"])
]

/-- `kShaderTileImageErrors`: per shader-tile-image error kind, the VUID. -/
def kShaderTileImageErrors : List (ShaderTileImageError × List Entry) := [
  (ShaderTileImageError.kShaderTileImageFeatureError, [
    Entry.mk (Key.ofFunc Func.vkCmdPipelineBarrier Field.Empty false) "VUID-vkCmdPipelineBarrier-shaderTileImageColorReadAccess-08718",
    Entry.mk (Key.ofFunc Func.vkCmdPipelineBarrier2 Field.Empty false) "VUID-vkCmdPipelineBarrier2-shaderTileImageColorReadAccess-08718"]),
  (ShaderTileImageError.kShaderTileImageBarrierError, [
    Entry.mk (Key.ofFunc Func.vkCmdPipelineBarrier Field.Empty false) "VUID-vkCmdPipelineBarrier-None-08719",
    Entry.mk (Key.ofFunc Func.vkCmdPipelineBarrier2 Field.Empty false) "VUID-vkCmdPipelineBarrier2-None-08719"])
]
/-- `GetBadFeatureVUID`: stage-feature VUID lookup.  The `NONE` stage and the
fragment-shading-rate stage are special-cased on the capability snapshot; the
general path falls back to an unclassified sentinel when the two-level lookup
misses (the special-case paths return `FindVUID`'s result directly). -/
def GetBadFeatureVUID (loc : Location) (bit : Nat) (device_extensions : DeviceExtensions) : String :=
  if bit = VK_PIPELINE_STAGE_2_NONE then
    let sync2_enabled := IsExtEnabled device_extensions.vk_khr_synchronization2
    if sync2_enabled then FindVUID loc kStageMaskErrorsNoneWithSync2
    else FindVUID loc kStageMaskErrorsNoneWithoutSync2
  else if bit = VK_PIPELINE_STAGE_2_FRAGMENT_SHADING_RATE_ATTACHMENT_BIT_KHR then
    let nv_enabled := IsExtEnabled device_extensions.vk_nv_shading_rate_image
    if nv_enabled then FindVUID loc kStageMaskErrorsShadingRateKHRAndNV
    else FindVUID loc kStageMaskErrorsShadingRateKHR
  else
    let result := FindVUID2 bit loc kStageMaskErrors
    if result = "" then "UNASSIGNED-CoreChecks-unhandle-pipeline-stage-feature" else result

/-- `GetBadAccessFlagsVUID`: access-mask VUID lookup — per-bit table first,
then the common non-sync2 table, then the unclassified sentinel. -/
def GetBadAccessFlagsVUID (loc : Location) (bit : Nat) : String :=
  let result := FindVUID2 bit loc kAccessMask2Common
  if result ≠ "" then result
  else
    let result2 := FindVUID loc kFineSyncCommon
    if result2 = "" then "UNASSIGNED-CoreChecks-unhandled-bad-access-flags" else result2

/-- `GetStageQueueCapVUID`: stage-vs-queue-capability VUID lookup.  The `bit`
argument is unused by the source ("no per-bit lookups needed"). -/
def GetStageQueueCapVUID (loc : Location) (bit : Nat) : String :=
  let _ := bit
  let result := FindVUID loc kQueueCapErrors
  if result = "" then "UNASSIGNED-CoreChecks-unhandled-queue-capabilities" else result

/-- `GetBarrierQueueVUID`: queue-family ownership-transfer VUID lookup. -/
def GetBarrierQueueVUID (loc : Location) (error : QueueError) : String :=
  let result := FindVUID2 error loc kBarrierQueueErrors
  if result = "" then "UNASSIGNED-CoreChecks-unhandled-queue-error" else result

/-- `GetBadImageLayoutVUID`: image-layout VUID lookup. -/
def GetBadImageLayoutVUID (loc : Location) (layout : Nat) : String :=
  let result := FindVUID2 layout loc kImageLayoutErrors
  if result = "" then "UNASSIGNED-CoreChecks-unhandled-bad-image-layout" else result

/-- `GetBufferBarrierVUID`: buffer-barrier VUID lookup. -/
def GetBufferBarrierVUID (loc : Location) (error : BufferError) : String :=
  let result := FindVUID2 error loc kBufferErrors
  if result = "" then "UNASSIGNED-CoreChecks-unhandled-buffer-barrier-error" else result

/-- `GetImageBarrierVUID`: image-barrier VUID lookup. -/
def GetImageBarrierVUID (loc : Location) (error : ImageError) : String :=
  let result := FindVUID2 error loc kImageErrors
  if result = "" then "UNASSIGNED-CoreChecks-unhandled-image-barrier-error" else result

/-- `GetQueueSubmitVUID`: submit-time VUID lookup. -/
def GetQueueSubmitVUID (loc : Location) (error : SubmitError) : String :=
  let result := FindVUID2 error loc kSubmitErrors
  if result = "" then "UNASSIGNED-CoreChecks-unhandled-submit-error" else result

/-- `GetShaderTileImageVUID`: shader-tile-image barrier VUID lookup. -/
def GetShaderTileImageVUID (loc : Location) (error : ShaderTileImageError) : String :=
  let result := FindVUID2 error loc kShaderTileImageErrors
  if result = "" then "UNASSIGNED-CoreChecks-unhandled-barrier-error" else result

end sync_vuid_maps
namespace SyncModel

/-!
Modelled from the spec: the synchronization hazard validation engine (spec
§3, §4.1–§4.4).  The Resource Access Tracker, Queue/Submission Simulator and
Hazard Detector are not among the sources under verification (only the
diagnostics catalog is), so their data model and operations are built from
the spec's words: ranges are half-open intervals, scopes are (stage, access,
queue-family) bitmask triples, ordering edges come from resolved barriers and
semaphore waits, and hazards are unordered conflicting overlaps.
-/

/-- Modelled from the spec: a buffer subresource range, the half-open byte
interval `[lo, hi)` (§3 SubresourceRange). -/
structure SubresourceRange where
  lo : Nat
  hi : Nat
deriving DecidableEq, Repr

/-- Modelled from the spec: interval overlap; "overlap is not equality —
partial overlaps must be detected" (§3). -/
def rangesOverlap (a b : SubresourceRange) : Bool :=
  decide (a.lo < b.hi) && decide (b.lo < a.hi)

/-- Modelled from the spec: a SyncScope, the (stage-mask, access-mask,
queue-family) triple of a primitive or access (§3); masks are bitsets. -/
structure SyncScope where
  stageMask : Nat
  accessMask : Nat
  queueFamily : Nat
deriving DecidableEq, Repr

/-- Modelled from the spec: a scope covers an access's scope when their stage
bitsets share a bit and their access bitsets share a bit (§4.2 "whose
SyncScope intersects S", §4.4 "covers both accesses' stage/access bits"). -/
def scopeIntersects (a b : SyncScope) : Bool :=
  ((a.stageMask &&& b.stageMask) != 0) && ((a.accessMask &&& b.accessMask) != 0)

/-- Modelled from the spec: an AccessRecord (§3): {SubresourceRange,
SyncScope, ExecutionTag, read|write}. -/
structure AccessRecord where
  range : SubresourceRange
  scope : SyncScope
  tag : Nat
  isWrite : Bool
deriving DecidableEq, Repr

/-- Modelled from the spec: an ordering edge resolved from a barrier (§4.2
`Resolve(barrier) -> OrderingEdge`): source scope, destination scope, and the
barrier's tag. -/
structure OrderingEdge where
  src : SyncScope
  dst : SyncScope
  tag : Nat
deriving DecidableEq, Repr

/-- Modelled from the spec (§4.2): the edge orders access `a` before access
`b` when `a`'s scope intersects the source scope and `a.tag ≤` the barrier
tag, and `b`'s scope intersects the destination scope with `b` subsequent to
the barrier. -/
def edgeOrders (e : OrderingEdge) (a b : AccessRecord) : Bool :=
  scopeIntersects a.scope e.src && scopeIntersects b.scope e.dst &&
    decide (a.tag ≤ e.tag) && decide (e.tag < b.tag)

/-- Some edge of the set makes `a`'s tag strictly precede `b`'s. -/
def orderedBefore (edges : List OrderingEdge) (a b : AccessRecord) : Bool :=
  edges.any (fun e => edgeOrders e a b)

/-- Hazard kinds for conflicting access pairs (§3 Hazard). -/
inductive HazardKind where
  | readAfterWrite
  | writeAfterRead
  | writeAfterWrite
deriving DecidableEq, Repr

/-- Modelled from the spec: the hazard kind of an (existing, incoming) pair —
`none` exactly when neither access is a write. -/
def hazardKind (existing incoming : AccessRecord) : Option HazardKind :=
  match existing.isWrite, incoming.isWrite with
  | true,  true  => some HazardKind.writeAfterWrite
  | true,  false => some HazardKind.readAfterWrite
  | false, true  => some HazardKind.writeAfterRead
  | false, false => none

/-- A detected hazard: its kind and the two conflicting records (§3). -/
structure Hazard where
  kind : HazardKind
  existing : AccessRecord
  incoming : AccessRecord
deriving DecidableEq, Repr

/-- Modelled from the spec: the Hazard Detector `Check(existing, incoming)`
(§4.4) over the ordering edges in scope: a non-overlapping pair is dismissed,
an ordering in either direction dismisses the pair, otherwise the kind is
read off the write flags. -/
def Check (edges : List OrderingEdge) (existing incoming : AccessRecord) : Option Hazard :=
  if rangesOverlap existing.range incoming.range then
    if orderedBefore edges existing incoming || orderedBefore edges incoming existing then
      none
    else
      match hazardKind existing incoming with
      | some k => some (Hazard.mk k existing incoming)
      | none => none
  else
    none

/-- Modelled from the spec: one memory access of a recorded command buffer
(§4.3): touched resource, byte range, read/write flag. -/
structure Access where
  resource : Nat
  range : SubresourceRange
  isWrite : Bool
deriving DecidableEq, Repr

/-- Modelled from the spec: a submitted batch (§4.3 `Submit(batch, waits,
signals)`): target queue, semaphore waits, semaphore signals, and the
accesses of its command buffers in program order. -/
structure Batch where
  queue : Nat
  waits : List Nat
  signals : List Nat
  accesses : List Access
deriving DecidableEq, Repr

/-- Per-batch summary kept by the simulator: the batch's queue, the
semaphores it signals, and the indices of every batch provably ordered
before it. -/
structure BatchInfo where
  queue : Nat
  signals : List Nat
  preds : List Nat
deriving DecidableEq, Repr

/-- The latest already-processed batch signalling semaphore `s` (with its
index and predecessor set); `none` when the wait has no matching prior
signal. -/
def lastSignaller (s : Nat) (done : List (Nat × BatchInfo)) : Option (Nat × BatchInfo) :=
  (done.filter (fun p => p.2.signals.contains s)).getLast?

/-- Modelled from the spec (§4.3): process one batch.  Earlier batches on the
same queue (with everything before them) are ordered before it; a wait whose
semaphore has a matching prior signal orders the signalling batch (and
everything before it) before it; a wait with no matching prior signal
contributes no ordering edge at all — the batch stays unordered with respect
to every other queue ("maximally conservative") and is still checked. -/
def stepPreds (done : List BatchInfo) (b : Batch) : List BatchInfo :=
  let wi := done.enum
  let progClosure := (wi.filter (fun p => p.2.queue == b.queue)).map (fun p => p.1 :: p.2.preds)
  let waitClosure := b.waits.filterMap (fun s => (lastSignaller s wi).map (fun p => p.1 :: p.2.preds))
  done ++ [BatchInfo.mk b.queue b.signals ((progClosure ++ waitClosure).flatten)]

/-- Ordering state of the whole stream. -/
def batchPreds (bs : List Batch) : List BatchInfo :=
  bs.foldl stepPreds []

/-- Batch `i` is provably ordered before batch `j`. -/
def orderedBatches (st : List BatchInfo) (i j : Nat) : Bool :=
  match st[j]? with
  | some bi => bi.preds.contains i
  | none => false

/-- An access paired with the index of the batch that submitted it. -/
structure TaggedAccess where
  batch : Nat
  access : Access
deriving DecidableEq, Repr

/-- All accesses of the stream in replay order, tagged with batch indices. -/
def flatAccesses (bs : List Batch) : List TaggedAccess :=
  (bs.enum.map (fun p => p.2.accesses.map (fun a => TaggedAccess.mk p.1 a))).flatten

/-- Modelled from the spec (§4.4): two accesses conflict spatially when they
touch the same resource on overlapping ranges and at least one writes. -/
def conflict (a b : Access) : Bool :=
  a.resource == b.resource && rangesOverlap a.range b.range && (a.isWrite || b.isWrite)

/-- All ordered pairs of a list (first component strictly earlier). -/
def ordPairs {α : Type} : List α → List (α × α)
  | [] => []
  | x :: xs => xs.map (fun y => (x, y)) ++ ordPairs xs

/-- Modelled from the spec (§4.3 + §4.4): the hazards reported for a stream —
conflicting access pairs from different batches whose batches are not ordered.
Accesses of one batch are program-ordered, replay order within a queue equals
submission order, and ordering edges only ever point at earlier batches, so a
pair taken in replay order hazards exactly when the earlier batch is not among
the later batch's predecessors. -/
def streamHazards (bs : List Batch) : List (Access × Access) :=
  let st := batchPreds bs
  (ordPairs (flatAccesses bs)).filterMap (fun p =>
    if p.1.batch != p.2.batch && !(orderedBatches st p.1.batch p.2.batch) &&
        conflict p.1.access p.2.access
    then some (p.1.access, p.2.access) else none)

/-- Add one semaphore wait for `s` to the `k`-th batch of the stream. -/
def addWait : List Batch → Nat → Nat → List Batch
  | [], _, _ => []
  | b :: rest, 0, s => Batch.mk b.queue (s :: b.waits) b.signals b.accesses :: rest
  | b :: rest, Nat.succ k, s => b :: addWait rest k s

/-- Modelled from the spec (§4.1): a range as known to the tracker — either a
precise interval or one whose aliasing relationship is uncertain. -/
inductive RangeSpec where
  | precise (r : SubresourceRange)
  | aliasUncertain
deriving DecidableEq, Repr

/-- Modelled from the spec (§4.1): conservative overlap — "when in doubt
about overlap due to aliasing uncertainty, the tracker must treat ranges as
overlapping". -/
def overlapC : RangeSpec → RangeSpec → Bool
  | RangeSpec.precise a, RangeSpec.precise b => rangesOverlap a b
  | _, _ => true

/-- A live record of the Resource Access Tracker. -/
structure TrackerRecord where
  range : RangeSpec
  scope : SyncScope
  tag : Nat
  isWrite : Bool
deriving DecidableEq, Repr

/-- Edge ordering on tracker records (the `edgeOrders` notion of §4.2). -/
def recOrdered (edges : List OrderingEdge) (a b : TrackerRecord) : Bool :=
  edges.any (fun e => scopeIntersects a.scope e.src && scopeIntersects b.scope e.dst &&
    decide (a.tag ≤ e.tag) && decide (e.tag < b.tag))

/-- A pair of live records in hazard position: conservatively overlapping, at
least one write, tags incomparable (no edge orders them either way). -/
def conflictingPair (edges : List OrderingEdge) (a b : TrackerRecord) : Bool :=
  overlapC a.range b.range && (a.isWrite || b.isWrite) &&
    !(recOrdered edges a b || recOrdered edges b a)

/-- Operations driving the tracker: merge one access (§4.1 `Record`), or
resolve one barrier into an ordering edge (§4.2 `Resolve`). -/
inductive TrackerOp where
  | record (range : RangeSpec) (scope : SyncScope) (isWrite : Bool)
  | barrier (src dst : SyncScope)
deriving DecidableEq, Repr

/-- Tracker state: tag counter, live records, resolved edges, emitted
hazard pairs. -/
structure TrackerState where
  nextTag : Nat
  live : List TrackerRecord
  edges : List OrderingEdge
  hazards : List (TrackerRecord × TrackerRecord)
deriving DecidableEq, Repr

/-- The freshly reset tracker. -/
def initialTracker : TrackerState := TrackerState.mk 0 [] [] []

/-- Modelled from the spec (§4.1, §4.2): merging an access checks it against
every live record via the Hazard Detector's predicate and emits a hazard for
each conflicting unordered overlap, then inserts the record; a barrier
appends its ordering edge at the current tag.  (Splitting or evicting
superseded records is not modelled; both only remove live records and hence
only remove pairs from the invariant's scope.) -/
def trackerStep (st : TrackerState) : TrackerOp → TrackerState
  | TrackerOp.record range scope isWrite =>
    let r : TrackerRecord := TrackerRecord.mk range scope st.nextTag isWrite
    let found := (st.live.filter (fun e => conflictingPair st.edges e r)).map (fun e => (e, r))
    TrackerState.mk (st.nextTag + 1) (r :: st.live) st.edges (found ++ st.hazards)
  | TrackerOp.barrier src dst =>
    TrackerState.mk (st.nextTag + 1) st.live (OrderingEdge.mk src dst st.nextTag :: st.edges)
      st.hazards

/-- Replay a stream of tracker operations from the reset state. -/
def runTracker (ops : List TrackerOp) : TrackerState :=
  ops.foldl trackerStep initialTracker

/-- The tracker invariant (spec §3, amended with the write condition of
§4.4): no two live records in hazard position without an emitted hazard for
that pair. -/
def TrackerInv (st : TrackerState) : Prop :=
  ∀ p ∈ ordPairs st.live, conflictingPair st.edges p.1 p.2 = true →
    p ∈ st.hazards ∨ (p.2, p.1) ∈ st.hazards

end SyncModel
namespace sync_vuid_maps

/-- `FindVUID` returns the empty string or a VUID present in the table. -/
theorem findVUID_eq_empty_or_mem (loc : Location) :
    ∀ t : List Entry, FindVUID loc t = "" ∨ FindVUID loc t ∈ t.map Entry.vuid := by
  intro t
  induction t with
  | nil => exact Or.inl rfl
  | cons e rest ih =>
    by_cases h : loc.matchKey e.key = true
    · right
      simp [FindVUID, h]
    · have h' : loc.matchKey e.key = false := Bool.eq_false_iff.mpr h
      rcases ih with h1 | h1
      · left
        simpa [FindVUID, h'] using h1
      · right
        simp [FindVUID, h']
        right
        simpa using h1

/-- The two-level `FindVUID` returns the empty string or a VUID of the
table. -/
theorem findVUID2_eq_empty_or_mem {α : Type} [BEq α] (k : α) (loc : Location)
    (t : List (α × List Entry)) :
    FindVUID2 k loc t = "" ∨ FindVUID2 k loc t ∈ tableVuids t := by
  unfold FindVUID2 mapLookup
  cases hf : t.find? (fun p => p.1 == k) with
  | none => exact Or.inl rfl
  | some p =>
    simp only [Option.map_some']
    rcases findVUID_eq_empty_or_mem loc p.2 with h | h
    · exact Or.inl h
    · right
      have hp : p ∈ t := List.mem_of_find?_eq_some hf
      unfold tableVuids
      exact List.mem_flatten.mpr ⟨p.2.map Entry.vuid, List.mem_map_of_mem _ hp, h⟩

/-- Behaviour of the empty-result fallback of the `Get*VUID` functions. -/
theorem fallback_spec (r sent : String) (S : List String) (hs : sent ≠ "")
    (h : r = "" ∨ r ∈ S) :
    (if r = "" then sent else r) ≠ "" ∧
      ((if r = "" then sent else r) ∈ S ∨ (if r = "" then sent else r) = sent) := by
  by_cases hr : r = ""
  · rw [if_pos hr]
    exact ⟨hs, Or.inr rfl⟩
  · rw [if_neg hr]
    exact ⟨hr, Or.inl (h.resolve_left hr)⟩

/-- Behaviour of the two-stage lookup of `GetBadAccessFlagsVUID`. -/
theorem fallback2_spec (r r2 sent : String) (S1 S2 : List String) (hs : sent ≠ "")
    (h1 : r = "" ∨ r ∈ S1) (h2 : r2 = "" ∨ r2 ∈ S2) :
    (if r ≠ "" then r else if r2 = "" then sent else r2) ≠ "" ∧
      ((if r ≠ "" then r else if r2 = "" then sent else r2) ∈ S1 ∨
       (if r ≠ "" then r else if r2 = "" then sent else r2) ∈ S2 ∨
       (if r ≠ "" then r else if r2 = "" then sent else r2) = sent) := by
  by_cases hr : r = ""
  · rw [if_neg (by simpa using hr)]
    have hspec := fallback_spec r2 sent S2 hs h2
    exact ⟨hspec.1, Or.inr (hspec.2.imp id id)⟩
  · rw [if_pos hr]
    exact ⟨hr, Or.inl (h1.resolve_left hr)⟩

/-- A string found in one list avoids a second list when an `all`-scan says
the two are disjoint. -/
theorem not_mem_of_all_not_contains {a : String} {l1 l2 : List String}
    (h : a ∈ l1) (hd : (l1.all fun s => !(l2.contains s)) = true) : a ∉ l2 := by
  have := List.all_eq_true.mp hd a h
  simpa using this

/-- C1, counterexample: with the `NONE` stage bit and synchronization2
enabled, the call-site location `VkBufferMemoryBarrier2::srcStageMask` (a key
of the general stage-mask table, but absent from the twelve-entry `NONE`
tables) makes `GetBadFeatureVUID` return the empty string rather than a table
VUID or an `UNASSIGNED-...` sentinel, because the two special-case branches
return `FindVUID`'s result without the empty-result fallback of the general
path. -/
theorem getBadFeatureVUID_none_uncovered_empty :
    GetBadFeatureVUID (Location.mk Func.Empty Struct.VkBufferMemoryBarrier2 Field.srcStageMask)
      VK_PIPELINE_STAGE_2_NONE (DeviceExtensions.mk true false false) = "" := rfl

/-- C1 (amended): `GetQueueSubmitVUID` and `GetBadAccessFlagsVUID` are total
and never return an empty identifier — every result is a VUID found in their
lookup tables or the fixed `UNASSIGNED-...` unclassified sentinel.
`GetBadFeatureVUID` gives the same guarantee whenever the stage bit is
neither `NONE` nor `FRAGMENT_SHADING_RATE_ATTACHMENT`; on those two
special-cased branches it returns the selected table's lookup result
directly, which is the empty string for locations the table does not
cover. -/
theorem getVUID_nonempty_or_sentinel :
    (∀ (loc : Location) (error : SubmitError),
        GetQueueSubmitVUID loc error ≠ "" ∧
          (GetQueueSubmitVUID loc error ∈ tableVuids kSubmitErrors ∨
           GetQueueSubmitVUID loc error = "UNASSIGNED-CoreChecks-unhandled-submit-error")) ∧
    (∀ (loc : Location) (bit : Nat),
        GetBadAccessFlagsVUID loc bit ≠ "" ∧
          (GetBadAccessFlagsVUID loc bit ∈ tableVuids kAccessMask2Common ∨
           GetBadAccessFlagsVUID loc bit ∈ kFineSyncCommon.map Entry.vuid ∨
           GetBadAccessFlagsVUID loc bit = "UNASSIGNED-CoreChecks-unhandled-bad-access-flags")) ∧
    (∀ (loc : Location) (bit : Nat) (de : DeviceExtensions),
        bit ≠ VK_PIPELINE_STAGE_2_NONE →
        bit ≠ VK_PIPELINE_STAGE_2_FRAGMENT_SHADING_RATE_ATTACHMENT_BIT_KHR →
        GetBadFeatureVUID loc bit de ≠ "" ∧
          (GetBadFeatureVUID loc bit de ∈ tableVuids kStageMaskErrors ∨
           GetBadFeatureVUID loc bit de =
             "UNASSIGNED-CoreChecks-unhandle-pipeline-stage-feature")) := by
  refine ⟨?_, ?_, ?_⟩
  · intro loc error
    exact fallback_spec _ _ _ (by decide) (findVUID2_eq_empty_or_mem error loc kSubmitErrors)
  · intro loc bit
    exact fallback2_spec _ _ _ _ _ (by decide)
      (findVUID2_eq_empty_or_mem bit loc kAccessMask2Common)
      (findVUID_eq_empty_or_mem loc kFineSyncCommon)
  · intro loc bit de h0 h1
    unfold GetBadFeatureVUID
    rw [if_neg h0, if_neg h1]
    exact fallback_spec _ _ _ (by decide) (findVUID2_eq_empty_or_mem bit loc kStageMaskErrors)

/-- Witness for C1's amended theorem at a concrete input: the geometry-shader
stage bit at `VkMemoryBarrier2::dstStageMask`. -/
theorem getVUID_nonempty_or_sentinel_witness :
    GetBadFeatureVUID (Location.mk Func.Empty Struct.VkMemoryBarrier2 Field.dstStageMask)
        VK_PIPELINE_STAGE_2_GEOMETRY_SHADER_BIT_KHR (DeviceExtensions.mk false false false) ≠ "" ∧
      (GetBadFeatureVUID (Location.mk Func.Empty Struct.VkMemoryBarrier2 Field.dstStageMask)
          VK_PIPELINE_STAGE_2_GEOMETRY_SHADER_BIT_KHR (DeviceExtensions.mk false false false) ∈
            tableVuids kStageMaskErrors ∨
        GetBadFeatureVUID (Location.mk Func.Empty Struct.VkMemoryBarrier2 Field.dstStageMask)
            VK_PIPELINE_STAGE_2_GEOMETRY_SHADER_BIT_KHR (DeviceExtensions.mk false false false) =
          "UNASSIGNED-CoreChecks-unhandle-pipeline-stage-feature") :=
  getVUID_nonempty_or_sentinel.2.2
    (Location.mk Func.Empty Struct.VkMemoryBarrier2 Field.dstStageMask)
    VK_PIPELINE_STAGE_2_GEOMETRY_SHADER_BIT_KHR (DeviceExtensions.mk false false false)
    (by decide) (by decide)

/-- C6: every diagnostics-catalog lookup is a pure function of its arguments
and the read-only capability snapshot; in particular `GetBadFeatureVUID` reads
only the synchronization2 and NV-shading-rate-image flags of the snapshot, so
two snapshots agreeing on those two flags (even if they differ elsewhere,
here on `vk_khr_fragment_shading_rate`) produce identical identifiers for
every location and bit.  (`GetBadAccessFlagsVUID`, `GetQueueSubmitVUID` and
the sibling lookups take no snapshot at all, as their types show.) -/
theorem getBadFeatureVUID_deterministic :
    ∀ (loc : Location) (bit : Nat) (de de' : DeviceExtensions),
      de.vk_khr_synchronization2 = de'.vk_khr_synchronization2 →
      de.vk_nv_shading_rate_image = de'.vk_nv_shading_rate_image →
      GetBadFeatureVUID loc bit de = GetBadFeatureVUID loc bit de' := by
  intro loc bit de de' h1 h2
  unfold GetBadFeatureVUID IsExtEnabled
  rw [h1, h2]

/-- Witness for C6 at a concrete input: snapshots differing only in the
unread `vk_khr_fragment_shading_rate` flag. -/
theorem getBadFeatureVUID_deterministic_witness :
    GetBadFeatureVUID (Location.mk Func.vkCmdPipelineBarrier Struct.Empty Field.srcStageMask)
        VK_PIPELINE_STAGE_2_NONE (DeviceExtensions.mk true false true) =
      GetBadFeatureVUID (Location.mk Func.vkCmdPipelineBarrier Struct.Empty Field.srcStageMask)
        VK_PIPELINE_STAGE_2_NONE (DeviceExtensions.mk true false false) :=
  getBadFeatureVUID_deterministic
    (Location.mk Func.vkCmdPipelineBarrier Struct.Empty Field.srcStageMask)
    VK_PIPELINE_STAGE_2_NONE
    (DeviceExtensions.mk true false true) (DeviceExtensions.mk true false false) rfl rfl

/-- C10: the `kSrcOrDstMustBeIgnore` and `kSrcAndDestMustBeIgnore` rows of
the queue-family table hold entries only for the legacy `VkBufferMemoryBarrier`
and `VkImageMemoryBarrier` structures, so for every location whose structure
is a synchronization2 barrier (`VkBufferMemoryBarrier2` or
`VkImageMemoryBarrier2`) `GetBarrierQueueVUID` finds no entry and returns the
`UNASSIGNED-CoreChecks-unhandled-queue-error` sentinel. -/
theorem getBarrierQueueVUID_sync2_sentinel :
    ((mapLookup QueueError.kSrcOrDstMustBeIgnore kBarrierQueueErrors).map
        (fun entries => entries.map (fun e => e.key.struct)) =
      some [Struct.VkBufferMemoryBarrier, Struct.VkImageMemoryBarrier]) ∧
    ((mapLookup QueueError.kSrcAndDestMustBeIgnore kBarrierQueueErrors).map
        (fun entries => entries.map (fun e => e.key.struct)) =
      some [Struct.VkBufferMemoryBarrier, Struct.VkImageMemoryBarrier]) ∧
    (∀ (loc : Location) (error : QueueError),
        (error = QueueError.kSrcOrDstMustBeIgnore ∨
         error = QueueError.kSrcAndDestMustBeIgnore) →
        (loc.struct = Struct.VkBufferMemoryBarrier2 ∨
         loc.struct = Struct.VkImageMemoryBarrier2) →
        GetBarrierQueueVUID loc error = "UNASSIGNED-CoreChecks-unhandled-queue-error") := by
  refine ⟨by decide, by decide, ?_⟩
  intro loc error herr hs
  obtain ⟨f, s, fld⟩ := loc
  rcases herr with herr | herr <;> subst herr <;>
    rcases hs with hs | hs <;> (simp only at hs; subst hs) <;> rfl

/-- Witness for C10 at a concrete input: `VkImageMemoryBarrier2` with
`kSrcAndDestMustBeIgnore`. -/
theorem getBarrierQueueVUID_sync2_sentinel_witness :
    GetBarrierQueueVUID
        (Location.mk Func.vkCmdPipelineBarrier2 Struct.VkImageMemoryBarrier2 Field.Empty)
        QueueError.kSrcAndDestMustBeIgnore = "UNASSIGNED-CoreChecks-unhandled-queue-error" :=
  getBarrierQueueVUID_sync2_sentinel.2.2
    (Location.mk Func.vkCmdPipelineBarrier2 Struct.VkImageMemoryBarrier2 Field.Empty)
    QueueError.kSrcAndDestMustBeIgnore (Or.inr rfl) (Or.inr rfl)

/-- Key-for-key aligned tables with position-wise distinct VUIDs give
distinct non-empty lookup results. -/
theorem findVUID_ne_of_keys_eq (loc : Location) :
    ∀ (t1 t2 : List Entry), t1.map Entry.key = t2.map Entry.key →
      ((t1.zip t2).all fun p => p.1.vuid != p.2.vuid) = true →
      FindVUID loc t1 ≠ "" → FindVUID loc t1 ≠ FindVUID loc t2 := by
  intro t1
  induction t1 with
  | nil => intro t2 hk hz hne; exact absurd rfl hne
  | cons e rest ih =>
    intro t2 hk hz hne
    cases t2 with
    | nil => simp at hk
    | cons e2 rest2 =>
      simp only [List.map_cons, List.cons.injEq] at hk
      obtain ⟨hk1, hk2⟩ := hk
      simp only [List.zip_cons_cons, List.all_cons, Bool.and_eq_true] at hz
      obtain ⟨hz1, hz2⟩ := hz
      by_cases hm : loc.matchKey e.key = true
      · have hm2 : loc.matchKey e2.key = true := by rw [← hk1]; exact hm
        simp only [FindVUID, hm, hm2, if_true]
        simpa using hz1
      · have hm' : loc.matchKey e.key = false := Bool.eq_false_iff.mpr hm
        have hm2' : loc.matchKey e2.key = false := by rw [← hk1]; exact hm'
        simp only [FindVUID, hm', Bool.false_eq_true, if_false] at hne ⊢
        rw [hm2', if_neg (by simp)]
        exact ih rest2 hk2 hz2 hne

/-- C2: for every call-site location, when the stage bit is
`VK_PIPELINE_STAGE_2_NONE`, `GetBadFeatureVUID` selects its identifier from
`kStageMaskErrorsNoneWithSync2` exactly when the synchronization2 extension
is enabled in the snapshot, and from `kStageMaskErrorsNoneWithoutSync2`
otherwise; the two tables list the same twelve (function/struct, field) keys
and assign every position a different identifier, so for a location the
tables cover the returned VUID differs between the two snapshot states. -/
theorem getBadFeatureVUID_none_sync2_selection :
    (∀ (loc : Location) (de : DeviceExtensions),
        GetBadFeatureVUID loc VK_PIPELINE_STAGE_2_NONE de =
          if de.vk_khr_synchronization2 then FindVUID loc kStageMaskErrorsNoneWithSync2
          else FindVUID loc kStageMaskErrorsNoneWithoutSync2) ∧
    kStageMaskErrorsNoneWithSync2.map Entry.key =
      kStageMaskErrorsNoneWithoutSync2.map Entry.key ∧
    kStageMaskErrorsNoneWithSync2.length = 12 ∧
    kStageMaskErrorsNoneWithoutSync2.length = 12 ∧
    ((kStageMaskErrorsNoneWithSync2.zip kStageMaskErrorsNoneWithoutSync2).all
        fun p => p.1.vuid != p.2.vuid) = true ∧
    (∀ (loc : Location) (de de' : DeviceExtensions),
        de.vk_khr_synchronization2 = true → de'.vk_khr_synchronization2 = false →
        FindVUID loc kStageMaskErrorsNoneWithSync2 ≠ "" →
        GetBadFeatureVUID loc VK_PIPELINE_STAGE_2_NONE de ≠
          GetBadFeatureVUID loc VK_PIPELINE_STAGE_2_NONE de') := by
  have hsel : ∀ (loc : Location) (de : DeviceExtensions),
      GetBadFeatureVUID loc VK_PIPELINE_STAGE_2_NONE de =
        if de.vk_khr_synchronization2 then FindVUID loc kStageMaskErrorsNoneWithSync2
        else FindVUID loc kStageMaskErrorsNoneWithoutSync2 := by
    intro loc de
    obtain ⟨s2, nv, fsr⟩ := de
    cases s2 <;> rfl
  refine ⟨hsel, by decide, by decide, by decide, by decide, ?_⟩
  intro loc de de' h1 h2 hne
  rw [hsel loc de, hsel loc de', h1, h2, if_pos rfl, if_neg (by simp)]
  exact findVUID_ne_of_keys_eq loc _ _ (by decide) (by decide) hne

/-- Witness for C2 at a concrete input: `vkCmdPipelineBarrier::srcStageMask`
with opposite synchronization2 states. -/
theorem getBadFeatureVUID_none_sync2_selection_witness :
    GetBadFeatureVUID (Location.mk Func.vkCmdPipelineBarrier Struct.Empty Field.srcStageMask)
        VK_PIPELINE_STAGE_2_NONE (DeviceExtensions.mk true false false) ≠
      GetBadFeatureVUID (Location.mk Func.vkCmdPipelineBarrier Struct.Empty Field.srcStageMask)
        VK_PIPELINE_STAGE_2_NONE (DeviceExtensions.mk false false false) :=
  getBadFeatureVUID_none_sync2_selection.2.2.2.2.2
    (Location.mk Func.vkCmdPipelineBarrier Struct.Empty Field.srcStageMask)
    (DeviceExtensions.mk true false false) (DeviceExtensions.mk false false false)
    rfl rfl (by decide)

/-- C3: when the stage bit is the fragment-shading-rate attachment stage,
`GetBadFeatureVUID` resolves to exactly one table: the combined KHR-and-NV
table whenever the NV shading-rate-image extension is enabled, and the
KHR-only table otherwise; the result is never an identifier of the other
table nor of the unused NV-only table. -/
theorem getBadFeatureVUID_shading_rate_selection :
    (∀ (loc : Location) (de : DeviceExtensions),
        GetBadFeatureVUID loc VK_PIPELINE_STAGE_2_FRAGMENT_SHADING_RATE_ATTACHMENT_BIT_KHR de =
          if de.vk_nv_shading_rate_image then
            FindVUID loc kStageMaskErrorsShadingRateKHRAndNV
          else FindVUID loc kStageMaskErrorsShadingRateKHR) ∧
    (∀ (loc : Location) (de : DeviceExtensions), de.vk_nv_shading_rate_image = true →
        GetBadFeatureVUID loc VK_PIPELINE_STAGE_2_FRAGMENT_SHADING_RATE_ATTACHMENT_BIT_KHR de ∉
          kStageMaskErrorsShadingRateKHR.map Entry.vuid) ∧
    (∀ (loc : Location) (de : DeviceExtensions), de.vk_nv_shading_rate_image = false →
        GetBadFeatureVUID loc VK_PIPELINE_STAGE_2_FRAGMENT_SHADING_RATE_ATTACHMENT_BIT_KHR de ∉
          kStageMaskErrorsShadingRateKHRAndNV.map Entry.vuid) ∧
    (∀ (loc : Location) (de : DeviceExtensions),
        GetBadFeatureVUID loc VK_PIPELINE_STAGE_2_FRAGMENT_SHADING_RATE_ATTACHMENT_BIT_KHR de ∉
          kStageMaskErrorsShadingRateNV.map Entry.vuid) := by
  have hsel : ∀ (loc : Location) (de : DeviceExtensions),
      GetBadFeatureVUID loc VK_PIPELINE_STAGE_2_FRAGMENT_SHADING_RATE_ATTACHMENT_BIT_KHR de =
        if de.vk_nv_shading_rate_image then FindVUID loc kStageMaskErrorsShadingRateKHRAndNV
        else FindVUID loc kStageMaskErrorsShadingRateKHR := by
    intro loc de
    obtain ⟨s2, nv, fsr⟩ := de
    cases nv <;> rfl
  have hker : ∀ (loc : Location) (t : List Entry) (avoid : List String),
      ((t.map Entry.vuid).all fun s => !(avoid.contains s)) = true →
      ("" ∈ avoid → False) →
      FindVUID loc t ∉ avoid := by
    intro loc t avoid hdisj hempty
    rcases findVUID_eq_empty_or_mem loc t with h | h
    · rw [h]; exact hempty
    · exact not_mem_of_all_not_contains h hdisj
  refine ⟨hsel, ?_, ?_, ?_⟩
  · intro loc de hnv
    rw [hsel loc de, hnv, if_pos rfl]
    exact hker loc _ _ (by decide) (by decide)
  · intro loc de hnv
    rw [hsel loc de, hnv, if_neg (by simp)]
    exact hker loc _ _ (by decide) (by decide)
  · intro loc de
    rw [hsel loc de]
    by_cases hnv : de.vk_nv_shading_rate_image = true
    · rw [if_pos hnv]
      exact hker loc _ _ (by decide) (by decide)
    · rw [if_neg hnv]
      exact hker loc _ _ (by decide) (by decide)

/-- Witness for C3 at a concrete input: `VkMemoryBarrier2::srcStageMask` with
the NV extension enabled avoids the KHR-only identifiers. -/
theorem getBadFeatureVUID_shading_rate_selection_witness :
    GetBadFeatureVUID (Location.mk Func.Empty Struct.VkMemoryBarrier2 Field.srcStageMask)
        VK_PIPELINE_STAGE_2_FRAGMENT_SHADING_RATE_ATTACHMENT_BIT_KHR
        (DeviceExtensions.mk false true false) ∉
      kStageMaskErrorsShadingRateKHR.map Entry.vuid :=
  getBadFeatureVUID_shading_rate_selection.2.1
    (Location.mk Func.Empty Struct.VkMemoryBarrier2 Field.srcStageMask)
    (DeviceExtensions.mk false true false) rfl

/-- Every key of `kBarrierQueueErrors` names only a structure, so
`GetBarrierQueueVUID` ignores the location's function and field. -/
theorem getBarrierQueueVUID_struct_only (f : Func) (s : Struct) (fld : Field) (e : QueueError) :
    GetBarrierQueueVUID (Location.mk f s fld) e =
      GetBarrierQueueVUID (Location.mk Func.Empty s Field.Empty) e := by
  cases e <;> cases s <;> rfl

/-- C4: the queue-family ownership-transfer classification has exactly the
five categories; each has a non-empty human-readable summary in
`kQueueErrorSummary`, and at every legacy (non-synchronization2) buffer or
image barrier location `GetBarrierQueueVUID` gives each of the five a
non-empty, non-sentinel VUID, distinct across the five categories. -/
theorem getBarrierQueueVUID_five_categories :
    (∀ e : QueueError,
        e = QueueError.kSrcOrDstMustBeIgnore ∨ e = QueueError.kSpecialOrIgnoreOnly ∨
        e = QueueError.kSrcAndDstValidOrSpecial ∨ e = QueueError.kSrcAndDestMustBeIgnore ∨
        e = QueueError.kSrcAndDstBothValid) ∧
    (∀ e : QueueError, ∃ s : String, mapLookup e kQueueErrorSummary = some s ∧ s ≠ "") ∧
    (∀ loc : Location,
        (loc.struct = Struct.VkBufferMemoryBarrier ∨ loc.struct = Struct.VkImageMemoryBarrier) →
        (∀ e : QueueError,
            GetBarrierQueueVUID loc e ≠ "" ∧
            GetBarrierQueueVUID loc e ≠ "UNASSIGNED-CoreChecks-unhandled-queue-error") ∧
        (∀ e1 e2 : QueueError, e1 ≠ e2 →
            GetBarrierQueueVUID loc e1 ≠ GetBarrierQueueVUID loc e2)) := by
  refine ⟨?_, ?_, ?_⟩
  · intro e
    cases e
    exacts [Or.inl rfl, Or.inr (Or.inl rfl), Or.inr (Or.inr (Or.inl rfl)),
      Or.inr (Or.inr (Or.inr (Or.inl rfl))), Or.inr (Or.inr (Or.inr (Or.inr rfl)))]
  · intro e
    cases e <;> exact ⟨_, rfl, by decide⟩
  · intro loc hs
    obtain ⟨f, s, fld⟩ := loc
    simp only at hs
    rcases hs with hs | hs <;> subst hs <;> constructor
    · intro e
      rw [getBarrierQueueVUID_struct_only]
      cases e <;> exact ⟨by decide, by decide⟩
    · intro e1 e2 hne
      rw [getBarrierQueueVUID_struct_only f _ fld e1, getBarrierQueueVUID_struct_only f _ fld e2]
      cases e1 <;> cases e2 <;> first | exact absurd rfl hne | decide
    · intro e
      rw [getBarrierQueueVUID_struct_only]
      cases e <;> exact ⟨by decide, by decide⟩
    · intro e1 e2 hne
      rw [getBarrierQueueVUID_struct_only f _ fld e1, getBarrierQueueVUID_struct_only f _ fld e2]
      cases e1 <;> cases e2 <;> first | exact absurd rfl hne | decide

/-- Witness for C4 at a concrete input: a legacy image-barrier location. -/
theorem getBarrierQueueVUID_five_categories_witness :
    GetBarrierQueueVUID
        (Location.mk Func.vkCmdPipelineBarrier Struct.VkImageMemoryBarrier Field.Empty)
        QueueError.kSrcAndDstBothValid ≠ "" ∧
      GetBarrierQueueVUID
          (Location.mk Func.vkCmdPipelineBarrier Struct.VkImageMemoryBarrier Field.Empty)
          QueueError.kSrcOrDstMustBeIgnore ≠
        GetBarrierQueueVUID
          (Location.mk Func.vkCmdPipelineBarrier Struct.VkImageMemoryBarrier Field.Empty)
          QueueError.kSrcAndDestMustBeIgnore :=
  ⟨((getBarrierQueueVUID_five_categories.2.2
      (Location.mk Func.vkCmdPipelineBarrier Struct.VkImageMemoryBarrier Field.Empty)
      (Or.inr rfl)).1 QueueError.kSrcAndDstBothValid).1,
    (getBarrierQueueVUID_five_categories.2.2
      (Location.mk Func.vkCmdPipelineBarrier Struct.VkImageMemoryBarrier Field.Empty)
      (Or.inr rfl)).2 QueueError.kSrcOrDstMustBeIgnore QueueError.kSrcAndDestMustBeIgnore
      (by decide)⟩

/-- C5: for every call-site location and capability snapshot,
`GetBadFeatureVUID` returns character-for-character identical identifiers for
the tessellation-control and tessellation-evaluation stage bits — the two
adjacent rows of `kStageMaskErrors` are equal entry lists — and
`kFeatureNameMap` sends both bits to the feature name `tessellationShader`. -/
theorem getBadFeatureVUID_tessellation_alias :
    (∀ (loc : Location) (de : DeviceExtensions),
        GetBadFeatureVUID loc VK_PIPELINE_STAGE_2_TESSELLATION_CONTROL_SHADER_BIT_KHR de =
          GetBadFeatureVUID loc VK_PIPELINE_STAGE_2_TESSELLATION_EVALUATION_SHADER_BIT_KHR de) ∧
    mapLookup VK_PIPELINE_STAGE_2_TESSELLATION_CONTROL_SHADER_BIT_KHR kStageMaskErrors =
      mapLookup VK_PIPELINE_STAGE_2_TESSELLATION_EVALUATION_SHADER_BIT_KHR kStageMaskErrors ∧
    mapLookup VK_PIPELINE_STAGE_2_TESSELLATION_CONTROL_SHADER_BIT_KHR kFeatureNameMap =
      some "tessellationShader" ∧
    mapLookup VK_PIPELINE_STAGE_2_TESSELLATION_EVALUATION_SHADER_BIT_KHR kFeatureNameMap =
      some "tessellationShader" := by
  refine ⟨?_, by decide, by decide, by decide⟩
  intro loc de
  rfl

end sync_vuid_maps

namespace SyncModel

/-- C7: the Hazard Detector reports a hazard if and only if the ranges
overlap, at least one access is a write, and no ordering edge makes one tag
strictly precede the other under scopes covering the accesses; in particular
two reads never hazard and disjoint ranges never hazard. -/
theorem check_hazard_characterization :
    (∀ (edges : List OrderingEdge) (e i : AccessRecord),
        (Check edges e i).isSome =
          (rangesOverlap e.range i.range && (e.isWrite || i.isWrite) &&
            !(orderedBefore edges e i || orderedBefore edges i e))) ∧
    (∀ (edges : List OrderingEdge) (e i : AccessRecord),
        Check edges (AccessRecord.mk e.range e.scope e.tag false)
          (AccessRecord.mk i.range i.scope i.tag false) = none) ∧
    (∀ (edges : List OrderingEdge) (e i : AccessRecord),
        rangesOverlap e.range i.range = false → Check edges e i = none) := by
  refine ⟨?_, ?_, ?_⟩
  · intro edges e i
    unfold Check hazardKind
    cases h1 : rangesOverlap e.range i.range <;>
      cases h2 : orderedBefore edges e i <;>
      cases h3 : orderedBefore edges i e <;>
      cases h4 : e.isWrite <;>
      cases h5 : i.isWrite <;>
      simp [h1, h2, h3, h4, h5]
  · intro edges e i
    unfold Check hazardKind
    split
    · split
      · rfl
      · rfl
    · rfl
  · intro edges e i h
    unfold Check
    simp [h]

/-- Witness for C7 at a concrete input: adjacent, disjoint write ranges. -/
theorem check_hazard_characterization_witness :
    Check [] (AccessRecord.mk (SubresourceRange.mk 0 64) (SyncScope.mk 1 1 0) 0 true)
      (AccessRecord.mk (SubresourceRange.mk 64 128) (SyncScope.mk 1 1 0) 1 true) = none :=
  check_hazard_characterization.2.2 []
    (AccessRecord.mk (SubresourceRange.mk 0 64) (SyncScope.mk 1 1 0) 0 true)
    (AccessRecord.mk (SubresourceRange.mk 64 128) (SyncScope.mk 1 1 0) 1 true) (by decide)

/-- A semaphore no processed batch signalled is filtered away entirely. -/
theorem filter_signals_enumFrom (s : Nat) :
    ∀ (l : List BatchInfo) (n : Nat),
      (l.all fun bi => !(bi.signals.contains s)) = true →
      (List.enumFrom n l).filter (fun p => p.2.signals.contains s) = [] := by
  intro l
  induction l with
  | nil => intro n _; rfl
  | cons b rest ih =>
    intro n h
    rw [List.all_cons, Bool.and_eq_true] at h
    show List.filter _ ((n, b) :: List.enumFrom (n + 1) rest) = []
    rw [List.filter_cons_of_neg (by simpa using h.1)]
    exact ih (n + 1) h.2

/-- A wait on a semaphore with no matching prior signal finds no
signaller. -/
theorem lastSignaller_enum_none (s : Nat) (done : List BatchInfo)
    (h : (done.all fun bi => !(bi.signals.contains s)) = true) :
    lastSignaller s done.enum = none := by
  show ((List.enumFrom 0 done).filter (fun p => p.2.signals.contains s)).getLast? = none
  rw [filter_signals_enumFrom s done 0 h]
  rfl

/-- Adding an unmatched wait to the batch about to be processed leaves the
ordering step unchanged. -/
theorem stepPreds_addWait_head (done : List BatchInfo) (b : Batch) (s : Nat)
    (h : (done.all fun bi => !(bi.signals.contains s)) = true) :
    stepPreds done (Batch.mk b.queue (s :: b.waits) b.signals b.accesses) =
      stepPreds done b := by
  have hnone : lastSignaller s done.enum = none := lastSignaller_enum_none s done h
  unfold stepPreds
  simp only [List.filterMap_cons, hnone, Option.map_none']

/-- Adding an unmatched wait anywhere after the processed prefix leaves the
whole ordering fold unchanged. -/
theorem foldl_stepPreds_addWait (s : Nat) :
    ∀ (bs : List Batch) (k : Nat) (done : List BatchInfo),
      (done.all fun bi => !(bi.signals.contains s)) = true →
      ((bs.take k).all fun b => !(b.signals.contains s)) = true →
      List.foldl stepPreds done (addWait bs k s) = List.foldl stepPreds done bs := by
  intro bs
  induction bs with
  | nil => intro k done _ _; rfl
  | cons b rest ih =>
    intro k done hdone htake
    cases k with
    | zero =>
      show List.foldl stepPreds
          (stepPreds done (Batch.mk b.queue (s :: b.waits) b.signals b.accesses)) rest =
        List.foldl stepPreds (stepPreds done b) rest
      rw [stepPreds_addWait_head done b s hdone]
    | succ k =>
      rw [List.take_succ_cons, List.all_cons, Bool.and_eq_true] at htake
      show List.foldl stepPreds (stepPreds done b) (addWait rest k s) =
        List.foldl stepPreds (stepPreds done b) rest
      apply ih k (stepPreds done b) ?_ htake.2
      unfold stepPreds
      rw [List.all_append, hdone, Bool.true_and]
      simpa using htake.1

/-- `addWait` does not change any batch's accesses, nor their indices. -/
theorem enumFrom_addWait_accesses :
    ∀ (bs : List Batch) (k s n : Nat),
      (List.enumFrom n (addWait bs k s)).map
          (fun p => p.2.accesses.map (fun a => TaggedAccess.mk p.1 a)) =
        (List.enumFrom n bs).map
          (fun p => p.2.accesses.map (fun a => TaggedAccess.mk p.1 a)) := by
  intro bs
  induction bs with
  | nil => intro k s n; rfl
  | cons b rest ih =>
    intro k s n
    cases k with
    | zero => rfl
    | succ k =>
      show _ :: (List.enumFrom (n + 1) (addWait rest k s)).map _ =
        _ :: (List.enumFrom (n + 1) rest).map _
      rw [ih k s (n + 1)]

/-- The flattened, tagged access stream ignores waits. -/
theorem flatAccesses_addWait (bs : List Batch) (k s : Nat) :
    flatAccesses (addWait bs k s) = flatAccesses bs := by
  show ((List.enumFrom 0 (addWait bs k s)).map _).flatten = ((List.enumFrom 0 bs).map _).flatten
  rw [enumFrom_addWait_accesses bs k s 0]

/-- C8, core equality: a wait on a semaphore with no matching prior signal
changes nothing in the reported hazards. -/
theorem streamHazards_addWait (bs : List Batch) (k s : Nat)
    (h : ((bs.take k).all fun b => !(b.signals.contains s)) = true) :
    streamHazards (addWait bs k s) = streamHazards bs := by
  unfold streamHazards batchPreds
  rw [foldl_stepPreds_addWait s bs k [] rfl h, flatAccesses_addWait bs k s]

/-- C8: conservativeness of unmatched waits — adding a semaphore wait whose
semaphore is not signalled by any earlier batch never reduces the set of
reported hazards: the modified stream reports exactly the hazards of the
original stream (the waiting batch stays unordered with respect to every
other queue and its accesses are still checked). -/
theorem unmatched_wait_conservative (bs : List Batch) (k s : Nat)
    (h : ((bs.take k).all fun b => !(b.signals.contains s)) = true) :
    streamHazards (addWait bs k s) = streamHazards bs ∧
      ∀ p ∈ streamHazards bs, p ∈ streamHazards (addWait bs k s) := by
  have heq := streamHazards_addWait bs k s h
  exact ⟨heq, fun p hp => heq ▸ hp⟩

/-- Witness for C8 at a concrete input: two unordered cross-queue writes to
overlapping ranges still hazard after batch 1 acquires an unmatched wait on
semaphore 7. -/
theorem unmatched_wait_conservative_witness :
    (Access.mk 1 (SubresourceRange.mk 0 64) true, Access.mk 1 (SubresourceRange.mk 32 96) true) ∈
      streamHazards (addWait
        [Batch.mk 0 [] [] [Access.mk 1 (SubresourceRange.mk 0 64) true],
         Batch.mk 1 [] [] [Access.mk 1 (SubresourceRange.mk 32 96) true]] 1 7) :=
  (unmatched_wait_conservative
      [Batch.mk 0 [] [] [Access.mk 1 (SubresourceRange.mk 0 64) true],
       Batch.mk 1 [] [] [Access.mk 1 (SubresourceRange.mk 32 96) true]] 1 7 (by decide)).2
    (Access.mk 1 (SubresourceRange.mk 0 64) true, Access.mk 1 (SubresourceRange.mk 32 96) true)
    (by decide)

/-- Conservative overlap is symmetric. -/
theorem overlapC_comm (a b : RangeSpec) : overlapC a b = overlapC b a := by
  cases a with
  | precise x =>
    cases b with
    | precise y =>
      show rangesOverlap x y = rangesOverlap y x
      unfold rangesOverlap
      exact Bool.and_comm _ _
    | aliasUncertain => rfl
  | aliasUncertain => cases b <;> rfl

/-- Hazard position is symmetric in the two records. -/
theorem conflictingPair_symm (edges : List OrderingEdge) (a b : TrackerRecord) :
    conflictingPair edges a b = conflictingPair edges b a := by
  unfold conflictingPair
  rw [overlapC_comm, Bool.or_comm a.isWrite, Bool.or_comm (recOrdered edges a b)]

/-- Growing the edge set only ever orders more pairs. -/
theorem recOrdered_cons_mono (e : OrderingEdge) (edges : List OrderingEdge)
    (a b : TrackerRecord) (h : recOrdered edges a b = true) :
    recOrdered (e :: edges) a b = true := by
  unfold recOrdered at h ⊢
  rw [List.any_cons, h, Bool.or_true]

/-- A pair still in hazard position after an edge was added was already in
hazard position before. -/
theorem conflictingPair_mono (e : OrderingEdge) (edges : List OrderingEdge)
    (a b : TrackerRecord) (h : conflictingPair (e :: edges) a b = true) :
    conflictingPair edges a b = true := by
  unfold conflictingPair at h ⊢
  rw [Bool.and_eq_true, Bool.and_eq_true] at h
  obtain ⟨⟨ho, hw⟩, hn⟩ := h
  rw [Bool.not_eq_true', Bool.or_eq_false_iff] at hn
  rw [Bool.and_eq_true, Bool.and_eq_true, Bool.not_eq_true', Bool.or_eq_false_iff]
  refine ⟨⟨ho, hw⟩, ?_, ?_⟩
  · cases hc : recOrdered edges a b
    · rfl
    · exact absurd (recOrdered_cons_mono e edges a b hc) (Bool.eq_false_iff.mp hn.1)
  · cases hc : recOrdered edges b a
    · rfl
    · exact absurd (recOrdered_cons_mono e edges b a hc) (Bool.eq_false_iff.mp hn.2)

/-- Merging an access preserves the tracker invariant: every new hazard
position involves the inserted record and gets its hazard emitted. -/
theorem trackerStep_record_preserves (st : TrackerState) (range : RangeSpec)
    (scope : SyncScope) (w : Bool) (h : TrackerInv st) :
    TrackerInv (trackerStep st (TrackerOp.record range scope w)) := by
  intro p hp hconf
  rcases List.mem_append.mp hp with hp1 | hp1
  · obtain ⟨y, hy, rfl⟩ := List.mem_map.mp hp1
    right
    apply List.mem_append_left
    apply List.mem_map_of_mem
    apply List.mem_filter.mpr
    refine ⟨hy, ?_⟩
    rw [conflictingPair_symm] at hconf
    exact hconf
  · rcases h p hp1 hconf with hmem | hmem
    · exact Or.inl (List.mem_append_right _ hmem)
    · exact Or.inr (List.mem_append_right _ hmem)

/-- Resolving a barrier preserves the tracker invariant: the new edge only
removes pairs from hazard position. -/
theorem trackerStep_barrier_preserves (st : TrackerState) (src dst : SyncScope)
    (h : TrackerInv st) : TrackerInv (trackerStep st (TrackerOp.barrier src dst)) := by
  intro p hp hconf
  exact h p hp (conflictingPair_mono _ st.edges p.1 p.2 hconf)

/-- The freshly reset tracker satisfies the invariant. -/
theorem trackerInv_initial : TrackerInv initialTracker := by
  intro p hp
  simp [initialTracker, ordPairs] at hp

/-- The invariant is preserved along any operation stream. -/
theorem trackerInv_foldl :
    ∀ (ops : List TrackerOp) (st : TrackerState),
      TrackerInv st → TrackerInv (List.foldl trackerStep st ops) := by
  intro ops
  induction ops with
  | nil => intro st h; exact h
  | cons op rest ih =>
    intro st h
    cases op with
    | record range scope w => exact ih _ (trackerStep_record_preserves st range scope w h)
    | barrier src dst => exact ih _ (trackerStep_barrier_preserves st src dst h)

/-- C9, counterexample to the claim as stated: two concurrent overlapping
*reads* leave the tracker with two live records on the same range whose tags
no edge orders, yet no hazard was emitted for the pair — the Hazard Detector
(§4.4) never hazards two reads, so the invariant cannot hold without a
write-involvement condition. -/
theorem tracker_reads_counterexample :
    let st := runTracker
      [TrackerOp.record (RangeSpec.precise (SubresourceRange.mk 0 64)) (SyncScope.mk 1 1 0) false,
       TrackerOp.record (RangeSpec.precise (SubresourceRange.mk 0 64)) (SyncScope.mk 1 1 0) false]
    ∃ p ∈ ordPairs st.live,
      overlapC p.1.range p.2.range = true ∧
      recOrdered st.edges p.1 p.2 = false ∧ recOrdered st.edges p.2 p.1 = false ∧
      p ∉ st.hazards ∧ (p.2, p.1) ∉ st.hazards := by
  decide

/-- C9 (amended): after any stream of record and barrier operations, the
tracker never holds two live records with conservatively overlapping ranges,
at least one of them a write, and incomparable tags, without a hazard having
been emitted for that pair; and aliasing-uncertain ranges are always treated
as overlapping (no false negatives). -/
theorem tracker_invariant_writes :
    (∀ ops : List TrackerOp, TrackerInv (runTracker ops)) ∧
    (∀ r : RangeSpec, overlapC RangeSpec.aliasUncertain r = true ∧
        overlapC r RangeSpec.aliasUncertain = true) := by
  constructor
  · intro ops
    exact trackerInv_foldl ops initialTracker trackerInv_initial
  · intro r
    cases r <;> exact ⟨rfl, rfl⟩

/-- Witness for C9's amended theorem at a concrete input: two unordered
overlapping writes; the invariant instance forces the emitted hazard. -/
theorem tracker_invariant_writes_witness :
    (TrackerRecord.mk (RangeSpec.precise (SubresourceRange.mk 32 96)) (SyncScope.mk 1 1 0) 1 true,
      TrackerRecord.mk (RangeSpec.precise (SubresourceRange.mk 0 64)) (SyncScope.mk 1 1 0) 0 true) ∈
        (runTracker
          [TrackerOp.record (RangeSpec.precise (SubresourceRange.mk 0 64)) (SyncScope.mk 1 1 0) true,
           TrackerOp.record (RangeSpec.precise (SubresourceRange.mk 32 96)) (SyncScope.mk 1 1 0) true]).hazards ∨
      (TrackerRecord.mk (RangeSpec.precise (SubresourceRange.mk 0 64)) (SyncScope.mk 1 1 0) 0 true,
        TrackerRecord.mk (RangeSpec.precise (SubresourceRange.mk 32 96)) (SyncScope.mk 1 1 0) 1 true) ∈
        (runTracker
          [TrackerOp.record (RangeSpec.precise (SubresourceRange.mk 0 64)) (SyncScope.mk 1 1 0) true,
           TrackerOp.record (RangeSpec.precise (SubresourceRange.mk 32 96)) (SyncScope.mk 1 1 0) true]).hazards :=
  tracker_invariant_writes.1
    [TrackerOp.record (RangeSpec.precise (SubresourceRange.mk 0 64)) (SyncScope.mk 1 1 0) true,
     TrackerOp.record (RangeSpec.precise (SubresourceRange.mk 32 96)) (SyncScope.mk 1 1 0) true]
    (TrackerRecord.mk (RangeSpec.precise (SubresourceRange.mk 32 96)) (SyncScope.mk 1 1 0) 1 true,
      TrackerRecord.mk (RangeSpec.precise (SubresourceRange.mk 0 64)) (SyncScope.mk 1 1 0) 0 true)
    (by decide) (by decide)

end SyncModel
